import Mathlib

/-!
# A shallow embedding of the `oxygen` WebAssembly loader/interpreter

This file embeds, in Lean, the parts of the `oxygen` Rust code base
(`crates/decode/src/leb.rs`, `crates/decode/src/runtime/section/bytecode.rs`,
`crates/decode/src/runtime/decoder.rs` and the section data types) that the
verified properties below are about, and proves or refutes each property.

Modelling conventions, used consistently below:

* Rust `u8`/`u32`/`u64`/`usize` values are Lean `Nat`; `i32`/`i64`/`i128` are
  Lean `Int`.  Where the Rust operation wraps bits (`<<` dropping high bits,
  `as` casts) the embedding applies the corresponding `% 2 ^ w` or
  sign-reinterpretation explicitly.  Where the Rust operation panics in a
  debug build (integer over/underflow, shift amount out of range, division
  by zero), the embedding returns `RErr.panicArith`.
* Rust panics that come from indexing (`v[i]` out of bounds, slice ranges,
  `Option::unwrap`) are `RErr.panicIndex`; `todo!()`/`unimplemented!()` are
  `RErr.panicTodo`; `panic!` in the `Unreachable` opcode is
  `RErr.panicUnreachable`.  `anyhow::Result` errors (from `ensure!`/
  `anyhow!`) are `RErr.anyhowErr`.  The code base carries no further
  information that the claims depend on, so the embedded errors carry no
  message payloads.
* Unbounded loops and recursion are embedded with an explicit `Nat` fuel;
  running out of fuel is the distinguished `RErr.outOfFuel`, which no real
  execution of the Rust code produces.
* `f32`/`f64` payloads are represented by their IEEE-754 bit patterns (as
  `Nat`); floating-point arithmetic and comparisons follow the host's IEEE
  semantics in the source and are outside this model, so the corresponding
  arms return `RErr.floatUnmodeled`.  No claim below touches a float
  operation, and mapping those arms to a dedicated error guarantees no
  theorem can silently depend on them.
-/

namespace Oxygen

/-- The failure modes of the embedded code, see the module docstring. -/
inductive RErr
  | outOfFuel
  | anyhowErr
  | panicIndex
  | panicArith
  | panicTodo
  | panicUnreachable
  | floatUnmodeled
  deriving DecidableEq, Repr

/-- Checked `usize` subtraction: Rust `a - b` panics on underflow in a debug
build. -/
def checkedSub (a b : Nat) : Except RErr Nat :=
  if b ≤ a then .ok (a - b) else .error .panicArith

/-! ## LEB128 codec (`crates/decode/src/leb.rs`) -/

/-- `leb.rs::leb_encode_len`: count the leading continuation bytes
(`buf[count] >= 0b1000_0000`, stopping at the end of the buffer), plus one. -/
def lebContLen : List Nat → Nat
  | [] => 0
  | b :: rest => if 0x80 ≤ b then lebContLen rest + 1 else 0

/-- `leb.rs::leb_encode_len`. -/
def leb_encode_len (buf : List Nat) : Nat :=
  lebContLen buf + 1

/-- The accumulation loop of `leb.rs::decode_leb_u32`:
`r |= ((buf[i] & 0x7f) as u32) << shift; shift += 7;`.  A `u32` shift by an
amount `≥ 32` panics in a debug build; the shifted value keeps its low 32
bits. -/
def lebAccumU32 : List Nat → Nat → Nat → Except RErr Nat
  | [], _, r => .ok r
  | b :: rest, shift, r =>
    if 32 ≤ shift then .error .panicArith
    else lebAccumU32 rest (shift + 7) (r ||| (((b &&& 0x7f) <<< shift) % (2 ^ 32)))

/-- `leb.rs::decode_leb_u32`.  The slice `buf[0..length]` panics when
`length` exceeds the buffer length. -/
def decode_leb_u32 (buf : List Nat) : Except RErr (Nat × Nat) :=
  let length := leb_encode_len buf
  if length ≤ buf.length then
    match lebAccumU32 (buf.take length) 0 0 with
    | .ok r => .ok (r, length)
    | .error e => .error e
  else .error .panicIndex

/-- Same loop for `decode_leb_u64` (`u64` shift panics at `≥ 64`). -/
def lebAccumU64 : List Nat → Nat → Nat → Except RErr Nat
  | [], _, r => .ok r
  | b :: rest, shift, r =>
    if 64 ≤ shift then .error .panicArith
    else lebAccumU64 rest (shift + 7) (r ||| (((b &&& 0x7f) <<< shift) % (2 ^ 64)))

/-- `leb.rs::decode_leb_u64`. -/
def decode_leb_u64 (buf : List Nat) : Except RErr (Nat × Nat) :=
  let length := leb_encode_len buf
  if length ≤ buf.length then
    match lebAccumU64 (buf.take length) 0 0 with
    | .ok r => .ok (r, length)
    | .error e => .error e
  else .error .panicIndex

/-- Reinterpret a 32-bit pattern as a signed `i32` value. -/
def sig32 (n : Nat) : Int :=
  if n < 2 ^ 31 then (n : Int) else (n : Int) - 2 ^ 32

/-- Reinterpret a 64-bit pattern as a signed `i64` value. -/
def sig64 (n : Nat) : Int :=
  if n < 2 ^ 63 then (n : Int) else (n : Int) - 2 ^ 64

/-- The negative-case fold of `decode_leb_i32`, on 32-bit patterns, for the
indices below `length - 1` (iterated from high index to low):
`r = r << 7; r |= (buf[i] & 0x7f) as i32`. -/
def lebNegFold32 : List Nat → Nat → Nat
  | [], rbits => rbits
  | b :: rest, rbits => lebNegFold32 rest (((rbits <<< 7) % (2 ^ 32)) ||| (b &&& 0x7f))

/-- The positive-case loop of `decode_leb_i32` (same accumulation as the
unsigned decoder, on an `i32`, so on the 32-bit pattern). -/
def lebAccumI32 : List Nat → Nat → Nat → Except RErr Nat
  | [], _, r => .ok r
  | b :: rest, shift, r =>
    if 32 ≤ shift then .error .panicArith
    else lebAccumI32 rest (shift + 7) (r ||| (((b &&& 0x7f) <<< shift) % (2 ^ 32)))

/-- `leb.rs::decode_leb_i32`.  When bit 6 of the last consumed byte is set the
result starts from `-1i32` (pattern `0xFFFFFFFF`), is shifted by 6 and or-ed
with `(last & 0x3f) | 0xc0`, then folds the remaining bytes from the top. -/
def decode_leb_i32 (buf : List Nat) : Except RErr (Int × Nat) :=
  let length := leb_encode_len buf
  if length ≤ buf.length then
    let sl := buf.take length
    match sl.getLast? with
    | none => .error .panicIndex
    | some lastB =>
      if 0 < lastB &&& 0x40 then
        match sl.reverse with
        | [] => .error .panicIndex
        | lb :: restRev =>
          let rbits := ((0xFFFFFFFF <<< 6) % (2 ^ 32)) ||| ((lb &&& 0x3f) ||| 0xc0)
          .ok (sig32 (lebNegFold32 restRev rbits), length)
      else
        match lebAccumI32 sl 0 0 with
        | .ok r => .ok (sig32 r, length)
        | .error e => .error e
  else .error .panicIndex

/-- The negative-case fold of `decode_leb_i64`, on 64-bit patterns. -/
def lebNegFold64 : List Nat → Nat → Nat
  | [], rbits => rbits
  | b :: rest, rbits => lebNegFold64 rest (((rbits <<< 7) % (2 ^ 64)) ||| (b &&& 0x7f))

/-- The positive-case loop of `decode_leb_i64`. -/
def lebAccumI64 : List Nat → Nat → Nat → Except RErr Nat
  | [], _, r => .ok r
  | b :: rest, shift, r =>
    if 64 ≤ shift then .error .panicArith
    else lebAccumI64 rest (shift + 7) (r ||| (((b &&& 0x7f) <<< shift) % (2 ^ 64)))

/-- `leb.rs::decode_leb_i64`. -/
def decode_leb_i64 (buf : List Nat) : Except RErr (Int × Nat) :=
  let length := leb_encode_len buf
  if length ≤ buf.length then
    let sl := buf.take length
    match sl.getLast? with
    | none => .error .panicIndex
    | some lastB =>
      if 0 < lastB &&& 0x40 then
        match sl.reverse with
        | [] => .error .panicIndex
        | lb :: restRev =>
          let rbits := ((0xFFFFFFFFFFFFFFFF <<< 6) % (2 ^ 64)) ||| ((lb &&& 0x3f) ||| 0xc0)
          .ok (sig64 (lebNegFold64 restRev rbits), length)
      else
        match lebAccumI64 sl 0 0 with
        | .ok r => .ok (sig64 r, length)
        | .error e => .error e
  else .error .panicIndex

/-- Spec-side definition (for comparison with the decoder, following §4.1 of
the specification): the untruncated mathematical value of an unsigned LEB128
encoding, "accumulate the low 7 bits at increasing shifts" without any width
limit. -/
def lebPayloadGo : List Nat → Nat
  | [] => 0
  | b :: rest => (b &&& 0x7f) + 128 * lebPayloadGo rest

/-- Spec-side: the untruncated value of the first `leb_encode_len buf` bytes. -/
def lebPayloadValue (buf : List Nat) : Nat :=
  lebPayloadGo (buf.take (leb_encode_len buf))

/-! ## Byte cursor (`crates/decode/src/runtime/section/mod.rs`, trait
`ByteRead`, and `crates/decode/src/runtime/constants.rs`) -/

def MAX_NUMBER_OF_BYTE_U32 : Nat := 5
def MAX_NUMBER_OF_BYTE_U64 : Nat := 10

/-- The section-scoped byte cursor: the `offset`/`length`/`get` trio of the
`ByteParse` trait, over the raw image. -/
structure Cursor where
  raw : List Nat
  offset : Nat
  length : Nat
  deriving DecidableEq, Repr

def Cursor.is_eof (c : Cursor) : Bool :=
  c.length < c.offset

def Cursor.skip (c : Cursor) (num : Nat) : Cursor :=
  { c with offset := c.offset + num }

/-- The collection loop of `peek_bytes`: `self.get(self.offset() + i)`, with
a `None` turning into the `anyhow!("overflow")` error.  The raw image is a
`Vec<u8>` in the source; `% 256` keeps the model's entries in the byte range
even when the `raw` list holds larger naturals. -/
def Cursor.getN (c : Cursor) : Nat → Nat → Except RErr (List Nat)
  | _, 0 => .ok []
  | start, n + 1 =>
    match c.raw[start]? with
    | none => .error .anyhowErr
    | some v =>
      match c.getN (start + 1) n with
      | .ok rest => .ok (v % 256 :: rest)
      | .error e => .error e

/-- `ByteRead::peek_bytes`. -/
def Cursor.peek_bytes (c : Cursor) (num : Nat) : Except RErr (List Nat) :=
  if c.is_eof ∨ c.length < c.offset + num then .error .anyhowErr
  else c.getN c.offset num

/-- `ByteRead::read_byte`. -/
def Cursor.read_byte (c : Cursor) : Except RErr (Nat × Cursor) :=
  match c.peek_bytes 1 with
  | .error e => .error e
  | .ok [] => .error .panicIndex
  | .ok (b :: _) => .ok (b, c.skip 1)

/-- `ByteRead::read_bytes`. -/
def Cursor.read_bytes (c : Cursor) (num : Nat) : Except RErr (List Nat × Cursor) :=
  match c.peek_bytes num with
  | .error e => .error e
  | .ok bytes => .ok (bytes, c.skip num)

/-- `ByteRead::read_leb_u32`: peek at most `MAX_NUMBER_OF_BYTE_U32` bytes
(all remaining bytes when fewer are left), decode, skip what was consumed. -/
def Cursor.read_leb_u32 (c : Cursor) : Except RErr (Nat × Cursor) := do
  let remain ← checkedSub c.length c.offset
  let buf ← if remain < MAX_NUMBER_OF_BYTE_U32 then c.peek_bytes remain
            else c.peek_bytes MAX_NUMBER_OF_BYTE_U32
  match decode_leb_u32 buf with
  | .error e => .error e
  | .ok (val, size) => .ok (val, c.skip size)

/-- `ByteRead::read_leb_i32`. -/
def Cursor.read_leb_i32 (c : Cursor) : Except RErr (Int × Cursor) := do
  let remain ← checkedSub c.length c.offset
  let buf ← if remain < MAX_NUMBER_OF_BYTE_U32 then c.peek_bytes remain
            else c.peek_bytes MAX_NUMBER_OF_BYTE_U32
  match decode_leb_i32 buf with
  | .error e => .error e
  | .ok (val, size) => .ok (val, c.skip size)

/-- `ByteRead::read_leb_u64`. -/
def Cursor.read_leb_u64 (c : Cursor) : Except RErr (Nat × Cursor) := do
  let remain ← checkedSub c.length c.offset
  let buf ← if remain < MAX_NUMBER_OF_BYTE_U64 then c.peek_bytes remain
            else c.peek_bytes MAX_NUMBER_OF_BYTE_U64
  match decode_leb_u64 buf with
  | .error e => .error e
  | .ok (val, size) => .ok (val, c.skip size)

/-- `ByteRead::read_leb_i64`. -/
def Cursor.read_leb_i64 (c : Cursor) : Except RErr (Int × Cursor) := do
  let remain ← checkedSub c.length c.offset
  let buf ← if remain < MAX_NUMBER_OF_BYTE_U64 then c.peek_bytes remain
            else c.peek_bytes MAX_NUMBER_OF_BYTE_U64
  match decode_leb_i64 buf with
  | .error e => .error e
  | .ok (val, size) => .ok (val, c.skip size)


/-! ## Properties of the LEB128 codec -/

/-- Disjoint bit-ranges: or-ing a value below `2 ^ s` with a multiple of
`2 ^ s` is addition. -/
theorem lor_mul_pow_eq_add {a : Nat} (c s : Nat) (h : a < 2 ^ s) :
    a ||| c * 2 ^ s = a + c * 2 ^ s := by
  have := Nat.mul_add_lt_is_or (i := s) (b := a) h c
  rw [Nat.lor_comm, Nat.mul_comm c (2 ^ s)]
  omega

/-- The accumulation loop of `decode_leb_u32` computes the payload truncated
to 32 bits: it never reports any overflow. -/
theorem lebAccumU32_spec : ∀ (bs : List Nat) (shift r : Nat),
    shift + 7 * bs.length ≤ 35 → r < 2 ^ shift → r < 2 ^ 32 →
    lebAccumU32 bs shift r = .ok ((r + 2 ^ shift * lebPayloadGo bs) % 2 ^ 32)
  | [], shift, r, _, _, hr32 => by
      simp only [lebAccumU32, lebPayloadGo, Nat.mul_zero, Nat.add_zero]
      congr 1
      omega
  | b :: rest, shift, r, hlen, hr, hr32 => by
      have hlen' : shift + 7 ≤ 35 - 7 * rest.length := by
        simp only [List.length_cons] at hlen; omega
      have hs : shift ≤ 28 := by omega
      have hguard : ¬ 32 ≤ shift := by omega
      rw [lebAccumU32, if_neg hguard]
      have hg127 : b &&& 0x7f ≤ 127 := Nat.and_le_right
      have hM : 2 ^ shift * 2 ^ (32 - shift) = 2 ^ 32 := by
        rw [← pow_add]; congr 1; omega
      have hterm : (((b &&& 0x7f) <<< shift) % 2 ^ 32)
          = ((b &&& 0x7f) % 2 ^ (32 - shift)) * 2 ^ shift := by
        rw [Nat.shiftLeft_eq, ← hM, Nat.mul_comm (2 ^ shift) (2 ^ (32 - shift)),
          Nat.mul_mod_mul_right]
      have hor : r ||| (((b &&& 0x7f) <<< shift) % 2 ^ 32)
          = r + ((b &&& 0x7f) % 2 ^ (32 - shift)) * 2 ^ shift := by
        rw [hterm, lor_mul_pow_eq_add _ _ hr]
      rw [hor]
      have hmodlt : (b &&& 0x7f) % 2 ^ (32 - shift) < 2 ^ (32 - shift) :=
        Nat.mod_lt _ (Nat.pos_pow_of_pos _ (by omega))
      have hmul : ((b &&& 0x7f) % 2 ^ (32 - shift)) * 2 ^ shift
          ≤ (2 ^ (32 - shift) - 1) * 2 ^ shift :=
        Nat.mul_le_mul_right _ (by omega)
      have hpow7 : 2 ^ (shift + 7) = 2 ^ shift * 128 := by rw [pow_add]; norm_num
      have h2 : r + ((b &&& 0x7f) % 2 ^ (32 - shift)) * 2 ^ shift < 2 ^ (shift + 7) := by
        have : ((b &&& 0x7f) % 2 ^ (32 - shift)) * 2 ^ shift ≤ 127 * 2 ^ shift :=
          Nat.mul_le_mul_right _ (le_trans (Nat.mod_le _ _) hg127)
        rw [hpow7]; omega
      have h3 : r + ((b &&& 0x7f) % 2 ^ (32 - shift)) * 2 ^ shift < 2 ^ 32 := by
        have hsub : (2 ^ (32 - shift) - 1) * 2 ^ shift = 2 ^ 32 - 2 ^ shift := by
          rw [Nat.sub_mul, one_mul, Nat.mul_comm, hM]
        omega
      rw [lebAccumU32_spec rest (shift + 7)
        (r + ((b &&& 0x7f) % 2 ^ (32 - shift)) * 2 ^ shift) (by omega) h2 h3]
      congr 1
      -- both sides are the same value modulo 2 ^ 32
      have hdm := Nat.div_add_mod (b &&& 0x7f) (2 ^ (32 - shift))
      set q := (b &&& 0x7f) / 2 ^ (32 - shift) with hq
      set m := (b &&& 0x7f) % 2 ^ (32 - shift) with hm'
      have hexp : r + 2 ^ shift * lebPayloadGo (b :: rest)
          = (r + m * 2 ^ shift + 2 ^ (shift + 7) * lebPayloadGo rest) + q * 2 ^ 32 := by
        show r + 2 ^ shift * ((b &&& 0x7f) + 128 * lebPayloadGo rest) = _
        have : (b &&& 0x7f) = 2 ^ (32 - shift) * q + m := hdm.symm
        rw [this, hpow7, ← hM]
        ring
      rw [hexp, Nat.add_mul_mod_self_right]

/-- Claim C8 (counterexample): the 5-byte sequence `FF FF FF FF 7F` encodes
the 35-bit payload `2 ^ 35 - 1 = 34359738367`, which overflows the declared
32-bit width, yet `decode_leb_u32` returns the truncated value `4294967295`
with consumed length 5, instead of failing with an OVERFLOW error: the
decoder has no overflow detection at all. -/
theorem c8_overflow_counterexample :
    2 ^ 32 ≤ lebPayloadValue [0xFF, 0xFF, 0xFF, 0xFF, 0x7F] ∧
    decode_leb_u32 [0xFF, 0xFF, 0xFF, 0xFF, 0x7F] = .ok (4294967295, 5) :=
  ⟨by decide, rfl⟩

/-- Claim C8 (amended): the 32-bit unsigned LEB128 decoder performs no
overflow detection.  Whenever the computed encoding length fits in the
buffer and spans at most 5 bytes (so that no debug-build shift panic can
fire), the decoder returns the payload truncated to 32 bits — the
mathematical value modulo `2 ^ 32` — together with the consumed length; it
never fails with an OVERFLOW error, even when the payload needs more than
32 bits. -/
theorem c8_amended (buf : List Nat)
    (hlen : leb_encode_len buf ≤ buf.length) (h5 : leb_encode_len buf ≤ 5) :
    decode_leb_u32 buf = .ok (lebPayloadValue buf % 2 ^ 32, leb_encode_len buf) := by
  rw [decode_leb_u32]
  simp only [hlen, if_pos]
  rw [lebAccumU32_spec (buf.take (leb_encode_len buf)) 0 0
    (by simp only [List.length_take]; omega) (by norm_num) (by norm_num)]
  simp [lebPayloadValue]

/-- Claim C8 (witness for the amended theorem), at the counterexample's
input. -/
theorem c8_amended_witness :
    decode_leb_u32 [0xFF, 0xFF, 0xFF, 0xFF, 0x7F]
      = .ok (lebPayloadValue [0xFF, 0xFF, 0xFF, 0xFF, 0x7F] % 2 ^ 32,
             leb_encode_len [0xFF, 0xFF, 0xFF, 0xFF, 0x7F]) :=
  c8_amended [0xFF, 0xFF, 0xFF, 0xFF, 0x7F] (by decide) (by decide)

/-- Claim C9: decoding the byte sequence `E5 8E 26` with the unsigned 32-bit
LEB128 decoder yields the value 624485 with a consumed byte length of 3. -/
theorem c9_decode_624485 :
    decode_leb_u32 [0xE5, 0x8E, 0x26] = .ok (624485, 3) := rfl

/-! ## Section data types (`typings.rs`, `opcode.rs`) -/

/-- `typings.rs::ValueType`. -/
inductive ValueType
  | ExternRef
  | FuncRef
  | I32
  | I64
  | F32
  | F64
  | V128
  deriving DecidableEq, Repr

/-- `typings.rs::ValueType::from_u8`. -/
def ValueType.from_u8 (value : Nat) : Except RErr ValueType :=
  match value with
  | 0x6f => .ok .ExternRef
  | 0x70 => .ok .FuncRef
  | 0x7f => .ok .I32
  | 0x7e => .ok .I64
  | 0x7d => .ok .F32
  | 0x7c => .ok .F64
  | 0x7b => .ok .V128
  | _ => .error .anyhowErr

/-- `opcode.rs::Location`: `(start, end, len)` — in the decoder's use, the
body-start pc, the end (or else) pc, and the last-instruction pc of a
structured block. -/
structure Location where
  s0 : Nat
  s1 : Nat
  s2 : Nat
  deriving DecidableEq, Repr

/-- `opcode.rs::BlockType`. -/
inductive BlockType
  | NOP
  | ValueType (v : ValueType)
  | Value (v : Nat)
  deriving DecidableEq, Repr

/-- `opcode.rs::BlockType::from_u32` (`v as u8` keeps the low 8 bits). -/
def BlockType.from_u32 (v : Nat) : BlockType :=
  match v with
  | 0x40 => .NOP
  | _ =>
    match ValueType.from_u8 (v % 256) with
    | .ok t => .ValueType t
    | .error _ => .Value v

/-- `opcode.rs::FD`: the `0xFD`-prefixed (SIMD) opcodes, decoded but not executed. -/
inductive FD
  | V128Load (a0 : Nat) (a1 : Nat)
  | V128Load8x8s (a0 : Nat) (a1 : Nat)
  | V128Load8x8u (a0 : Nat) (a1 : Nat)
  | V128Load16x4s (a0 : Nat) (a1 : Nat)
  | V128Load16x4u (a0 : Nat) (a1 : Nat)
  | V128Load32x2s (a0 : Nat) (a1 : Nat)
  | V128Load32x2u (a0 : Nat) (a1 : Nat)
  | V128Load8splat (a0 : Nat) (a1 : Nat)
  | V128Load16splat (a0 : Nat) (a1 : Nat)
  | V128Load32splat (a0 : Nat) (a1 : Nat)
  | V128Load64splat (a0 : Nat) (a1 : Nat)
  | V128Load32zero (a0 : Nat) (a1 : Nat)
  | V128Load64zero (a0 : Nat) (a1 : Nat)
  | V128Store (a0 : Nat) (a1 : Nat)
  | V128Load8lane (a0 : Nat) (a1 : Nat) (a2 : Nat)
  | V128Load16lane (a0 : Nat) (a1 : Nat) (a2 : Nat)
  | V128Load32lane (a0 : Nat) (a1 : Nat) (a2 : Nat)
  | V128Load64lane (a0 : Nat) (a1 : Nat) (a2 : Nat)
  | V128Store8lane (a0 : Nat) (a1 : Nat) (a2 : Nat)
  | V128Store16lane (a0 : Nat) (a1 : Nat) (a2 : Nat)
  | V128Store32lane (a0 : Nat) (a1 : Nat) (a2 : Nat)
  | V128Store64lane (a0 : Nat) (a1 : Nat) (a2 : Nat)
  | V128Const (a0 : Int)
  | I8x16Shuffle (a0 : List Nat)
  | I8x16ExtractLaneS (a0 : Nat)
  | I8x16ExtractLaneU (a0 : Nat)
  | I8x16ReplaceLane (a0 : Nat)
  | I16x8ExtractLaneS (a0 : Nat)
  | I16x8ExtractLaneU (a0 : Nat)
  | I16x8ReplaceLane (a0 : Nat)
  | I32x4ExtractLane (a0 : Nat)
  | I32x4ReplaceLane (a0 : Nat)
  | I64x2ExtractLane (a0 : Nat)
  | I64x2ReplaceLane (a0 : Nat)
  | F32x4ExtractLane (a0 : Nat)
  | F32x4ReplaceLane (a0 : Nat)
  | F64x2ExtractLane (a0 : Nat)
  | F64x2ReplaceLane (a0 : Nat)
  | I8x16Swizzle
  | I8x16Splat
  | I16x8Splat
  | I32x4Splat
  | I64x2Splat
  | F32x4Splat
  | F64x2Splat
  | I8x16Eq
  | I8x16Ne
  | I8x16Lts
  | I8x16Ltu
  | I8x16Gts
  | I8x16Gtu
  | I8x16Les
  | I8x16Leu
  | I8x16Ges
  | I8x16Geu
  | I16x8Eq
  | I16x8Ne
  | I16x8Lts
  | I16x8Ltu
  | I16x8Gts
  | I16x8Gtu
  | I16x8Les
  | I16x8Leu
  | I16x8Ges
  | I16x8Geu
  | I32x4Eq
  | I32x4Ne
  | I32x4Lts
  | I32x4Ltu
  | I32x4Gts
  | I32x4Gtu
  | I32x4Les
  | I32x4Leu
  | I32x4Ges
  | I32x4Geu
  | I64x2Eq
  | I64x2Ne
  | I64x2Lts
  | I64x2Gts
  | I64x2Les
  | I64x2Ges
  | F32x4Eq
  | F32x4Ne
  | F32x4Lts
  | F32x4Gts
  | F32x4Les
  | F32x4Ges
  | F64x2Eq
  | F64x2Ne
  | F64x2Lts
  | F64x2Gts
  | F64x2Les
  | F64x2Ges
  | V128Not
  | V128And
  | V128AndNot
  | V128Or
  | V128Xor
  | V128BitSelect
  | V128AnyTrue
  | I8x16Abs
  | I8x16Neg
  | I8x16Popcnt
  | I8x16AllTrue
  | I8x16BitMask
  | I8x16Narrow16x8s
  | I8x16Narrow16x8u
  | I8x16Shl
  | I8x16Shrs
  | I8x16Shru
  | I8x16Add
  | I8x16AddSats
  | I8x16AddSatu
  | I8x16Sub
  | I8x16SubStas
  | I8x16SubStau
  | I8x16Mins
  | I8x16Minu
  | I8x16Maxs
  | I8x16Maxu
  | I8x16Avgru
  | I16x8ExtaddPariwiseI8x16s
  | I16x8ExtaddPariwiseI8x16u
  | I16x8Abs
  | I16x8Neg
  | I16x8Q15MulrSats
  | I16x8AllTrue
  | I16x8BitMask
  | I16x8NarrowI32x4s
  | I16x8NarrowI32x4u
  | I16x8ExtendLowI8x16s
  | I16x8ExtendHighI8x16s
  | I16x8ExtendLowI8x16u
  | I16x8ExtendHighI8x16u
  | I16x8Shl
  | I16x8Shrs
  | I16x8Shru
  | I16x8Add
  | I16x8AddSats
  | I16x8AddSatu
  | I16x8Sub
  | I16x8SubSats
  | I16x8SubSatu
  | I16x8Mul
  | I16x8Mins
  | I16x8Minu
  | I16x8Maxs
  | I16x8Maxu
  | I16x8Avgru
  | I16x8ExtmulLowI8x16s
  | I16x8ExtmulHighI8x16s
  | I16x8ExtmulLowI8x16u
  | I16x8ExtmulHighI8x16u
  | I32x4ExtaddPariwiseI8x16s
  | I32x4ExtaddPariwiseI8x16u
  | I32x4Abs
  | I32x4Neg
  | I32x4AllTrue
  | I32x4BitMask
  | I32x4ExtendLowI8x16s
  | I32x4ExtendHighI8x16s
  | I32x4ExtendLowI8x16u
  | I32x4ExtendHighI8x16u
  | I32x4Shl
  | I32x4Shrs
  | I32x4Shru
  | I32x4Add
  | I32x4Sub
  | I32x4Mul
  | I32x4Mins
  | I32x4Minu
  | I32x4Maxs
  | I32x4Maxu
  | I32x4DotI16x8
  | I32x4ExtmulLowI8x16s
  | I32x4ExtmulHighI8x16s
  | I32x4ExtmulLowI8x16u
  | I32x4ExtmulHighI8x16u
  | I64x2Abs
  | I64x2Neg
  | I64x2AllTrue
  | I64x2BitMask
  | I64x2ExtendLowI32x4s
  | I64x2ExtendHighI32x4s
  | I64x2ExtendLowI32x4u
  | I64x2ExtendHighI32x4u
  | I64x2Shl
  | I64x2Shrs
  | I64x2Shru
  | I64x2Add
  | I64x2Sub
  | I64x2Mul
  | I64x2ExtmulLowI32x4s
  | I64x2ExtmulHighI32x4s
  | I64x2ExtmulLowI32x4u
  | I64x2ExtmulHighI32x4u
  | F32x4Ceil
  | F32x4Floor
  | F32x4Trunc
  | F32x4Nearest
  | F32x4Abs
  | F32x4Neg
  | F32x4Sqrt
  | F32x4Add
  | F32x4Sub
  | F32x4Mul
  | F32x4Div
  | F32x4Min
  | F32x4Max
  | F32x4Pmin
  | F32x4Pmax
  | F64x2Ceil
  | F64x2Floor
  | F64x2Trunc
  | F64x2Nearest
  | F64x2Abs
  | F64x2Neg
  | F64x2Sqrt
  | F64x2Add
  | F64x2Sub
  | F64x2Mul
  | F64x2Div
  | F64x2Min
  | F64x2Max
  | F64x2Pmin
  | F64x2Pmax
  | I32x4TruncSatF32x4s
  | I32x4TruncSatF32x4u
  | I32x4ConvertI32x4s
  | I32x4ConvertI32x4u
  | I32x4TruncSatF64x2sZero
  | I32x4TruncSatF64x2uZero
  | I32x4ConvertLowI32x4s
  | I32x4ConvertLowI32x4u
  | I32x4DemoteF64x2zero
  | I32x4PremoteLowF32x4
  deriving Repr

/-- `opcode.rs::Opcode`: the full instruction set, with resolved control-flow
targets on the structured variants exactly as in the source. -/
inductive Opcode
  | Unreachable
  | Nop
  | Block (a0 : BlockType) (a1 : Location)
  | Loop (a0 : BlockType) (a1 : Location)
  | If (a0 : BlockType) (a1 : Location)
  | Else (a0 : Location)
  | End (a0 : Nat)
  | Br (a0 : Nat) (a1 : Nat)
  | BrIf (a0 : Nat) (a1 : Nat)
  | BrTable (a0 : Nat) (a1 : List (Nat × Nat)) (a2 : (Nat × Nat))
  | Return
  | Call (a0 : Nat)
  | CallIndirect (a0 : Nat) (a1 : Nat)
  | RefNull (a0 : Nat)
  | RefIsNull
  | RefFunc (a0 : Nat)
  | Drop
  | Select
  | SelectType (a0 : Nat) (a1 : List Nat)
  | LocalGet (a0 : Nat)
  | LocalSet (a0 : Nat)
  | LocalTee (a0 : Nat)
  | GlobalGet (a0 : Nat)
  | GlobalSet (a0 : Nat)
  | TableGet (a0 : Nat)
  | TableSet (a0 : Nat)
  | I32Load (a0 : Nat) (a1 : Nat)
  | I64Load (a0 : Nat) (a1 : Nat)
  | F32Load (a0 : Nat) (a1 : Nat)
  | F64Load (a0 : Nat) (a1 : Nat)
  | I32Load8s (a0 : Nat) (a1 : Nat)
  | I32Load8u (a0 : Nat) (a1 : Nat)
  | I32Load16s (a0 : Nat) (a1 : Nat)
  | I32Load16u (a0 : Nat) (a1 : Nat)
  | I64Load8s (a0 : Nat) (a1 : Nat)
  | I64Load8u (a0 : Nat) (a1 : Nat)
  | I64Load16s (a0 : Nat) (a1 : Nat)
  | I64Load16u (a0 : Nat) (a1 : Nat)
  | I64Load32s (a0 : Nat) (a1 : Nat)
  | I64Load32u (a0 : Nat) (a1 : Nat)
  | I32Store (a0 : Nat) (a1 : Nat)
  | I64Store (a0 : Nat) (a1 : Nat)
  | F32Store (a0 : Nat) (a1 : Nat)
  | F64Store (a0 : Nat) (a1 : Nat)
  | I32Store8 (a0 : Nat) (a1 : Nat)
  | I32Store16 (a0 : Nat) (a1 : Nat)
  | I64Store8 (a0 : Nat) (a1 : Nat)
  | I64Store16 (a0 : Nat) (a1 : Nat)
  | I64Store32 (a0 : Nat) (a1 : Nat)
  | MemorySize
  | MemoryGrow
  | I32Const (a0 : Int)
  | I64Const (a0 : Int)
  | F32Const (a0 : Nat)
  | F64Const (a0 : Nat)
  | I32Eqz
  | I32Eq
  | I32Ne
  | I32Lts
  | I32Ltu
  | I32Gts
  | I32Gtu
  | I32Les
  | I32Leu
  | I32Ges
  | I32Geu
  | I64Eqz
  | I64Eq
  | I64Ne
  | I64Lts
  | I64Ltu
  | I64Gts
  | I64Gtu
  | I64Les
  | I64Leu
  | I64Ges
  | I64Geu
  | F32Eq
  | F32Ne
  | F32Lt
  | F32Gt
  | F32Le
  | F32Ge
  | F64Eq
  | F64Ne
  | F64Lt
  | F64Gt
  | F64Le
  | F64Ge
  | I32Clz
  | I32Ctz
  | I32Popcnt
  | I32Add
  | I32Sub
  | I32Mul
  | I32DivS
  | I32DivU
  | I32RemS
  | I32RemU
  | I32And
  | I32Or
  | I32Xor
  | I32Shl
  | I32ShlS
  | I32ShlU
  | I32Rotl
  | I32Rotr
  | I64Clz
  | I64Ctz
  | I64Popcnt
  | I64Add
  | I64Sub
  | I64Mul
  | I64DivS
  | I64DivU
  | I64RemS
  | I64RemU
  | I64And
  | I64Or
  | I64Xor
  | I64Shl
  | I64ShlS
  | I64ShlU
  | I64Rotl
  | I64Rotr
  | F32Abs
  | F32Neg
  | F32Ceil
  | F32Floor
  | F32Trunc
  | F32Nearest
  | F32Sqrt
  | F32Add
  | F32Sub
  | F32Mul
  | F32Div
  | F32Min
  | F32Max
  | F32Copysign
  | F64Abs
  | F64Neg
  | F64Ceil
  | F64Floor
  | F64Trunc
  | F64Nearest
  | F64Sqrt
  | F64Add
  | F64Sub
  | F64Mul
  | F64Div
  | F64Min
  | F64Max
  | F64Copysign
  | I32WrapI64
  | I32TruncF32s
  | I32TruncF32u
  | I32TruncF64s
  | I32TruncF64u
  | I64ExtendsI32s
  | I64ExtendsI32u
  | I64TruncF32s
  | I64TruncF32u
  | I64TruncF64s
  | I64TruncF64u
  | F32ConvertI32s
  | F32ConvertI32u
  | F32ConvertI64s
  | F32ConvertI64u
  | F32DemoteF64
  | F64ConvertI32s
  | F64ConvertI32u
  | F64ConvertI64s
  | F64ConvertI64u
  | F64DemoteF32
  | I32ReinterpretF32
  | I64ReinterpretF64
  | F32ReinterpretI32
  | F64ReinterpretI64
  | I32Extends8s
  | I32Extends16s
  | I64Extends8s
  | I64Extends16s
  | I64Extends32s
  | FD (a0 : FD)
  | I32TruncSatF32s
  | I32TruncSatF32u
  | I32TruncSatF64s
  | I32TruncSatF64u
  | I64TruncSatF32s
  | I64TruncSatF32u
  | I64TruncSatF64s
  | I64TruncSatF64u
  | MemoryInit (a0 : Nat)
  | DataDrop (a0 : Nat)
  | MemoryCopy
  | MemoryFill
  | TableInit (a0 : Nat) (a1 : Nat)
  | ElemDrop (a0 : Nat)
  | TableCopy (a0 : Nat) (a1 : Nat)
  | TableGrow (a0 : Nat)
  | TableSize (a0 : Nat)
  | TableFill (a0 : Nat)
  | Reserved (a0 : Nat)
  deriving Repr

/-! ## Instruction decoder (`crates/decode/src/runtime/section/bytecode.rs`) -/

/-- Little-endian byte-list to natural (`from_le_bytes`). -/
def leNat : List Nat → Nat
  | [] => 0
  | b :: rest => b + 256 * leNat rest

/-- Reinterpret a 128-bit pattern as a signed `i128` value. -/
def sig128 (n : Nat) : Int :=
  if n < 2 ^ 127 then (n : Int) else (n : Int) - 2 ^ 128

/-- Branch-target lookup `blocks[len - 1 - label]` (the `0x0c` arm's index
order; the subtractions panic on underflow in a debug build). -/
def blockIdxA (blocks : List Nat) (label : Nat) : Except RErr Nat := do
  let i1 ← checkedSub blocks.length 1
  let i ← checkedSub i1 label
  match blocks[i]? with
  | some t => .ok t
  | none => .error .panicIndex

/-- Branch-target lookup `blocks[len - label - 1]` (the `0x0d`/`0x0e` arms'
index order). -/
def blockIdxB (blocks : List Nat) (label : Nat) : Except RErr Nat := do
  let i1 ← checkedSub blocks.length label
  let i ← checkedSub i1 1
  match blocks[i]? with
  | some t => .ok t
  | none => .error .panicIndex

/-- The `br_table` entry loop: `count` times, read a label and pair it with
its resolved target. -/
def readBrEntries (blocks : List Nat) : Nat → Cursor → Except RErr (List (Nat × Nat) × Cursor)
  | 0, st => .ok ([], st)
  | n + 1, st =>
    match st.read_leb_u32 with
    | .error e => .error e
    | .ok (i, st) =>
      match blockIdxB blocks i with
      | .error e => .error e
      | .ok t =>
        match readBrEntries blocks n st with
        | .error e => .error e
        | .ok (rest, st) => .ok ((i, t) :: rest, st)

/-- The `select t*` type-list loop (`0x1c`): `count` bytes. -/
def readSelectTypes : Nat → Cursor → Except RErr (List Nat × Cursor)
  | 0, st => .ok ([], st)
  | n + 1, st =>
    match st.read_byte with
    | .error e => .error e
    | .ok (b, st) =>
      match readSelectTypes n st with
      | .error e => .error e
      | .ok (rest, st) => .ok (b :: rest, st)
set_option maxHeartbeats 3200000 in
/-- `bytecode.rs::parse_fd`: decode the `0xFD`-prefixed (SIMD) opcode `code`,
reading its immediates from the cursor. -/
def parse_fd (code : Nat) (st : Cursor) : Except RErr (FD × Cursor) :=
  match code with
  | 0 =>
    match st.read_leb_u32 with
    | .error e => .error e
    | .ok (x0, st) =>
      match st.read_leb_u32 with
      | .error e => .error e
      | .ok (x1, st) =>
        .ok (.V128Load x0 x1, st)
  | 1 =>
    match st.read_leb_u32 with
    | .error e => .error e
    | .ok (x0, st) =>
      match st.read_leb_u32 with
      | .error e => .error e
      | .ok (x1, st) =>
        .ok (.V128Load8x8s x0 x1, st)
  | 2 =>
    match st.read_leb_u32 with
    | .error e => .error e
    | .ok (x0, st) =>
      match st.read_leb_u32 with
      | .error e => .error e
      | .ok (x1, st) =>
        .ok (.V128Load8x8u x0 x1, st)
  | 3 =>
    match st.read_leb_u32 with
    | .error e => .error e
    | .ok (x0, st) =>
      match st.read_leb_u32 with
      | .error e => .error e
      | .ok (x1, st) =>
        .ok (.V128Load16x4s x0 x1, st)
  | 4 =>
    match st.read_leb_u32 with
    | .error e => .error e
    | .ok (x0, st) =>
      match st.read_leb_u32 with
      | .error e => .error e
      | .ok (x1, st) =>
        .ok (.V128Load16x4u x0 x1, st)
  | 5 =>
    match st.read_leb_u32 with
    | .error e => .error e
    | .ok (x0, st) =>
      match st.read_leb_u32 with
      | .error e => .error e
      | .ok (x1, st) =>
        .ok (.V128Load32x2s x0 x1, st)
  | 6 =>
    match st.read_leb_u32 with
    | .error e => .error e
    | .ok (x0, st) =>
      match st.read_leb_u32 with
      | .error e => .error e
      | .ok (x1, st) =>
        .ok (.V128Load32x2u x0 x1, st)
  | 7 =>
    match st.read_leb_u32 with
    | .error e => .error e
    | .ok (x0, st) =>
      match st.read_leb_u32 with
      | .error e => .error e
      | .ok (x1, st) =>
        .ok (.V128Load8splat x0 x1, st)
  | 8 =>
    match st.read_leb_u32 with
    | .error e => .error e
    | .ok (x0, st) =>
      match st.read_leb_u32 with
      | .error e => .error e
      | .ok (x1, st) =>
        .ok (.V128Load16splat x0 x1, st)
  | 9 =>
    match st.read_leb_u32 with
    | .error e => .error e
    | .ok (x0, st) =>
      match st.read_leb_u32 with
      | .error e => .error e
      | .ok (x1, st) =>
        .ok (.V128Load32splat x0 x1, st)
  | 10 =>
    match st.read_leb_u32 with
    | .error e => .error e
    | .ok (x0, st) =>
      match st.read_leb_u32 with
      | .error e => .error e
      | .ok (x1, st) =>
        .ok (.V128Load64splat x0 x1, st)
  | 92 =>
    match st.read_leb_u32 with
    | .error e => .error e
    | .ok (x0, st) =>
      match st.read_leb_u32 with
      | .error e => .error e
      | .ok (x1, st) =>
        .ok (.V128Load32zero x0 x1, st)
  | 93 =>
    match st.read_leb_u32 with
    | .error e => .error e
    | .ok (x0, st) =>
      match st.read_leb_u32 with
      | .error e => .error e
      | .ok (x1, st) =>
        .ok (.V128Load64zero x0 x1, st)
  | 11 =>
    match st.read_leb_u32 with
    | .error e => .error e
    | .ok (x0, st) =>
      match st.read_leb_u32 with
      | .error e => .error e
      | .ok (x1, st) =>
        .ok (.V128Store x0 x1, st)
  | 84 =>
    match st.read_leb_u32 with
    | .error e => .error e
    | .ok (x0, st) =>
      match st.read_leb_u32 with
      | .error e => .error e
      | .ok (x1, st) =>
        match st.read_byte with
        | .error e => .error e
        | .ok (x2, st) =>
          .ok (.V128Load8lane x0 x1 x2, st)
  | 85 =>
    match st.read_leb_u32 with
    | .error e => .error e
    | .ok (x0, st) =>
      match st.read_leb_u32 with
      | .error e => .error e
      | .ok (x1, st) =>
        match st.read_byte with
        | .error e => .error e
        | .ok (x2, st) =>
          .ok (.V128Load16lane x0 x1 x2, st)
  | 86 =>
    match st.read_leb_u32 with
    | .error e => .error e
    | .ok (x0, st) =>
      match st.read_leb_u32 with
      | .error e => .error e
      | .ok (x1, st) =>
        match st.read_byte with
        | .error e => .error e
        | .ok (x2, st) =>
          .ok (.V128Load32lane x0 x1 x2, st)
  | 87 =>
    match st.read_leb_u32 with
    | .error e => .error e
    | .ok (x0, st) =>
      match st.read_leb_u32 with
      | .error e => .error e
      | .ok (x1, st) =>
        match st.read_byte with
        | .error e => .error e
        | .ok (x2, st) =>
          .ok (.V128Load64lane x0 x1 x2, st)
  | 88 =>
    match st.read_leb_u32 with
    | .error e => .error e
    | .ok (x0, st) =>
      match st.read_leb_u32 with
      | .error e => .error e
      | .ok (x1, st) =>
        match st.read_byte with
        | .error e => .error e
        | .ok (x2, st) =>
          .ok (.V128Store8lane x0 x1 x2, st)
  | 89 =>
    match st.read_leb_u32 with
    | .error e => .error e
    | .ok (x0, st) =>
      match st.read_leb_u32 with
      | .error e => .error e
      | .ok (x1, st) =>
        match st.read_byte with
        | .error e => .error e
        | .ok (x2, st) =>
          .ok (.V128Store16lane x0 x1 x2, st)
  | 90 =>
    match st.read_leb_u32 with
    | .error e => .error e
    | .ok (x0, st) =>
      match st.read_leb_u32 with
      | .error e => .error e
      | .ok (x1, st) =>
        match st.read_byte with
        | .error e => .error e
        | .ok (x2, st) =>
          .ok (.V128Store32lane x0 x1 x2, st)
  | 91 =>
    match st.read_leb_u32 with
    | .error e => .error e
    | .ok (x0, st) =>
      match st.read_leb_u32 with
      | .error e => .error e
      | .ok (x1, st) =>
        match st.read_byte with
        | .error e => .error e
        | .ok (x2, st) =>
          .ok (.V128Store64lane x0 x1 x2, st)
  | 12 =>
    match st.read_bytes 16 with
    | .error e => .error e
    | .ok (num, st) => .ok (.V128Const (sig128 (leNat num)), st)
  | 13 =>
    match st.read_bytes 16 with
    | .error e => .error e
    | .ok (bs, st) => .ok (.I8x16Shuffle bs, st)
  | 21 =>
    match st.read_byte with
    | .error e => .error e
    | .ok (x0, st) =>
      .ok (.I8x16ExtractLaneS x0, st)
  | 22 =>
    match st.read_byte with
    | .error e => .error e
    | .ok (x0, st) =>
      .ok (.I8x16ExtractLaneU x0, st)
  | 23 =>
    match st.read_byte with
    | .error e => .error e
    | .ok (x0, st) =>
      .ok (.I8x16ReplaceLane x0, st)
  | 24 =>
    match st.read_byte with
    | .error e => .error e
    | .ok (x0, st) =>
      .ok (.I16x8ExtractLaneS x0, st)
  | 25 =>
    match st.read_byte with
    | .error e => .error e
    | .ok (x0, st) =>
      .ok (.I16x8ExtractLaneU x0, st)
  | 26 =>
    match st.read_byte with
    | .error e => .error e
    | .ok (x0, st) =>
      .ok (.I16x8ReplaceLane x0, st)
  | 27 =>
    match st.read_byte with
    | .error e => .error e
    | .ok (x0, st) =>
      .ok (.I32x4ExtractLane x0, st)
  | 28 =>
    match st.read_byte with
    | .error e => .error e
    | .ok (x0, st) =>
      .ok (.I32x4ReplaceLane x0, st)
  | 29 =>
    match st.read_byte with
    | .error e => .error e
    | .ok (x0, st) =>
      .ok (.I64x2ExtractLane x0, st)
  | 30 =>
    match st.read_byte with
    | .error e => .error e
    | .ok (x0, st) =>
      .ok (.I64x2ReplaceLane x0, st)
  | 31 =>
    match st.read_byte with
    | .error e => .error e
    | .ok (x0, st) =>
      .ok (.F32x4ExtractLane x0, st)
  | 32 =>
    match st.read_byte with
    | .error e => .error e
    | .ok (x0, st) =>
      .ok (.F32x4ReplaceLane x0, st)
  | 33 =>
    match st.read_byte with
    | .error e => .error e
    | .ok (x0, st) =>
      .ok (.F64x2ExtractLane x0, st)
  | 34 =>
    match st.read_byte with
    | .error e => .error e
    | .ok (x0, st) =>
      .ok (.F64x2ReplaceLane x0, st)
  | 14 => .ok (.I8x16Swizzle, st)
  | 15 => .ok (.I8x16Splat, st)
  | 16 => .ok (.I16x8Splat, st)
  | 17 => .ok (.I32x4Splat, st)
  | 18 => .ok (.I64x2Splat, st)
  | 19 => .ok (.F32x4Splat, st)
  | 20 => .ok (.F64x2Splat, st)
  | 35 => .ok (.I8x16Eq, st)
  | 36 => .ok (.I8x16Ne, st)
  | 37 => .ok (.I8x16Lts, st)
  | 38 => .ok (.I8x16Ltu, st)
  | 39 => .ok (.I8x16Gts, st)
  | 40 => .ok (.I8x16Gtu, st)
  | 41 => .ok (.I8x16Les, st)
  | 42 => .ok (.I8x16Leu, st)
  | 43 => .ok (.I8x16Ges, st)
  | 44 => .ok (.I8x16Geu, st)
  | 45 => .ok (.I16x8Eq, st)
  | 46 => .ok (.I16x8Ne, st)
  | 47 => .ok (.I16x8Lts, st)
  | 48 => .ok (.I16x8Ltu, st)
  | 49 => .ok (.I16x8Gts, st)
  | 50 => .ok (.I16x8Gtu, st)
  | 51 => .ok (.I16x8Les, st)
  | 52 => .ok (.I16x8Leu, st)
  | 53 => .ok (.I16x8Ges, st)
  | 54 => .ok (.I16x8Geu, st)
  | 55 => .ok (.I32x4Eq, st)
  | 56 => .ok (.I32x4Ne, st)
  | 57 => .ok (.I32x4Lts, st)
  | 58 => .ok (.I32x4Ltu, st)
  | 59 => .ok (.I32x4Gts, st)
  | 60 => .ok (.I32x4Gtu, st)
  | 61 => .ok (.I32x4Les, st)
  | 62 => .ok (.I32x4Leu, st)
  | 63 => .ok (.I32x4Ges, st)
  | 64 => .ok (.I32x4Geu, st)
  | 214 => .ok (.I64x2Eq, st)
  | 215 => .ok (.I64x2Ne, st)
  | 216 => .ok (.I64x2Lts, st)
  | 217 => .ok (.I64x2Gts, st)
  | 218 => .ok (.I64x2Les, st)
  | 219 => .ok (.I64x2Ges, st)
  | 65 => .ok (.F32x4Eq, st)
  | 66 => .ok (.F32x4Ne, st)
  | 67 => .ok (.F32x4Lts, st)
  | 68 => .ok (.F32x4Gts, st)
  | 69 => .ok (.F32x4Les, st)
  | 70 => .ok (.F32x4Ges, st)
  | 71 => .ok (.F64x2Eq, st)
  | 72 => .ok (.F64x2Ne, st)
  | 73 => .ok (.F64x2Lts, st)
  | 74 => .ok (.F64x2Gts, st)
  | 75 => .ok (.F64x2Les, st)
  | 76 => .ok (.F64x2Ges, st)
  | 77 => .ok (.V128Not, st)
  | 78 => .ok (.V128And, st)
  | 79 => .ok (.V128AndNot, st)
  | 80 => .ok (.V128Or, st)
  | 81 => .ok (.V128Xor, st)
  | 82 => .ok (.V128BitSelect, st)
  | 83 => .ok (.V128AnyTrue, st)
  | 96 => .ok (.I8x16Abs, st)
  | 97 => .ok (.I8x16Neg, st)
  | 98 => .ok (.I8x16Popcnt, st)
  | 99 => .ok (.I8x16AllTrue, st)
  | 100 => .ok (.I8x16BitMask, st)
  | 101 => .ok (.I8x16Narrow16x8s, st)
  | 102 => .ok (.I8x16Narrow16x8u, st)
  | 107 => .ok (.I8x16Shl, st)
  | 108 => .ok (.I8x16Shrs, st)
  | 109 => .ok (.I8x16Shru, st)
  | 110 => .ok (.I8x16Add, st)
  | 111 => .ok (.I8x16AddSats, st)
  | 112 => .ok (.I8x16AddSatu, st)
  | 113 => .ok (.I8x16Sub, st)
  | 114 => .ok (.I8x16SubStas, st)
  | 115 => .ok (.I8x16SubStau, st)
  | 118 => .ok (.I8x16Mins, st)
  | 119 => .ok (.I8x16Minu, st)
  | 120 => .ok (.I8x16Maxs, st)
  | 121 => .ok (.I8x16Maxu, st)
  | 123 => .ok (.I8x16Avgru, st)
  | 124 => .ok (.I16x8ExtaddPariwiseI8x16s, st)
  | 125 => .ok (.I16x8ExtaddPariwiseI8x16u, st)
  | 128 => .ok (.I16x8Abs, st)
  | 129 => .ok (.I16x8Neg, st)
  | 130 => .ok (.I16x8Q15MulrSats, st)
  | 131 => .ok (.I16x8AllTrue, st)
  | 132 => .ok (.I16x8BitMask, st)
  | 133 => .ok (.I16x8NarrowI32x4s, st)
  | 134 => .ok (.I16x8NarrowI32x4u, st)
  | 135 => .ok (.I16x8ExtendLowI8x16s, st)
  | 136 => .ok (.I16x8ExtendHighI8x16s, st)
  | 137 => .ok (.I16x8ExtendLowI8x16u, st)
  | 138 => .ok (.I16x8ExtendHighI8x16u, st)
  | 139 => .ok (.I16x8Shl, st)
  | 140 => .ok (.I16x8Shrs, st)
  | 141 => .ok (.I16x8Shru, st)
  | 142 => .ok (.I16x8Add, st)
  | 143 => .ok (.I16x8AddSats, st)
  | 144 => .ok (.I16x8AddSatu, st)
  | 145 => .ok (.I16x8Sub, st)
  | 146 => .ok (.I16x8SubSats, st)
  | 147 => .ok (.I16x8SubSatu, st)
  | 149 => .ok (.I16x8Mul, st)
  | 150 => .ok (.I16x8Mins, st)
  | 151 => .ok (.I16x8Minu, st)
  | 152 => .ok (.I16x8Maxs, st)
  | 153 => .ok (.I16x8Maxu, st)
  | 155 => .ok (.I16x8Avgru, st)
  | 156 => .ok (.I16x8ExtmulLowI8x16s, st)
  | 157 => .ok (.I16x8ExtmulHighI8x16s, st)
  | 158 => .ok (.I16x8ExtmulLowI8x16u, st)
  | 159 => .ok (.I16x8ExtmulHighI8x16u, st)
  | 126 => .ok (.I32x4ExtaddPariwiseI8x16s, st)
  | 127 => .ok (.I32x4ExtaddPariwiseI8x16u, st)
  | 160 => .ok (.I32x4Abs, st)
  | 161 => .ok (.I32x4Neg, st)
  | 163 => .ok (.I32x4AllTrue, st)
  | 164 => .ok (.I32x4BitMask, st)
  | 167 => .ok (.I32x4ExtendLowI8x16s, st)
  | 168 => .ok (.I32x4ExtendHighI8x16s, st)
  | 169 => .ok (.I32x4ExtendLowI8x16u, st)
  | 170 => .ok (.I32x4ExtendHighI8x16u, st)
  | 171 => .ok (.I32x4Shl, st)
  | 172 => .ok (.I32x4Shrs, st)
  | 173 => .ok (.I32x4Shru, st)
  | 174 => .ok (.I32x4Add, st)
  | 177 => .ok (.I32x4Sub, st)
  | 181 => .ok (.I32x4Mul, st)
  | 182 => .ok (.I32x4Mins, st)
  | 183 => .ok (.I32x4Minu, st)
  | 184 => .ok (.I32x4Maxs, st)
  | 185 => .ok (.I32x4Maxu, st)
  | 186 => .ok (.I32x4DotI16x8, st)
  | 188 => .ok (.I32x4ExtmulLowI8x16s, st)
  | 189 => .ok (.I32x4ExtmulHighI8x16s, st)
  | 190 => .ok (.I32x4ExtmulLowI8x16u, st)
  | 191 => .ok (.I32x4ExtmulHighI8x16u, st)
  | 192 => .ok (.I64x2Abs, st)
  | 193 => .ok (.I64x2Neg, st)
  | 195 => .ok (.I64x2AllTrue, st)
  | 196 => .ok (.I64x2BitMask, st)
  | 199 => .ok (.I64x2ExtendLowI32x4s, st)
  | 200 => .ok (.I64x2ExtendHighI32x4s, st)
  | 201 => .ok (.I64x2ExtendLowI32x4u, st)
  | 202 => .ok (.I64x2ExtendHighI32x4u, st)
  | 203 => .ok (.I64x2Shl, st)
  | 204 => .ok (.I64x2Shrs, st)
  | 205 => .ok (.I64x2Shru, st)
  | 206 => .ok (.I64x2Add, st)
  | 209 => .ok (.I64x2Sub, st)
  | 213 => .ok (.I64x2Mul, st)
  | 220 => .ok (.I64x2ExtmulLowI32x4s, st)
  | 221 => .ok (.I64x2ExtmulHighI32x4s, st)
  | 222 => .ok (.I64x2ExtmulLowI32x4u, st)
  | 223 => .ok (.I64x2ExtmulHighI32x4u, st)
  | 103 => .ok (.F32x4Ceil, st)
  | 104 => .ok (.F32x4Floor, st)
  | 105 => .ok (.F32x4Trunc, st)
  | 106 => .ok (.F32x4Nearest, st)
  | 224 => .ok (.F32x4Abs, st)
  | 225 => .ok (.F32x4Neg, st)
  | 227 => .ok (.F32x4Sqrt, st)
  | 228 => .ok (.F32x4Add, st)
  | 229 => .ok (.F32x4Sub, st)
  | 230 => .ok (.F32x4Mul, st)
  | 231 => .ok (.F32x4Div, st)
  | 232 => .ok (.F32x4Min, st)
  | 233 => .ok (.F32x4Max, st)
  | 234 => .ok (.F32x4Pmin, st)
  | 235 => .ok (.F32x4Pmax, st)
  | 116 => .ok (.F64x2Ceil, st)
  | 117 => .ok (.F64x2Floor, st)
  | 122 => .ok (.F64x2Trunc, st)
  | 148 => .ok (.F64x2Nearest, st)
  | 236 => .ok (.F64x2Abs, st)
  | 237 => .ok (.F64x2Neg, st)
  | 239 => .ok (.F64x2Sqrt, st)
  | 240 => .ok (.F64x2Add, st)
  | 241 => .ok (.F64x2Sub, st)
  | 242 => .ok (.F64x2Mul, st)
  | 243 => .ok (.F64x2Div, st)
  | 244 => .ok (.F64x2Min, st)
  | 245 => .ok (.F64x2Max, st)
  | 246 => .ok (.F64x2Pmin, st)
  | 247 => .ok (.F64x2Pmax, st)
  | 248 => .ok (.I32x4TruncSatF32x4s, st)
  | 249 => .ok (.I32x4TruncSatF32x4u, st)
  | 250 => .ok (.I32x4ConvertI32x4s, st)
  | 251 => .ok (.I32x4ConvertI32x4u, st)
  | 252 => .ok (.I32x4TruncSatF64x2sZero, st)
  | 253 => .ok (.I32x4TruncSatF64x2uZero, st)
  | 254 => .ok (.I32x4ConvertLowI32x4s, st)
  | 255 => .ok (.I32x4ConvertLowI32x4u, st)
  | 94 => .ok (.I32x4DemoteF64x2zero, st)
  | 95 => .ok (.I32x4PremoteLowF32x4, st)
  | _ => .error .anyhowErr


set_option maxHeartbeats 1600000 in
set_option linter.unusedVariables false in
/-- Byte range `0x0`-`0x1f` of the non-structured arms of the big
`match code` in `bytecode.rs::parse_code` (split by ranges only to keep
elaboration tractable; the arms are verbatim, the fallback is the shared
reserved-ranges/unknown-byte arm). -/
def parse_op_x0 (code : Nat) (st : Cursor) (blocks : List Nat) : Except RErr (Opcode × Cursor) :=
  match code with
  | 0x00 => .ok (.Unreachable, st)
  | 0x01 => .ok (.Nop, st)
  | 0x02 => .error .panicUnreachable
  | 0x03 => .error .panicUnreachable
  | 0x04 => .error .panicUnreachable
  | 0x05 => .error .panicUnreachable
  | 0x0b => .error .panicUnreachable
  | 0x0c =>
    match st.read_leb_u32 with
    | .error e => .error e
    | .ok (label, st) =>
      match blockIdxA blocks label with
      | .error e => .error e
      | .ok t => .ok (.Br label t, st)
  | 0x0d =>
    match st.read_leb_u32 with
    | .error e => .error e
    | .ok (label, st) =>
      match blockIdxB blocks label with
      | .error e => .error e
      | .ok t => .ok (.BrIf label t, st)
  | 0x0e =>
    match st.read_leb_u32 with
    | .error e => .error e
    | .ok (count, st) =>
      match readBrEntries blocks count st with
      | .error e => .error e
      | .ok (entries, st) =>
        match st.read_leb_u32 with
        | .error e => .error e
        | .ok (dft, st) =>
          match blockIdxB blocks dft with
          | .error e => .error e
          | .ok dt => .ok (.BrTable count entries (dft, dt), st)
  | 0x0f => .ok (.Return, st)
  | 0x10 =>
    match st.read_leb_u32 with
    | .error e => .error e
    | .ok (x0, st) =>
      .ok (.Call x0, st)
  | 0x11 =>
    match st.read_leb_u32 with
    | .error e => .error e
    | .ok (x0, st) =>
      match st.read_leb_u32 with
      | .error e => .error e
      | .ok (x1, st) =>
        .ok (.CallIndirect x0 x1, st)
  | 0x1a => .ok (.Drop, st)
  | 0x1b => .ok (.Select, st)
  | 0x1c =>
    match st.read_leb_u32 with
    | .error e => .error e
    | .ok (count, st) =>
      match readSelectTypes count st with
      | .error e => .error e
      | .ok (types, st) => .ok (.SelectType count types, st)
  | c =>
    if (0x06 ≤ c ∧ c ≤ 0x0a) ∨ (0x12 ≤ c ∧ c ≤ 0x19) ∨ (0x1d ≤ c ∧ c ≤ 0x1f) ∨ c = 0x27
        ∨ (0xc5 ≤ c ∧ c ≤ 0xcf) ∨ (0xd3 ≤ c ∧ c ≤ 0xfb) then
      .ok (.Reserved c, st)
    else .error .anyhowErr

set_option maxHeartbeats 1600000 in
set_option linter.unusedVariables false in
/-- Byte range `0x20`-`0x3f` of the non-structured arms of the big
`match code` in `bytecode.rs::parse_code` (split by ranges only to keep
elaboration tractable; the arms are verbatim, the fallback is the shared
reserved-ranges/unknown-byte arm). -/
def parse_op_x1 (code : Nat) (st : Cursor) (blocks : List Nat) : Except RErr (Opcode × Cursor) :=
  match code with
  | 0x20 =>
    match st.read_leb_u32 with
    | .error e => .error e
    | .ok (x0, st) =>
      .ok (.LocalGet x0, st)
  | 0x21 =>
    match st.read_leb_u32 with
    | .error e => .error e
    | .ok (x0, st) =>
      .ok (.LocalSet x0, st)
  | 0x22 =>
    match st.read_leb_u32 with
    | .error e => .error e
    | .ok (x0, st) =>
      .ok (.LocalTee x0, st)
  | 0x23 =>
    match st.read_leb_u32 with
    | .error e => .error e
    | .ok (x0, st) =>
      .ok (.GlobalGet x0, st)
  | 0x24 =>
    match st.read_leb_u32 with
    | .error e => .error e
    | .ok (x0, st) =>
      .ok (.GlobalSet x0, st)
  | 0x25 =>
    match st.read_leb_u32 with
    | .error e => .error e
    | .ok (x0, st) =>
      .ok (.TableGet x0, st)
  | 0x26 =>
    match st.read_leb_u32 with
    | .error e => .error e
    | .ok (x0, st) =>
      .ok (.TableSet x0, st)
  | 0x28 =>
    match st.read_leb_u32 with
    | .error e => .error e
    | .ok (x0, st) =>
      match st.read_leb_u32 with
      | .error e => .error e
      | .ok (x1, st) =>
        .ok (.I32Load x0 x1, st)
  | 0x29 =>
    match st.read_leb_u32 with
    | .error e => .error e
    | .ok (x0, st) =>
      match st.read_leb_u32 with
      | .error e => .error e
      | .ok (x1, st) =>
        .ok (.I64Load x0 x1, st)
  | 0x2a =>
    match st.read_leb_u32 with
    | .error e => .error e
    | .ok (x0, st) =>
      match st.read_leb_u32 with
      | .error e => .error e
      | .ok (x1, st) =>
        .ok (.F32Load x0 x1, st)
  | 0x2b =>
    match st.read_leb_u32 with
    | .error e => .error e
    | .ok (x0, st) =>
      match st.read_leb_u32 with
      | .error e => .error e
      | .ok (x1, st) =>
        .ok (.F64Load x0 x1, st)
  | 0x2c =>
    match st.read_leb_u32 with
    | .error e => .error e
    | .ok (x0, st) =>
      match st.read_leb_u32 with
      | .error e => .error e
      | .ok (x1, st) =>
        .ok (.I32Load8s x0 x1, st)
  | 0x2d =>
    match st.read_leb_u32 with
    | .error e => .error e
    | .ok (x0, st) =>
      match st.read_leb_u32 with
      | .error e => .error e
      | .ok (x1, st) =>
        .ok (.I32Load8u x0 x1, st)
  | 0x2e =>
    match st.read_leb_u32 with
    | .error e => .error e
    | .ok (x0, st) =>
      match st.read_leb_u32 with
      | .error e => .error e
      | .ok (x1, st) =>
        .ok (.I32Load16s x0 x1, st)
  | 0x2f =>
    match st.read_leb_u32 with
    | .error e => .error e
    | .ok (x0, st) =>
      match st.read_leb_u32 with
      | .error e => .error e
      | .ok (x1, st) =>
        .ok (.I32Load16u x0 x1, st)
  | 0x30 =>
    match st.read_leb_u32 with
    | .error e => .error e
    | .ok (x0, st) =>
      match st.read_leb_u32 with
      | .error e => .error e
      | .ok (x1, st) =>
        .ok (.I64Load8s x0 x1, st)
  | 0x31 =>
    match st.read_leb_u32 with
    | .error e => .error e
    | .ok (x0, st) =>
      match st.read_leb_u32 with
      | .error e => .error e
      | .ok (x1, st) =>
        .ok (.I64Load8u x0 x1, st)
  | 0x32 =>
    match st.read_leb_u32 with
    | .error e => .error e
    | .ok (x0, st) =>
      match st.read_leb_u32 with
      | .error e => .error e
      | .ok (x1, st) =>
        .ok (.I64Load16s x0 x1, st)
  | 0x33 =>
    match st.read_leb_u32 with
    | .error e => .error e
    | .ok (x0, st) =>
      match st.read_leb_u32 with
      | .error e => .error e
      | .ok (x1, st) =>
        .ok (.I64Load16u x0 x1, st)
  | 0x34 =>
    match st.read_leb_u32 with
    | .error e => .error e
    | .ok (x0, st) =>
      match st.read_leb_u32 with
      | .error e => .error e
      | .ok (x1, st) =>
        .ok (.I64Load32s x0 x1, st)
  | 0x35 =>
    match st.read_leb_u32 with
    | .error e => .error e
    | .ok (x0, st) =>
      match st.read_leb_u32 with
      | .error e => .error e
      | .ok (x1, st) =>
        .ok (.I64Load32u x0 x1, st)
  | 0x36 =>
    match st.read_leb_u32 with
    | .error e => .error e
    | .ok (x0, st) =>
      match st.read_leb_u32 with
      | .error e => .error e
      | .ok (x1, st) =>
        .ok (.I32Store x0 x1, st)
  | 0x37 =>
    match st.read_leb_u32 with
    | .error e => .error e
    | .ok (x0, st) =>
      match st.read_leb_u32 with
      | .error e => .error e
      | .ok (x1, st) =>
        .ok (.I64Store x0 x1, st)
  | 0x38 =>
    match st.read_leb_u32 with
    | .error e => .error e
    | .ok (x0, st) =>
      match st.read_leb_u32 with
      | .error e => .error e
      | .ok (x1, st) =>
        .ok (.F32Store x0 x1, st)
  | 0x39 =>
    match st.read_leb_u32 with
    | .error e => .error e
    | .ok (x0, st) =>
      match st.read_leb_u32 with
      | .error e => .error e
      | .ok (x1, st) =>
        .ok (.F64Store x0 x1, st)
  | 0x3a =>
    match st.read_leb_u32 with
    | .error e => .error e
    | .ok (x0, st) =>
      match st.read_leb_u32 with
      | .error e => .error e
      | .ok (x1, st) =>
        .ok (.I32Store8 x0 x1, st)
  | 0x3b =>
    match st.read_leb_u32 with
    | .error e => .error e
    | .ok (x0, st) =>
      match st.read_leb_u32 with
      | .error e => .error e
      | .ok (x1, st) =>
        .ok (.I32Store16 x0 x1, st)
  | 0x3c =>
    match st.read_leb_u32 with
    | .error e => .error e
    | .ok (x0, st) =>
      match st.read_leb_u32 with
      | .error e => .error e
      | .ok (x1, st) =>
        .ok (.I64Store8 x0 x1, st)
  | 0x3d =>
    match st.read_leb_u32 with
    | .error e => .error e
    | .ok (x0, st) =>
      match st.read_leb_u32 with
      | .error e => .error e
      | .ok (x1, st) =>
        .ok (.I64Store16 x0 x1, st)
  | 0x3e =>
    match st.read_leb_u32 with
    | .error e => .error e
    | .ok (x0, st) =>
      match st.read_leb_u32 with
      | .error e => .error e
      | .ok (x1, st) =>
        .ok (.I64Store32 x0 x1, st)
  | 0x3f => .ok (.MemorySize, st)
  | c =>
    if (0x06 ≤ c ∧ c ≤ 0x0a) ∨ (0x12 ≤ c ∧ c ≤ 0x19) ∨ (0x1d ≤ c ∧ c ≤ 0x1f) ∨ c = 0x27
        ∨ (0xc5 ≤ c ∧ c ≤ 0xcf) ∨ (0xd3 ≤ c ∧ c ≤ 0xfb) then
      .ok (.Reserved c, st)
    else .error .anyhowErr

set_option maxHeartbeats 1600000 in
set_option linter.unusedVariables false in
/-- Byte range `0x40`-`0x5f` of the non-structured arms of the big
`match code` in `bytecode.rs::parse_code` (split by ranges only to keep
elaboration tractable; the arms are verbatim, the fallback is the shared
reserved-ranges/unknown-byte arm). -/
def parse_op_x2 (code : Nat) (st : Cursor) (blocks : List Nat) : Except RErr (Opcode × Cursor) :=
  match code with
  | 0x40 => .ok (.MemoryGrow, st)
  | 0x41 =>
    match st.read_leb_i32 with
    | .error e => .error e
    | .ok (x, st) => .ok (.I32Const x, st)
  | 0x42 =>
    match st.read_leb_i64 with
    | .error e => .error e
    | .ok (x, st) => .ok (.I64Const x, st)
  | 0x43 =>
    match st.read_bytes 4 with
    | .error e => .error e
    | .ok (bytes, st) => .ok (.F32Const (leNat bytes), st)
  | 0x44 =>
    match st.read_bytes 8 with
    | .error e => .error e
    | .ok (bytes, st) => .ok (.F64Const (leNat bytes), st)
  | 0x45 => .ok (.I32Eqz, st)
  | 0x46 => .ok (.I32Eq, st)
  | 0x47 => .ok (.I32Ne, st)
  | 0x48 => .ok (.I32Lts, st)
  | 0x49 => .ok (.I32Ltu, st)
  | 0x4a => .ok (.I32Gts, st)
  | 0x4b => .ok (.I32Gtu, st)
  | 0x4c => .ok (.I32Les, st)
  | 0x4d => .ok (.I32Leu, st)
  | 0x4e => .ok (.I32Ges, st)
  | 0x4f => .ok (.I32Geu, st)
  | 0x50 => .ok (.I64Eqz, st)
  | 0x51 => .ok (.I64Eq, st)
  | 0x52 => .ok (.I64Ne, st)
  | 0x53 => .ok (.I64Lts, st)
  | 0x54 => .ok (.I64Ltu, st)
  | 0x55 => .ok (.I64Gts, st)
  | 0x56 => .ok (.I64Gtu, st)
  | 0x57 => .ok (.I64Les, st)
  | 0x58 => .ok (.I64Leu, st)
  | 0x59 => .ok (.I64Ges, st)
  | 0x5a => .ok (.I64Geu, st)
  | 0x5b => .ok (.F32Eq, st)
  | 0x5c => .ok (.F32Ne, st)
  | 0x5d => .ok (.F32Lt, st)
  | 0x5e => .ok (.F32Gt, st)
  | 0x5f => .ok (.F32Le, st)
  | c =>
    if (0x06 ≤ c ∧ c ≤ 0x0a) ∨ (0x12 ≤ c ∧ c ≤ 0x19) ∨ (0x1d ≤ c ∧ c ≤ 0x1f) ∨ c = 0x27
        ∨ (0xc5 ≤ c ∧ c ≤ 0xcf) ∨ (0xd3 ≤ c ∧ c ≤ 0xfb) then
      .ok (.Reserved c, st)
    else .error .anyhowErr

set_option maxHeartbeats 1600000 in
set_option linter.unusedVariables false in
/-- Byte range `0x60`-`0x7f` of the non-structured arms of the big
`match code` in `bytecode.rs::parse_code` (split by ranges only to keep
elaboration tractable; the arms are verbatim, the fallback is the shared
reserved-ranges/unknown-byte arm). -/
def parse_op_x3 (code : Nat) (st : Cursor) (blocks : List Nat) : Except RErr (Opcode × Cursor) :=
  match code with
  | 0x60 => .ok (.F32Ge, st)
  | 0x61 => .ok (.F64Eq, st)
  | 0x62 => .ok (.F64Ne, st)
  | 0x63 => .ok (.F64Lt, st)
  | 0x64 => .ok (.F64Gt, st)
  | 0x65 => .ok (.F64Le, st)
  | 0x66 => .ok (.F64Ge, st)
  | 0x67 => .ok (.I32Clz, st)
  | 0x68 => .ok (.I32Ctz, st)
  | 0x69 => .ok (.I32Popcnt, st)
  | 0x6a => .ok (.I32Add, st)
  | 0x6b => .ok (.I32Sub, st)
  | 0x6c => .ok (.I32Mul, st)
  | 0x6d => .ok (.I32DivS, st)
  | 0x6e => .ok (.I32DivU, st)
  | 0x6f => .ok (.I32RemS, st)
  | 0x70 => .ok (.I32RemU, st)
  | 0x71 => .ok (.I32And, st)
  | 0x72 => .ok (.I32Or, st)
  | 0x73 => .ok (.I32Xor, st)
  | 0x74 => .ok (.I32Shl, st)
  | 0x75 => .ok (.I32ShlS, st)
  | 0x76 => .ok (.I32ShlU, st)
  | 0x77 => .ok (.I32Rotl, st)
  | 0x78 => .ok (.I32Rotr, st)
  | 0x79 => .ok (.I64Clz, st)
  | 0x7a => .ok (.I64Ctz, st)
  | 0x7b => .ok (.I64Popcnt, st)
  | 0x7c => .ok (.I64Add, st)
  | 0x7d => .ok (.I64Sub, st)
  | 0x7e => .ok (.I64Mul, st)
  | 0x7f => .ok (.I64DivS, st)
  | c =>
    if (0x06 ≤ c ∧ c ≤ 0x0a) ∨ (0x12 ≤ c ∧ c ≤ 0x19) ∨ (0x1d ≤ c ∧ c ≤ 0x1f) ∨ c = 0x27
        ∨ (0xc5 ≤ c ∧ c ≤ 0xcf) ∨ (0xd3 ≤ c ∧ c ≤ 0xfb) then
      .ok (.Reserved c, st)
    else .error .anyhowErr

set_option maxHeartbeats 1600000 in
set_option linter.unusedVariables false in
/-- Byte range `0x80`-`0x9f` of the non-structured arms of the big
`match code` in `bytecode.rs::parse_code` (split by ranges only to keep
elaboration tractable; the arms are verbatim, the fallback is the shared
reserved-ranges/unknown-byte arm). -/
def parse_op_x4 (code : Nat) (st : Cursor) (blocks : List Nat) : Except RErr (Opcode × Cursor) :=
  match code with
  | 0x80 => .ok (.I64DivU, st)
  | 0x81 => .ok (.I64RemS, st)
  | 0x82 => .ok (.I64RemU, st)
  | 0x83 => .ok (.I64And, st)
  | 0x84 => .ok (.I64Or, st)
  | 0x85 => .ok (.I64Xor, st)
  | 0x86 => .ok (.I64Shl, st)
  | 0x87 => .ok (.I64ShlS, st)
  | 0x88 => .ok (.I64ShlU, st)
  | 0x89 => .ok (.I64Rotl, st)
  | 0x8a => .ok (.I64Rotr, st)
  | 0x8b => .ok (.F32Abs, st)
  | 0x8c => .ok (.F32Neg, st)
  | 0x8d => .ok (.F32Ceil, st)
  | 0x8e => .ok (.F32Floor, st)
  | 0x8f => .ok (.F32Trunc, st)
  | 0x90 => .ok (.F32Nearest, st)
  | 0x91 => .ok (.F32Sqrt, st)
  | 0x92 => .ok (.F32Add, st)
  | 0x93 => .ok (.F32Sub, st)
  | 0x94 => .ok (.F32Mul, st)
  | 0x95 => .ok (.F32Div, st)
  | 0x96 => .ok (.F32Min, st)
  | 0x97 => .ok (.F32Max, st)
  | 0x98 => .ok (.F32Copysign, st)
  | 0x99 => .ok (.F64Abs, st)
  | 0x9a => .ok (.F64Neg, st)
  | 0x9b => .ok (.F64Ceil, st)
  | 0x9c => .ok (.F64Floor, st)
  | 0x9d => .ok (.F64Trunc, st)
  | 0x9e => .ok (.F64Nearest, st)
  | 0x9f => .ok (.F64Sqrt, st)
  | c =>
    if (0x06 ≤ c ∧ c ≤ 0x0a) ∨ (0x12 ≤ c ∧ c ≤ 0x19) ∨ (0x1d ≤ c ∧ c ≤ 0x1f) ∨ c = 0x27
        ∨ (0xc5 ≤ c ∧ c ≤ 0xcf) ∨ (0xd3 ≤ c ∧ c ≤ 0xfb) then
      .ok (.Reserved c, st)
    else .error .anyhowErr

set_option maxHeartbeats 1600000 in
set_option linter.unusedVariables false in
/-- Byte range `0xa0`-`0xbf` of the non-structured arms of the big
`match code` in `bytecode.rs::parse_code` (split by ranges only to keep
elaboration tractable; the arms are verbatim, the fallback is the shared
reserved-ranges/unknown-byte arm). -/
def parse_op_x5 (code : Nat) (st : Cursor) (blocks : List Nat) : Except RErr (Opcode × Cursor) :=
  match code with
  | 0xa0 => .ok (.F64Add, st)
  | 0xa1 => .ok (.F64Sub, st)
  | 0xa2 => .ok (.F64Mul, st)
  | 0xa3 => .ok (.F64Div, st)
  | 0xa4 => .ok (.F64Min, st)
  | 0xa5 => .ok (.F64Max, st)
  | 0xa6 => .ok (.F64Copysign, st)
  | 0xa7 => .ok (.I32WrapI64, st)
  | 0xa8 => .ok (.I32TruncF32s, st)
  | 0xa9 => .ok (.I32TruncF32u, st)
  | 0xaa => .ok (.I32TruncF64s, st)
  | 0xab => .ok (.I32TruncF64u, st)
  | 0xac => .ok (.I64ExtendsI32s, st)
  | 0xad => .ok (.I64ExtendsI32u, st)
  | 0xae => .ok (.I64TruncF32s, st)
  | 0xaf => .ok (.I64TruncF32u, st)
  | 0xb0 => .ok (.I64TruncF64s, st)
  | 0xb1 => .ok (.I64TruncF64u, st)
  | 0xb2 => .ok (.F32ConvertI32s, st)
  | 0xb3 => .ok (.F32ConvertI32u, st)
  | 0xb4 => .ok (.F32ConvertI64s, st)
  | 0xb5 => .ok (.F32ConvertI64u, st)
  | 0xb6 => .ok (.F32DemoteF64, st)
  | 0xb7 => .ok (.F64ConvertI32s, st)
  | 0xb8 => .ok (.F64ConvertI32u, st)
  | 0xb9 => .ok (.F64ConvertI64s, st)
  | 0xba => .ok (.F64ConvertI64u, st)
  | 0xbb => .ok (.F64DemoteF32, st)
  | 0xbc => .ok (.I32ReinterpretF32, st)
  | 0xbd => .ok (.I64ReinterpretF64, st)
  | 0xbe => .ok (.F32ReinterpretI32, st)
  | 0xbf => .ok (.F64ReinterpretI64, st)
  | c =>
    if (0x06 ≤ c ∧ c ≤ 0x0a) ∨ (0x12 ≤ c ∧ c ≤ 0x19) ∨ (0x1d ≤ c ∧ c ≤ 0x1f) ∨ c = 0x27
        ∨ (0xc5 ≤ c ∧ c ≤ 0xcf) ∨ (0xd3 ≤ c ∧ c ≤ 0xfb) then
      .ok (.Reserved c, st)
    else .error .anyhowErr

set_option maxHeartbeats 1600000 in
set_option linter.unusedVariables false in
/-- Byte range `0xc0`-`0xdf` of the non-structured arms of the big
`match code` in `bytecode.rs::parse_code` (split by ranges only to keep
elaboration tractable; the arms are verbatim, the fallback is the shared
reserved-ranges/unknown-byte arm). -/
def parse_op_x6 (code : Nat) (st : Cursor) (blocks : List Nat) : Except RErr (Opcode × Cursor) :=
  match code with
  | 0xc0 => .ok (.I32Extends8s, st)
  | 0xc1 => .ok (.I32Extends16s, st)
  | 0xc2 => .ok (.I64Extends8s, st)
  | 0xc3 => .ok (.I64Extends16s, st)
  | 0xc4 => .ok (.I64Extends32s, st)
  | 0xd0 =>
    match st.read_byte with
    | .error e => .error e
    | .ok (byte, st) =>
      if byte = 0x70 ∨ byte = 0x6f then .ok (.RefNull byte, st)
      else .error .anyhowErr
  | 0xd1 => .ok (.RefIsNull, st)
  | 0xd2 =>
    match st.read_leb_u32 with
    | .error e => .error e
    | .ok (x0, st) =>
      .ok (.RefFunc x0, st)
  | c =>
    if (0x06 ≤ c ∧ c ≤ 0x0a) ∨ (0x12 ≤ c ∧ c ≤ 0x19) ∨ (0x1d ≤ c ∧ c ≤ 0x1f) ∨ c = 0x27
        ∨ (0xc5 ≤ c ∧ c ≤ 0xcf) ∨ (0xd3 ≤ c ∧ c ≤ 0xfb) then
      .ok (.Reserved c, st)
    else .error .anyhowErr

set_option maxHeartbeats 1600000 in
set_option linter.unusedVariables false in
/-- Byte range `0xe0`-`0xff` of the non-structured arms of the big
`match code` in `bytecode.rs::parse_code` (split by ranges only to keep
elaboration tractable; the arms are verbatim, the fallback is the shared
reserved-ranges/unknown-byte arm). -/
def parse_op_x7 (code : Nat) (st : Cursor) (blocks : List Nat) : Except RErr (Opcode × Cursor) :=
  match code with
  | 0xfc =>
    match st.read_leb_u32 with
    | .error e => .error e
    | .ok (op, st) =>
      if 17 < op then .error .anyhowErr
      else
        match op with
        | 0 => .ok (.I32TruncSatF32s, st)
        | 1 => .ok (.I32TruncSatF32u, st)
        | 2 => .ok (.I32TruncSatF64s, st)
        | 3 => .ok (.I32TruncSatF64u, st)
        | 4 => .ok (.I64TruncSatF32s, st)
        | 5 => .ok (.I64TruncSatF32u, st)
        | 6 => .ok (.I64TruncSatF64s, st)
        | 7 => .ok (.I64TruncSatF64u, st)
        | 8 =>
          match st.read_leb_u32 with
          | .error e => .error e
          | .ok (x, st) => .ok (.MemoryInit x, st)
        | 9 =>
          match st.read_leb_u32 with
          | .error e => .error e
          | .ok (x, st) => .ok (.DataDrop x, st)
        | 10 => .ok (.MemoryCopy, st)
        | 11 => .ok (.MemoryFill, st)
        | 12 =>
          match st.read_leb_u32 with
          | .error e => .error e
          | .ok (x, st) =>
            match st.read_leb_u32 with
            | .error e => .error e
            | .ok (y, st) => .ok (.TableInit x y, st)
        | 13 =>
          match st.read_leb_u32 with
          | .error e => .error e
          | .ok (x, st) => .ok (.ElemDrop x, st)
        | 14 =>
          match st.read_leb_u32 with
          | .error e => .error e
          | .ok (x, st) =>
            match st.read_leb_u32 with
            | .error e => .error e
            | .ok (y, st) => .ok (.TableCopy x y, st)
        | 15 =>
          match st.read_leb_u32 with
          | .error e => .error e
          | .ok (x, st) => .ok (.TableGrow x, st)
        | 16 =>
          match st.read_leb_u32 with
          | .error e => .error e
          | .ok (x, st) => .ok (.TableSize x, st)
        | 17 =>
          match st.read_leb_u32 with
          | .error e => .error e
          | .ok (x, st) => .ok (.TableFill x, st)
        | _ => .error .anyhowErr
  | 0xfd =>
    match st.read_leb_u32 with
    | .error e => .error e
    | .ok (code2, st) =>
      match parse_fd code2 st with
      | .error e => .error e
      | .ok (fd, st) => .ok (.FD fd, st)
  | c =>
    if (0x06 ≤ c ∧ c ≤ 0x0a) ∨ (0x12 ≤ c ∧ c ≤ 0x19) ∨ (0x1d ≤ c ∧ c ≤ 0x1f) ∨ c = 0x27
        ∨ (0xc5 ≤ c ∧ c ≤ 0xcf) ∨ (0xd3 ≤ c ∧ c ≤ 0xfb) then
      .ok (.Reserved c, st)
    else .error .anyhowErr

/-- The non-structured arms of the big `match code` in
`bytecode.rs::parse_code`: each decodes one instruction (reading its
immediates) and yields the `Opcode` that the source pushes.  The structured
control bytes `0x02`-`0x05` and `0x0b` are handled directly by the parse
loop (`parseGo`) and never reach this function. -/
def parse_op (code : Nat) (st : Cursor) (blocks : List Nat) : Except RErr (Opcode × Cursor) :=
  if code < 0x20 then parse_op_x0 code st blocks
  else if code < 0x40 then parse_op_x1 code st blocks
  else if code < 0x60 then parse_op_x2 code st blocks
  else if code < 0x80 then parse_op_x3 code st blocks
  else if code < 0xa0 then parse_op_x4 code st blocks
  else if code < 0xc0 then parse_op_x5 code st blocks
  else if code < 0xe0 then parse_op_x6 code st blocks
  else parse_op_x7 code st blocks

/-- The two recursion modes of `bytecode.rs::parse_code`: `code` is a call to
`parse_code` itself (compute `pos.0`, push the enclosing branch target onto
`blocks`, then run the loop); `iter` is one iteration of its `while` loop,
carrying the mutable `pos.0`/`pos.1` of the enclosing call. -/
inductive PReq
  | code (st : Cursor) (ops : List Opcode) (blocks : List Nat)
  | iter (st : Cursor) (ops : List Opcode) (blocks : List Nat) (pos0 pos1 : Nat)

/-- `bytecode.rs::parse_code`, fuelled.  Returns the final cursor, the
instruction array, the branch-target stack and the `(pos.0, pos.1,
ops.len() - 1)` triple, exactly as the source's `Ok` value.  In the
structured-control arms the source's `let last = ops.len() - 1`, taken right
after pushing the head opcode (or the implicit `Br` plus the `Else` marker),
is written out as `ops.length` (resp. `ops.length + 1`) over the list before
the push, which is the same number. -/
def parseGo : Nat → PReq → Except RErr (Cursor × List Opcode × List Nat × (Nat × Nat × Nat))
  | 0, _ => .error .outOfFuel
  | fuel + 1, .code st ops blocks =>
    parseGo fuel (.iter st ops (blocks ++ [Nat.max 0 (ops.length - 1)]) ops.length 0)
  | fuel + 1, .iter st ops blocks pos0 pos1 =>
    if st.offset < st.length then
      match st.read_byte with
      | .error e => .error e
      | .ok (code, st1) =>
        match code with
        | 0x02 =>
          match st1.read_leb_u32 with
          | .error e => .error e
          | .ok (bt, st2) =>
            match parseGo fuel (.code st2 (ops ++ [Opcode.Block (BlockType.from_u32 bt) ⟨0, 0, 0⟩]) blocks) with
            | .error e => .error e
            | .ok (st3, ops2, blocks2, _) =>
              parseGo fuel (.iter st3
                (ops2.set ops.length
                  (Opcode.Block (BlockType.from_u32 bt) ⟨ops.length + 1, ops2.length - 1, ops2.length - 1⟩))
                blocks2 pos0 pos1)
        | 0x03 =>
          match st1.read_leb_u32 with
          | .error e => .error e
          | .ok (bt, st2) =>
            match parseGo fuel (.code st2 (ops ++ [Opcode.Loop (BlockType.from_u32 bt) ⟨0, 0, 0⟩]) blocks) with
            | .error e => .error e
            | .ok (st3, ops2, blocks2, _) =>
              parseGo fuel (.iter st3
                (ops2.set ops.length
                  (Opcode.Loop (BlockType.from_u32 bt) ⟨ops.length + 1, ops2.length - 1, ops2.length - 1⟩))
                blocks2 pos0 pos1)
        | 0x04 =>
          match st1.read_leb_u32 with
          | .error e => .error e
          | .ok (bt, st2) =>
            match parseGo fuel (.code st2 (ops ++ [Opcode.If (BlockType.from_u32 bt) ⟨ops.length, 0, 0⟩]) blocks) with
            | .error e => .error e
            | .ok (st3, ops2, blocks2, pos2) =>
              parseGo fuel (.iter st3
                (ops2.set ops.length
                  (Opcode.If (BlockType.from_u32 bt) ⟨ops.length + 1, pos2.2.1, ops2.length - 1⟩))
                blocks2 pos0 pos1)
        | 0x05 =>
          match blocks.getLast? with
          | none => .error .panicIndex
          | some btgt =>
            match parseGo fuel (.code st1 (ops ++ [Opcode.Br 0 btgt, Opcode.Else ⟨0, 0, 0⟩]) blocks) with
            | .error e => .error e
            | .ok (st2, ops2, blocks2, _) =>
              .ok (st2,
                ops2.set (ops.length + 1)
                  (Opcode.Else ⟨ops.length + 2, ops2.length - 1, ops2.length - 1⟩),
                blocks2.dropLast,
                (pos0, ops.length + 1, ops2.length - 1))
        | 0x0b =>
          .ok (st1, ops ++ [Opcode.End pos0], blocks.dropLast, (pos0, ops.length, ops.length))
        | c =>
          match parse_op c st1 blocks with
          | .error e => .error e
          | .ok (op, st2) => parseGo fuel (.iter st2 (ops ++ [op]) blocks pos0 pos1)
    else
      match checkedSub ops.length 1 with
      | .error e => .error e
      | .ok l => .ok (st, ops, blocks, (pos0, pos1, l))

/-- `bytecode.rs::parse_code` (entry point). -/
def parse_code (fuel : Nat) (st : Cursor) (ops : List Opcode) (blocks : List Nat) :
    Except RErr (Cursor × List Opcode × List Nat × (Nat × Nat × Nat)) :=
  parseGo fuel (.code st ops blocks)

/-! ## The End-matching invariant of the decoded instruction array (spec §3,
invariant 2) -/

/-- How the `End`-matching scan treats one opcode: the heads `Block`/`Loop`/
`If` open a construct, `Else` re-marks the open construct, `End` closes one,
and everything else is transparent. -/
inductive ScanClass
  | push
  | elseMark
  | endMark (p : Nat)
  | skip
  deriving DecidableEq, Repr

def Opcode.scanClass : Opcode → ScanClass
  | .Block _ _ => .push
  | .Loop _ _ => .push
  | .If _ _ => .push
  | .Else _ => .elseMark
  | .End p => .endMark p
  | _ => .skip

/-- One step of the matching scan over the decoded array.  The stack holds,
for every currently open construct, the pc of the first instruction of its
body (the pc one past its `Block`/`Loop`/`If` head, re-marked by `Else`); an
`End` must carry exactly that pc. -/
def scanStep (pc : Nat) (op : Opcode) (stack : List Nat) : Option (List Nat) :=
  match op.scanClass with
  | .push => some ((pc + 1) :: stack)
  | .elseMark =>
    match stack with
    | _ :: s => some ((pc + 1) :: s)
    | [] => none
  | .endMark p =>
    match stack with
    | t :: s => if p = t then some s else none
    | [] => none
  | .skip => some stack

/-- The matching scan: fold `scanStep` over a decoded slice starting at
absolute pc `pc`, with the stack of open-construct body-start pcs.  `none`
means some `End`/`Else` did not match. -/
def scanEnds : Nat → List Opcode → List Nat → Option (List Nat)
  | _, [], stack => some stack
  | pc, op :: rest, stack =>
    match scanStep pc op stack with
    | some stack2 => scanEnds (pc + 1) rest stack2
    | none => none

theorem scanEnds_append (l1 l2 : List Opcode) : ∀ (pc : Nat) (s : List Nat),
    scanEnds pc (l1 ++ l2) s =
      match scanEnds pc l1 s with
      | some s2 => scanEnds (pc + l1.length) l2 s2
      | none => none := by
  induction l1 with
  | nil => intro pc s; simp [scanEnds]
  | cons op rest ih =>
    intro pc s
    rw [List.cons_append, scanEnds, scanEnds]
    cases scanStep pc op s with
    | none => rfl
    | some s2 =>
      simp only []
      rw [ih (pc + 1) s2]
      cases scanEnds (pc + 1) rest s2 with
      | none => rfl
      | some s3 =>
        simp only [List.length_cons]
        congr 1
        omega

theorem scanStep_frame {pc : Nat} {op : Opcode} {s1 out : List Nat} (s2 : List Nat)
    (h : scanStep pc op s1 = some out) : scanStep pc op (s1 ++ s2) = some (out ++ s2) := by
  cases hc : op.scanClass with
  | push =>
    simp only [scanStep, hc] at h ⊢
    cases h; rfl
  | elseMark =>
    cases s1 with
    | nil =>
      simp only [scanStep, hc] at h
      cases h
    | cons a s =>
      simp only [scanStep, hc, List.cons_append] at h ⊢
      cases h; rfl
  | endMark p =>
    cases s1 with
    | nil =>
      simp only [scanStep, hc] at h
      cases h
    | cons t s =>
      simp only [scanStep, hc, List.cons_append] at h ⊢
      split at h
      · cases h
        simp_all
      · cases h
  | skip =>
    simp only [scanStep, hc] at h ⊢
    cases h; rfl

theorem scanEnds_frame {l : List Opcode} : ∀ {pc : Nat} {s1 out : List Nat} (s2 : List Nat),
    scanEnds pc l s1 = some out → scanEnds pc l (s1 ++ s2) = some (out ++ s2) := by
  induction l with
  | nil => intro pc s1 out s2 h; cases h; rfl
  | cons op rest ih =>
    intro pc s1 out s2 h
    unfold scanEnds at h ⊢
    cases hs : scanStep pc op s1 with
    | none => rw [hs] at h; cases h
    | some s1' =>
      rw [hs] at h
      rw [scanStep_frame s2 hs]
      exact ih s2 h

/-- A skip-class opcode leaves the scan stack unchanged. -/
theorem scanStep_skip {op : Opcode} (h : op.scanClass = ScanClass.skip)
    (pc : Nat) (stack : List Nat) : scanStep pc op stack = some stack := by
  unfold scanStep; rw [h]

/-- Every byte handed to `parse_op` by the parse loop is below 256. -/
theorem Cursor.getN_lt (c : Cursor) : ∀ (n start : Nat) (l : List Nat),
    c.getN start n = .ok l → ∀ b ∈ l, b < 256
  | 0, start, l, h => by cases h; intro b hb; cases hb
  | n + 1, start, l, h => by
    unfold Cursor.getN at h
    cases hr : c.raw[start]? with
    | none => rw [hr] at h; cases h
    | some v =>
      rw [hr] at h
      cases hg : c.getN (start + 1) n with
      | error e => rw [hg] at h; cases h
      | ok rest =>
        rw [hg] at h
        cases h
        intro b hb
        rcases List.mem_cons.mp hb with rfl | hmem
        · exact Nat.mod_lt _ (by omega)
        · exact c.getN_lt n (start + 1) rest hg b hmem

theorem Cursor.read_byte_lt {c : Cursor} {b : Nat} {c' : Cursor}
    (h : c.read_byte = .ok (b, c')) : b < 256 := by
  unfold Cursor.read_byte Cursor.peek_bytes at h
  by_cases he : c.is_eof = true ∨ c.length < c.offset + 1
  · simp only [he, if_pos] at h
    exact absurd h (by simp)
  · rw [if_neg he] at h
    cases hg : c.getN c.offset 1 with
    | error e => rw [hg] at h; cases h
    | ok l =>
      rw [hg] at h
      cases l with
      | nil => cases h
      | cons x rest =>
        cases h
        apply c.getN_lt 1 c.offset _ hg
        exact List.mem_cons_self _ _

set_option linter.unreachableTactic false in
set_option linter.unnecessarySeqFocus false in
set_option linter.unusedTactic false in
set_option linter.unusedVariables false in
set_option maxRecDepth 8000 in
set_option maxHeartbeats 3200000 in
/-- Every opcode produced by `parse_op` is scan-transparent: it is none of
the five structured-control variants that `scanEnds` interprets (those are
emitted only by the parse loop itself). -/
theorem parse_op_scanClass : ∀ (c : Nat), c < 256 →
    ∀ (st : Cursor) (blocks : List Nat) (op : Opcode) (st2 : Cursor),
    parse_op c st blocks = .ok (op, st2) → op.scanClass = ScanClass.skip
  | 0x00, _, st, blocks, op, st2, h => by cases h <;> rfl
  | 0x01, _, st, blocks, op, st2, h => by cases h <;> rfl
  | 0x02, _, st, blocks, op, st2, h => by cases h <;> rfl
  | 0x03, _, st, blocks, op, st2, h => by cases h <;> rfl
  | 0x04, _, st, blocks, op, st2, h => by cases h <;> rfl
  | 0x05, _, st, blocks, op, st2, h => by cases h <;> rfl
  | 0x06, _, st, blocks, op, st2, h => by cases h <;> rfl
  | 0x07, _, st, blocks, op, st2, h => by cases h <;> rfl
  | 0x08, _, st, blocks, op, st2, h => by cases h <;> rfl
  | 0x09, _, st, blocks, op, st2, h => by cases h <;> rfl
  | 0x0a, _, st, blocks, op, st2, h => by cases h <;> rfl
  | 0x0b, _, st, blocks, op, st2, h => by cases h <;> rfl
  | 0x0c, _, st, blocks, op, st2, h => by
      replace h : ((
        match st.read_leb_u32 with
        | .error e => .error e
        | .ok (label, st) =>
          match blockIdxA blocks label with
          | .error e => .error e
          | .ok t => .ok (.Br label t, st)
        ) : Except RErr (Opcode × Cursor)) = .ok (op, st2) := h
      repeat' split at h
      all_goals (cases h <;> rfl)
  | 0x0d, _, st, blocks, op, st2, h => by
      replace h : ((
        match st.read_leb_u32 with
        | .error e => .error e
        | .ok (label, st) =>
          match blockIdxB blocks label with
          | .error e => .error e
          | .ok t => .ok (.BrIf label t, st)
        ) : Except RErr (Opcode × Cursor)) = .ok (op, st2) := h
      repeat' split at h
      all_goals (cases h <;> rfl)
  | 0x0e, _, st, blocks, op, st2, h => by
      replace h : ((
        match st.read_leb_u32 with
        | .error e => .error e
        | .ok (count, st) =>
          match readBrEntries blocks count st with
          | .error e => .error e
          | .ok (entries, st) =>
            match st.read_leb_u32 with
            | .error e => .error e
            | .ok (dft, st) =>
              match blockIdxB blocks dft with
              | .error e => .error e
              | .ok dt => .ok (.BrTable count entries (dft, dt), st)
        ) : Except RErr (Opcode × Cursor)) = .ok (op, st2) := h
      repeat' split at h
      all_goals (cases h <;> rfl)
  | 0x0f, _, st, blocks, op, st2, h => by cases h <;> rfl
  | 0x10, _, st, blocks, op, st2, h => by
      replace h : ((
        match st.read_leb_u32 with
        | .error e => .error e
        | .ok (x0, st) =>
          .ok (.Call x0, st)
        ) : Except RErr (Opcode × Cursor)) = .ok (op, st2) := h
      repeat' split at h
      all_goals (cases h <;> rfl)
  | 0x11, _, st, blocks, op, st2, h => by
      replace h : ((
        match st.read_leb_u32 with
        | .error e => .error e
        | .ok (x0, st) =>
          match st.read_leb_u32 with
          | .error e => .error e
          | .ok (x1, st) =>
            .ok (.CallIndirect x0 x1, st)
        ) : Except RErr (Opcode × Cursor)) = .ok (op, st2) := h
      repeat' split at h
      all_goals (cases h <;> rfl)
  | 0x12, _, st, blocks, op, st2, h => by cases h <;> rfl
  | 0x13, _, st, blocks, op, st2, h => by cases h <;> rfl
  | 0x14, _, st, blocks, op, st2, h => by cases h <;> rfl
  | 0x15, _, st, blocks, op, st2, h => by cases h <;> rfl
  | 0x16, _, st, blocks, op, st2, h => by cases h <;> rfl
  | 0x17, _, st, blocks, op, st2, h => by cases h <;> rfl
  | 0x18, _, st, blocks, op, st2, h => by cases h <;> rfl
  | 0x19, _, st, blocks, op, st2, h => by cases h <;> rfl
  | 0x1a, _, st, blocks, op, st2, h => by cases h <;> rfl
  | 0x1b, _, st, blocks, op, st2, h => by cases h <;> rfl
  | 0x1c, _, st, blocks, op, st2, h => by
      replace h : ((
        match st.read_leb_u32 with
        | .error e => .error e
        | .ok (count, st) =>
          match readSelectTypes count st with
          | .error e => .error e
          | .ok (types, st) => .ok (.SelectType count types, st)
        ) : Except RErr (Opcode × Cursor)) = .ok (op, st2) := h
      repeat' split at h
      all_goals (cases h <;> rfl)
  | 0x1d, _, st, blocks, op, st2, h => by cases h <;> rfl
  | 0x1e, _, st, blocks, op, st2, h => by cases h <;> rfl
  | 0x1f, _, st, blocks, op, st2, h => by cases h <;> rfl
  | 0x20, _, st, blocks, op, st2, h => by
      replace h : ((
        match st.read_leb_u32 with
        | .error e => .error e
        | .ok (x0, st) =>
          .ok (.LocalGet x0, st)
        ) : Except RErr (Opcode × Cursor)) = .ok (op, st2) := h
      repeat' split at h
      all_goals (cases h <;> rfl)
  | 0x21, _, st, blocks, op, st2, h => by
      replace h : ((
        match st.read_leb_u32 with
        | .error e => .error e
        | .ok (x0, st) =>
          .ok (.LocalSet x0, st)
        ) : Except RErr (Opcode × Cursor)) = .ok (op, st2) := h
      repeat' split at h
      all_goals (cases h <;> rfl)
  | 0x22, _, st, blocks, op, st2, h => by
      replace h : ((
        match st.read_leb_u32 with
        | .error e => .error e
        | .ok (x0, st) =>
          .ok (.LocalTee x0, st)
        ) : Except RErr (Opcode × Cursor)) = .ok (op, st2) := h
      repeat' split at h
      all_goals (cases h <;> rfl)
  | 0x23, _, st, blocks, op, st2, h => by
      replace h : ((
        match st.read_leb_u32 with
        | .error e => .error e
        | .ok (x0, st) =>
          .ok (.GlobalGet x0, st)
        ) : Except RErr (Opcode × Cursor)) = .ok (op, st2) := h
      repeat' split at h
      all_goals (cases h <;> rfl)
  | 0x24, _, st, blocks, op, st2, h => by
      replace h : ((
        match st.read_leb_u32 with
        | .error e => .error e
        | .ok (x0, st) =>
          .ok (.GlobalSet x0, st)
        ) : Except RErr (Opcode × Cursor)) = .ok (op, st2) := h
      repeat' split at h
      all_goals (cases h <;> rfl)
  | 0x25, _, st, blocks, op, st2, h => by
      replace h : ((
        match st.read_leb_u32 with
        | .error e => .error e
        | .ok (x0, st) =>
          .ok (.TableGet x0, st)
        ) : Except RErr (Opcode × Cursor)) = .ok (op, st2) := h
      repeat' split at h
      all_goals (cases h <;> rfl)
  | 0x26, _, st, blocks, op, st2, h => by
      replace h : ((
        match st.read_leb_u32 with
        | .error e => .error e
        | .ok (x0, st) =>
          .ok (.TableSet x0, st)
        ) : Except RErr (Opcode × Cursor)) = .ok (op, st2) := h
      repeat' split at h
      all_goals (cases h <;> rfl)
  | 0x27, _, st, blocks, op, st2, h => by cases h <;> rfl
  | 0x28, _, st, blocks, op, st2, h => by
      replace h : ((
        match st.read_leb_u32 with
        | .error e => .error e
        | .ok (x0, st) =>
          match st.read_leb_u32 with
          | .error e => .error e
          | .ok (x1, st) =>
            .ok (.I32Load x0 x1, st)
        ) : Except RErr (Opcode × Cursor)) = .ok (op, st2) := h
      repeat' split at h
      all_goals (cases h <;> rfl)
  | 0x29, _, st, blocks, op, st2, h => by
      replace h : ((
        match st.read_leb_u32 with
        | .error e => .error e
        | .ok (x0, st) =>
          match st.read_leb_u32 with
          | .error e => .error e
          | .ok (x1, st) =>
            .ok (.I64Load x0 x1, st)
        ) : Except RErr (Opcode × Cursor)) = .ok (op, st2) := h
      repeat' split at h
      all_goals (cases h <;> rfl)
  | 0x2a, _, st, blocks, op, st2, h => by
      replace h : ((
        match st.read_leb_u32 with
        | .error e => .error e
        | .ok (x0, st) =>
          match st.read_leb_u32 with
          | .error e => .error e
          | .ok (x1, st) =>
            .ok (.F32Load x0 x1, st)
        ) : Except RErr (Opcode × Cursor)) = .ok (op, st2) := h
      repeat' split at h
      all_goals (cases h <;> rfl)
  | 0x2b, _, st, blocks, op, st2, h => by
      replace h : ((
        match st.read_leb_u32 with
        | .error e => .error e
        | .ok (x0, st) =>
          match st.read_leb_u32 with
          | .error e => .error e
          | .ok (x1, st) =>
            .ok (.F64Load x0 x1, st)
        ) : Except RErr (Opcode × Cursor)) = .ok (op, st2) := h
      repeat' split at h
      all_goals (cases h <;> rfl)
  | 0x2c, _, st, blocks, op, st2, h => by
      replace h : ((
        match st.read_leb_u32 with
        | .error e => .error e
        | .ok (x0, st) =>
          match st.read_leb_u32 with
          | .error e => .error e
          | .ok (x1, st) =>
            .ok (.I32Load8s x0 x1, st)
        ) : Except RErr (Opcode × Cursor)) = .ok (op, st2) := h
      repeat' split at h
      all_goals (cases h <;> rfl)
  | 0x2d, _, st, blocks, op, st2, h => by
      replace h : ((
        match st.read_leb_u32 with
        | .error e => .error e
        | .ok (x0, st) =>
          match st.read_leb_u32 with
          | .error e => .error e
          | .ok (x1, st) =>
            .ok (.I32Load8u x0 x1, st)
        ) : Except RErr (Opcode × Cursor)) = .ok (op, st2) := h
      repeat' split at h
      all_goals (cases h <;> rfl)
  | 0x2e, _, st, blocks, op, st2, h => by
      replace h : ((
        match st.read_leb_u32 with
        | .error e => .error e
        | .ok (x0, st) =>
          match st.read_leb_u32 with
          | .error e => .error e
          | .ok (x1, st) =>
            .ok (.I32Load16s x0 x1, st)
        ) : Except RErr (Opcode × Cursor)) = .ok (op, st2) := h
      repeat' split at h
      all_goals (cases h <;> rfl)
  | 0x2f, _, st, blocks, op, st2, h => by
      replace h : ((
        match st.read_leb_u32 with
        | .error e => .error e
        | .ok (x0, st) =>
          match st.read_leb_u32 with
          | .error e => .error e
          | .ok (x1, st) =>
            .ok (.I32Load16u x0 x1, st)
        ) : Except RErr (Opcode × Cursor)) = .ok (op, st2) := h
      repeat' split at h
      all_goals (cases h <;> rfl)
  | 0x30, _, st, blocks, op, st2, h => by
      replace h : ((
        match st.read_leb_u32 with
        | .error e => .error e
        | .ok (x0, st) =>
          match st.read_leb_u32 with
          | .error e => .error e
          | .ok (x1, st) =>
            .ok (.I64Load8s x0 x1, st)
        ) : Except RErr (Opcode × Cursor)) = .ok (op, st2) := h
      repeat' split at h
      all_goals (cases h <;> rfl)
  | 0x31, _, st, blocks, op, st2, h => by
      replace h : ((
        match st.read_leb_u32 with
        | .error e => .error e
        | .ok (x0, st) =>
          match st.read_leb_u32 with
          | .error e => .error e
          | .ok (x1, st) =>
            .ok (.I64Load8u x0 x1, st)
        ) : Except RErr (Opcode × Cursor)) = .ok (op, st2) := h
      repeat' split at h
      all_goals (cases h <;> rfl)
  | 0x32, _, st, blocks, op, st2, h => by
      replace h : ((
        match st.read_leb_u32 with
        | .error e => .error e
        | .ok (x0, st) =>
          match st.read_leb_u32 with
          | .error e => .error e
          | .ok (x1, st) =>
            .ok (.I64Load16s x0 x1, st)
        ) : Except RErr (Opcode × Cursor)) = .ok (op, st2) := h
      repeat' split at h
      all_goals (cases h <;> rfl)
  | 0x33, _, st, blocks, op, st2, h => by
      replace h : ((
        match st.read_leb_u32 with
        | .error e => .error e
        | .ok (x0, st) =>
          match st.read_leb_u32 with
          | .error e => .error e
          | .ok (x1, st) =>
            .ok (.I64Load16u x0 x1, st)
        ) : Except RErr (Opcode × Cursor)) = .ok (op, st2) := h
      repeat' split at h
      all_goals (cases h <;> rfl)
  | 0x34, _, st, blocks, op, st2, h => by
      replace h : ((
        match st.read_leb_u32 with
        | .error e => .error e
        | .ok (x0, st) =>
          match st.read_leb_u32 with
          | .error e => .error e
          | .ok (x1, st) =>
            .ok (.I64Load32s x0 x1, st)
        ) : Except RErr (Opcode × Cursor)) = .ok (op, st2) := h
      repeat' split at h
      all_goals (cases h <;> rfl)
  | 0x35, _, st, blocks, op, st2, h => by
      replace h : ((
        match st.read_leb_u32 with
        | .error e => .error e
        | .ok (x0, st) =>
          match st.read_leb_u32 with
          | .error e => .error e
          | .ok (x1, st) =>
            .ok (.I64Load32u x0 x1, st)
        ) : Except RErr (Opcode × Cursor)) = .ok (op, st2) := h
      repeat' split at h
      all_goals (cases h <;> rfl)
  | 0x36, _, st, blocks, op, st2, h => by
      replace h : ((
        match st.read_leb_u32 with
        | .error e => .error e
        | .ok (x0, st) =>
          match st.read_leb_u32 with
          | .error e => .error e
          | .ok (x1, st) =>
            .ok (.I32Store x0 x1, st)
        ) : Except RErr (Opcode × Cursor)) = .ok (op, st2) := h
      repeat' split at h
      all_goals (cases h <;> rfl)
  | 0x37, _, st, blocks, op, st2, h => by
      replace h : ((
        match st.read_leb_u32 with
        | .error e => .error e
        | .ok (x0, st) =>
          match st.read_leb_u32 with
          | .error e => .error e
          | .ok (x1, st) =>
            .ok (.I64Store x0 x1, st)
        ) : Except RErr (Opcode × Cursor)) = .ok (op, st2) := h
      repeat' split at h
      all_goals (cases h <;> rfl)
  | 0x38, _, st, blocks, op, st2, h => by
      replace h : ((
        match st.read_leb_u32 with
        | .error e => .error e
        | .ok (x0, st) =>
          match st.read_leb_u32 with
          | .error e => .error e
          | .ok (x1, st) =>
            .ok (.F32Store x0 x1, st)
        ) : Except RErr (Opcode × Cursor)) = .ok (op, st2) := h
      repeat' split at h
      all_goals (cases h <;> rfl)
  | 0x39, _, st, blocks, op, st2, h => by
      replace h : ((
        match st.read_leb_u32 with
        | .error e => .error e
        | .ok (x0, st) =>
          match st.read_leb_u32 with
          | .error e => .error e
          | .ok (x1, st) =>
            .ok (.F64Store x0 x1, st)
        ) : Except RErr (Opcode × Cursor)) = .ok (op, st2) := h
      repeat' split at h
      all_goals (cases h <;> rfl)
  | 0x3a, _, st, blocks, op, st2, h => by
      replace h : ((
        match st.read_leb_u32 with
        | .error e => .error e
        | .ok (x0, st) =>
          match st.read_leb_u32 with
          | .error e => .error e
          | .ok (x1, st) =>
            .ok (.I32Store8 x0 x1, st)
        ) : Except RErr (Opcode × Cursor)) = .ok (op, st2) := h
      repeat' split at h
      all_goals (cases h <;> rfl)
  | 0x3b, _, st, blocks, op, st2, h => by
      replace h : ((
        match st.read_leb_u32 with
        | .error e => .error e
        | .ok (x0, st) =>
          match st.read_leb_u32 with
          | .error e => .error e
          | .ok (x1, st) =>
            .ok (.I32Store16 x0 x1, st)
        ) : Except RErr (Opcode × Cursor)) = .ok (op, st2) := h
      repeat' split at h
      all_goals (cases h <;> rfl)
  | 0x3c, _, st, blocks, op, st2, h => by
      replace h : ((
        match st.read_leb_u32 with
        | .error e => .error e
        | .ok (x0, st) =>
          match st.read_leb_u32 with
          | .error e => .error e
          | .ok (x1, st) =>
            .ok (.I64Store8 x0 x1, st)
        ) : Except RErr (Opcode × Cursor)) = .ok (op, st2) := h
      repeat' split at h
      all_goals (cases h <;> rfl)
  | 0x3d, _, st, blocks, op, st2, h => by
      replace h : ((
        match st.read_leb_u32 with
        | .error e => .error e
        | .ok (x0, st) =>
          match st.read_leb_u32 with
          | .error e => .error e
          | .ok (x1, st) =>
            .ok (.I64Store16 x0 x1, st)
        ) : Except RErr (Opcode × Cursor)) = .ok (op, st2) := h
      repeat' split at h
      all_goals (cases h <;> rfl)
  | 0x3e, _, st, blocks, op, st2, h => by
      replace h : ((
        match st.read_leb_u32 with
        | .error e => .error e
        | .ok (x0, st) =>
          match st.read_leb_u32 with
          | .error e => .error e
          | .ok (x1, st) =>
            .ok (.I64Store32 x0 x1, st)
        ) : Except RErr (Opcode × Cursor)) = .ok (op, st2) := h
      repeat' split at h
      all_goals (cases h <;> rfl)
  | 0x3f, _, st, blocks, op, st2, h => by cases h <;> rfl
  | 0x40, _, st, blocks, op, st2, h => by cases h <;> rfl
  | 0x41, _, st, blocks, op, st2, h => by
      replace h : ((
        match st.read_leb_i32 with
        | .error e => .error e
        | .ok (x, st) => .ok (.I32Const x, st)
        ) : Except RErr (Opcode × Cursor)) = .ok (op, st2) := h
      repeat' split at h
      all_goals (cases h <;> rfl)
  | 0x42, _, st, blocks, op, st2, h => by
      replace h : ((
        match st.read_leb_i64 with
        | .error e => .error e
        | .ok (x, st) => .ok (.I64Const x, st)
        ) : Except RErr (Opcode × Cursor)) = .ok (op, st2) := h
      repeat' split at h
      all_goals (cases h <;> rfl)
  | 0x43, _, st, blocks, op, st2, h => by
      replace h : ((
        match st.read_bytes 4 with
        | .error e => .error e
        | .ok (bytes, st) => .ok (.F32Const (leNat bytes), st)
        ) : Except RErr (Opcode × Cursor)) = .ok (op, st2) := h
      repeat' split at h
      all_goals (cases h <;> rfl)
  | 0x44, _, st, blocks, op, st2, h => by
      replace h : ((
        match st.read_bytes 8 with
        | .error e => .error e
        | .ok (bytes, st) => .ok (.F64Const (leNat bytes), st)
        ) : Except RErr (Opcode × Cursor)) = .ok (op, st2) := h
      repeat' split at h
      all_goals (cases h <;> rfl)
  | 0x45, _, st, blocks, op, st2, h => by cases h <;> rfl
  | 0x46, _, st, blocks, op, st2, h => by cases h <;> rfl
  | 0x47, _, st, blocks, op, st2, h => by cases h <;> rfl
  | 0x48, _, st, blocks, op, st2, h => by cases h <;> rfl
  | 0x49, _, st, blocks, op, st2, h => by cases h <;> rfl
  | 0x4a, _, st, blocks, op, st2, h => by cases h <;> rfl
  | 0x4b, _, st, blocks, op, st2, h => by cases h <;> rfl
  | 0x4c, _, st, blocks, op, st2, h => by cases h <;> rfl
  | 0x4d, _, st, blocks, op, st2, h => by cases h <;> rfl
  | 0x4e, _, st, blocks, op, st2, h => by cases h <;> rfl
  | 0x4f, _, st, blocks, op, st2, h => by cases h <;> rfl
  | 0x50, _, st, blocks, op, st2, h => by cases h <;> rfl
  | 0x51, _, st, blocks, op, st2, h => by cases h <;> rfl
  | 0x52, _, st, blocks, op, st2, h => by cases h <;> rfl
  | 0x53, _, st, blocks, op, st2, h => by cases h <;> rfl
  | 0x54, _, st, blocks, op, st2, h => by cases h <;> rfl
  | 0x55, _, st, blocks, op, st2, h => by cases h <;> rfl
  | 0x56, _, st, blocks, op, st2, h => by cases h <;> rfl
  | 0x57, _, st, blocks, op, st2, h => by cases h <;> rfl
  | 0x58, _, st, blocks, op, st2, h => by cases h <;> rfl
  | 0x59, _, st, blocks, op, st2, h => by cases h <;> rfl
  | 0x5a, _, st, blocks, op, st2, h => by cases h <;> rfl
  | 0x5b, _, st, blocks, op, st2, h => by cases h <;> rfl
  | 0x5c, _, st, blocks, op, st2, h => by cases h <;> rfl
  | 0x5d, _, st, blocks, op, st2, h => by cases h <;> rfl
  | 0x5e, _, st, blocks, op, st2, h => by cases h <;> rfl
  | 0x5f, _, st, blocks, op, st2, h => by cases h <;> rfl
  | 0x60, _, st, blocks, op, st2, h => by cases h <;> rfl
  | 0x61, _, st, blocks, op, st2, h => by cases h <;> rfl
  | 0x62, _, st, blocks, op, st2, h => by cases h <;> rfl
  | 0x63, _, st, blocks, op, st2, h => by cases h <;> rfl
  | 0x64, _, st, blocks, op, st2, h => by cases h <;> rfl
  | 0x65, _, st, blocks, op, st2, h => by cases h <;> rfl
  | 0x66, _, st, blocks, op, st2, h => by cases h <;> rfl
  | 0x67, _, st, blocks, op, st2, h => by cases h <;> rfl
  | 0x68, _, st, blocks, op, st2, h => by cases h <;> rfl
  | 0x69, _, st, blocks, op, st2, h => by cases h <;> rfl
  | 0x6a, _, st, blocks, op, st2, h => by cases h <;> rfl
  | 0x6b, _, st, blocks, op, st2, h => by cases h <;> rfl
  | 0x6c, _, st, blocks, op, st2, h => by cases h <;> rfl
  | 0x6d, _, st, blocks, op, st2, h => by cases h <;> rfl
  | 0x6e, _, st, blocks, op, st2, h => by cases h <;> rfl
  | 0x6f, _, st, blocks, op, st2, h => by cases h <;> rfl
  | 0x70, _, st, blocks, op, st2, h => by cases h <;> rfl
  | 0x71, _, st, blocks, op, st2, h => by cases h <;> rfl
  | 0x72, _, st, blocks, op, st2, h => by cases h <;> rfl
  | 0x73, _, st, blocks, op, st2, h => by cases h <;> rfl
  | 0x74, _, st, blocks, op, st2, h => by cases h <;> rfl
  | 0x75, _, st, blocks, op, st2, h => by cases h <;> rfl
  | 0x76, _, st, blocks, op, st2, h => by cases h <;> rfl
  | 0x77, _, st, blocks, op, st2, h => by cases h <;> rfl
  | 0x78, _, st, blocks, op, st2, h => by cases h <;> rfl
  | 0x79, _, st, blocks, op, st2, h => by cases h <;> rfl
  | 0x7a, _, st, blocks, op, st2, h => by cases h <;> rfl
  | 0x7b, _, st, blocks, op, st2, h => by cases h <;> rfl
  | 0x7c, _, st, blocks, op, st2, h => by cases h <;> rfl
  | 0x7d, _, st, blocks, op, st2, h => by cases h <;> rfl
  | 0x7e, _, st, blocks, op, st2, h => by cases h <;> rfl
  | 0x7f, _, st, blocks, op, st2, h => by cases h <;> rfl
  | 0x80, _, st, blocks, op, st2, h => by cases h <;> rfl
  | 0x81, _, st, blocks, op, st2, h => by cases h <;> rfl
  | 0x82, _, st, blocks, op, st2, h => by cases h <;> rfl
  | 0x83, _, st, blocks, op, st2, h => by cases h <;> rfl
  | 0x84, _, st, blocks, op, st2, h => by cases h <;> rfl
  | 0x85, _, st, blocks, op, st2, h => by cases h <;> rfl
  | 0x86, _, st, blocks, op, st2, h => by cases h <;> rfl
  | 0x87, _, st, blocks, op, st2, h => by cases h <;> rfl
  | 0x88, _, st, blocks, op, st2, h => by cases h <;> rfl
  | 0x89, _, st, blocks, op, st2, h => by cases h <;> rfl
  | 0x8a, _, st, blocks, op, st2, h => by cases h <;> rfl
  | 0x8b, _, st, blocks, op, st2, h => by cases h <;> rfl
  | 0x8c, _, st, blocks, op, st2, h => by cases h <;> rfl
  | 0x8d, _, st, blocks, op, st2, h => by cases h <;> rfl
  | 0x8e, _, st, blocks, op, st2, h => by cases h <;> rfl
  | 0x8f, _, st, blocks, op, st2, h => by cases h <;> rfl
  | 0x90, _, st, blocks, op, st2, h => by cases h <;> rfl
  | 0x91, _, st, blocks, op, st2, h => by cases h <;> rfl
  | 0x92, _, st, blocks, op, st2, h => by cases h <;> rfl
  | 0x93, _, st, blocks, op, st2, h => by cases h <;> rfl
  | 0x94, _, st, blocks, op, st2, h => by cases h <;> rfl
  | 0x95, _, st, blocks, op, st2, h => by cases h <;> rfl
  | 0x96, _, st, blocks, op, st2, h => by cases h <;> rfl
  | 0x97, _, st, blocks, op, st2, h => by cases h <;> rfl
  | 0x98, _, st, blocks, op, st2, h => by cases h <;> rfl
  | 0x99, _, st, blocks, op, st2, h => by cases h <;> rfl
  | 0x9a, _, st, blocks, op, st2, h => by cases h <;> rfl
  | 0x9b, _, st, blocks, op, st2, h => by cases h <;> rfl
  | 0x9c, _, st, blocks, op, st2, h => by cases h <;> rfl
  | 0x9d, _, st, blocks, op, st2, h => by cases h <;> rfl
  | 0x9e, _, st, blocks, op, st2, h => by cases h <;> rfl
  | 0x9f, _, st, blocks, op, st2, h => by cases h <;> rfl
  | 0xa0, _, st, blocks, op, st2, h => by cases h <;> rfl
  | 0xa1, _, st, blocks, op, st2, h => by cases h <;> rfl
  | 0xa2, _, st, blocks, op, st2, h => by cases h <;> rfl
  | 0xa3, _, st, blocks, op, st2, h => by cases h <;> rfl
  | 0xa4, _, st, blocks, op, st2, h => by cases h <;> rfl
  | 0xa5, _, st, blocks, op, st2, h => by cases h <;> rfl
  | 0xa6, _, st, blocks, op, st2, h => by cases h <;> rfl
  | 0xa7, _, st, blocks, op, st2, h => by cases h <;> rfl
  | 0xa8, _, st, blocks, op, st2, h => by cases h <;> rfl
  | 0xa9, _, st, blocks, op, st2, h => by cases h <;> rfl
  | 0xaa, _, st, blocks, op, st2, h => by cases h <;> rfl
  | 0xab, _, st, blocks, op, st2, h => by cases h <;> rfl
  | 0xac, _, st, blocks, op, st2, h => by cases h <;> rfl
  | 0xad, _, st, blocks, op, st2, h => by cases h <;> rfl
  | 0xae, _, st, blocks, op, st2, h => by cases h <;> rfl
  | 0xaf, _, st, blocks, op, st2, h => by cases h <;> rfl
  | 0xb0, _, st, blocks, op, st2, h => by cases h <;> rfl
  | 0xb1, _, st, blocks, op, st2, h => by cases h <;> rfl
  | 0xb2, _, st, blocks, op, st2, h => by cases h <;> rfl
  | 0xb3, _, st, blocks, op, st2, h => by cases h <;> rfl
  | 0xb4, _, st, blocks, op, st2, h => by cases h <;> rfl
  | 0xb5, _, st, blocks, op, st2, h => by cases h <;> rfl
  | 0xb6, _, st, blocks, op, st2, h => by cases h <;> rfl
  | 0xb7, _, st, blocks, op, st2, h => by cases h <;> rfl
  | 0xb8, _, st, blocks, op, st2, h => by cases h <;> rfl
  | 0xb9, _, st, blocks, op, st2, h => by cases h <;> rfl
  | 0xba, _, st, blocks, op, st2, h => by cases h <;> rfl
  | 0xbb, _, st, blocks, op, st2, h => by cases h <;> rfl
  | 0xbc, _, st, blocks, op, st2, h => by cases h <;> rfl
  | 0xbd, _, st, blocks, op, st2, h => by cases h <;> rfl
  | 0xbe, _, st, blocks, op, st2, h => by cases h <;> rfl
  | 0xbf, _, st, blocks, op, st2, h => by cases h <;> rfl
  | 0xc0, _, st, blocks, op, st2, h => by cases h <;> rfl
  | 0xc1, _, st, blocks, op, st2, h => by cases h <;> rfl
  | 0xc2, _, st, blocks, op, st2, h => by cases h <;> rfl
  | 0xc3, _, st, blocks, op, st2, h => by cases h <;> rfl
  | 0xc4, _, st, blocks, op, st2, h => by cases h <;> rfl
  | 0xc5, _, st, blocks, op, st2, h => by cases h <;> rfl
  | 0xc6, _, st, blocks, op, st2, h => by cases h <;> rfl
  | 0xc7, _, st, blocks, op, st2, h => by cases h <;> rfl
  | 0xc8, _, st, blocks, op, st2, h => by cases h <;> rfl
  | 0xc9, _, st, blocks, op, st2, h => by cases h <;> rfl
  | 0xca, _, st, blocks, op, st2, h => by cases h <;> rfl
  | 0xcb, _, st, blocks, op, st2, h => by cases h <;> rfl
  | 0xcc, _, st, blocks, op, st2, h => by cases h <;> rfl
  | 0xcd, _, st, blocks, op, st2, h => by cases h <;> rfl
  | 0xce, _, st, blocks, op, st2, h => by cases h <;> rfl
  | 0xcf, _, st, blocks, op, st2, h => by cases h <;> rfl
  | 0xd0, _, st, blocks, op, st2, h => by
      replace h : ((
        match st.read_byte with
        | .error e => .error e
        | .ok (byte, st) =>
          if byte = 0x70 ∨ byte = 0x6f then .ok (.RefNull byte, st)
          else .error .anyhowErr
        ) : Except RErr (Opcode × Cursor)) = .ok (op, st2) := h
      repeat' split at h
      all_goals (cases h <;> rfl)
  | 0xd1, _, st, blocks, op, st2, h => by cases h <;> rfl
  | 0xd2, _, st, blocks, op, st2, h => by
      replace h : ((
        match st.read_leb_u32 with
        | .error e => .error e
        | .ok (x0, st) =>
          .ok (.RefFunc x0, st)
        ) : Except RErr (Opcode × Cursor)) = .ok (op, st2) := h
      repeat' split at h
      all_goals (cases h <;> rfl)
  | 0xd3, _, st, blocks, op, st2, h => by cases h <;> rfl
  | 0xd4, _, st, blocks, op, st2, h => by cases h <;> rfl
  | 0xd5, _, st, blocks, op, st2, h => by cases h <;> rfl
  | 0xd6, _, st, blocks, op, st2, h => by cases h <;> rfl
  | 0xd7, _, st, blocks, op, st2, h => by cases h <;> rfl
  | 0xd8, _, st, blocks, op, st2, h => by cases h <;> rfl
  | 0xd9, _, st, blocks, op, st2, h => by cases h <;> rfl
  | 0xda, _, st, blocks, op, st2, h => by cases h <;> rfl
  | 0xdb, _, st, blocks, op, st2, h => by cases h <;> rfl
  | 0xdc, _, st, blocks, op, st2, h => by cases h <;> rfl
  | 0xdd, _, st, blocks, op, st2, h => by cases h <;> rfl
  | 0xde, _, st, blocks, op, st2, h => by cases h <;> rfl
  | 0xdf, _, st, blocks, op, st2, h => by cases h <;> rfl
  | 0xe0, _, st, blocks, op, st2, h => by cases h <;> rfl
  | 0xe1, _, st, blocks, op, st2, h => by cases h <;> rfl
  | 0xe2, _, st, blocks, op, st2, h => by cases h <;> rfl
  | 0xe3, _, st, blocks, op, st2, h => by cases h <;> rfl
  | 0xe4, _, st, blocks, op, st2, h => by cases h <;> rfl
  | 0xe5, _, st, blocks, op, st2, h => by cases h <;> rfl
  | 0xe6, _, st, blocks, op, st2, h => by cases h <;> rfl
  | 0xe7, _, st, blocks, op, st2, h => by cases h <;> rfl
  | 0xe8, _, st, blocks, op, st2, h => by cases h <;> rfl
  | 0xe9, _, st, blocks, op, st2, h => by cases h <;> rfl
  | 0xea, _, st, blocks, op, st2, h => by cases h <;> rfl
  | 0xeb, _, st, blocks, op, st2, h => by cases h <;> rfl
  | 0xec, _, st, blocks, op, st2, h => by cases h <;> rfl
  | 0xed, _, st, blocks, op, st2, h => by cases h <;> rfl
  | 0xee, _, st, blocks, op, st2, h => by cases h <;> rfl
  | 0xef, _, st, blocks, op, st2, h => by cases h <;> rfl
  | 0xf0, _, st, blocks, op, st2, h => by cases h <;> rfl
  | 0xf1, _, st, blocks, op, st2, h => by cases h <;> rfl
  | 0xf2, _, st, blocks, op, st2, h => by cases h <;> rfl
  | 0xf3, _, st, blocks, op, st2, h => by cases h <;> rfl
  | 0xf4, _, st, blocks, op, st2, h => by cases h <;> rfl
  | 0xf5, _, st, blocks, op, st2, h => by cases h <;> rfl
  | 0xf6, _, st, blocks, op, st2, h => by cases h <;> rfl
  | 0xf7, _, st, blocks, op, st2, h => by cases h <;> rfl
  | 0xf8, _, st, blocks, op, st2, h => by cases h <;> rfl
  | 0xf9, _, st, blocks, op, st2, h => by cases h <;> rfl
  | 0xfa, _, st, blocks, op, st2, h => by cases h <;> rfl
  | 0xfb, _, st, blocks, op, st2, h => by cases h <;> rfl
  | 0xfc, _, st, blocks, op, st2, h => by
      replace h : ((
        match st.read_leb_u32 with
        | .error e => .error e
        | .ok (op, st) =>
          if 17 < op then .error .anyhowErr
          else
            match op with
            | 0 => .ok (.I32TruncSatF32s, st)
            | 1 => .ok (.I32TruncSatF32u, st)
            | 2 => .ok (.I32TruncSatF64s, st)
            | 3 => .ok (.I32TruncSatF64u, st)
            | 4 => .ok (.I64TruncSatF32s, st)
            | 5 => .ok (.I64TruncSatF32u, st)
            | 6 => .ok (.I64TruncSatF64s, st)
            | 7 => .ok (.I64TruncSatF64u, st)
            | 8 =>
              match st.read_leb_u32 with
              | .error e => .error e
              | .ok (x, st) => .ok (.MemoryInit x, st)
            | 9 =>
              match st.read_leb_u32 with
              | .error e => .error e
              | .ok (x, st) => .ok (.DataDrop x, st)
            | 10 => .ok (.MemoryCopy, st)
            | 11 => .ok (.MemoryFill, st)
            | 12 =>
              match st.read_leb_u32 with
              | .error e => .error e
              | .ok (x, st) =>
                match st.read_leb_u32 with
                | .error e => .error e
                | .ok (y, st) => .ok (.TableInit x y, st)
            | 13 =>
              match st.read_leb_u32 with
              | .error e => .error e
              | .ok (x, st) => .ok (.ElemDrop x, st)
            | 14 =>
              match st.read_leb_u32 with
              | .error e => .error e
              | .ok (x, st) =>
                match st.read_leb_u32 with
                | .error e => .error e
                | .ok (y, st) => .ok (.TableCopy x y, st)
            | 15 =>
              match st.read_leb_u32 with
              | .error e => .error e
              | .ok (x, st) => .ok (.TableGrow x, st)
            | 16 =>
              match st.read_leb_u32 with
              | .error e => .error e
              | .ok (x, st) => .ok (.TableSize x, st)
            | 17 =>
              match st.read_leb_u32 with
              | .error e => .error e
              | .ok (x, st) => .ok (.TableFill x, st)
            | _ => .error .anyhowErr
        ) : Except RErr (Opcode × Cursor)) = .ok (op, st2) := h
      repeat' split at h
      all_goals (cases h <;> rfl)
  | 0xfd, _, st, blocks, op, st2, h => by
      replace h : ((
        match st.read_leb_u32 with
        | .error e => .error e
        | .ok (code2, st) =>
          match parse_fd code2 st with
          | .error e => .error e
          | .ok (fd, st) => .ok (.FD fd, st)
        ) : Except RErr (Opcode × Cursor)) = .ok (op, st2) := h
      repeat' split at h
      all_goals (cases h <;> rfl)
  | 0xfe, _, st, blocks, op, st2, h => by cases h <;> rfl
  | 0xff, _, st, blocks, op, st2, h => by cases h <;> rfl
  | c + 0x100, hc, _, _, _, _, _ => absurd hc (by omega)


/-- Setting the element just past a prefix. -/
theorem set_append_cons {α : Type} (l1 : List α) (x : α) (l2 : List α) (y : α) :
    (l1 ++ x :: l2).set l1.length y = l1 ++ y :: l2 := by
  induction l1 with
  | nil => rfl
  | cons a t ih => simp [List.set, ih]

theorem scanClass_Block (bt : BlockType) (l : Location) :
    (Opcode.Block bt l).scanClass = ScanClass.push := rfl

theorem scanClass_Loop (bt : BlockType) (l : Location) :
    (Opcode.Loop bt l).scanClass = ScanClass.push := rfl

theorem scanClass_If (bt : BlockType) (l : Location) :
    (Opcode.If bt l).scanClass = ScanClass.push := rfl

theorem scanClass_Br (a b : Nat) : (Opcode.Br a b).scanClass = ScanClass.skip := rfl

theorem scanEnds_cons_some {pc : Nat} {op : Opcode} {stack stack2 : List Nat}
    (rest : List Opcode) (h : scanStep pc op stack = some stack2) :
    scanEnds pc (op :: rest) stack = scanEnds (pc + 1) rest stack2 := by
  rw [scanEnds, h]

/-- The conclusion of the parse-loop scan invariant: the call only appended
instructions, and the appended slice scans successfully against the matching
discipline, starting from the single open construct whose body-start pc is
`base`; when the call returned with input bytes left (so the loop stopped on
an `End` or `Else` break, not by exhaustion), every construct it opened has
been closed. -/
def scanOk (ops0 : List Opcode) (base : Nat)
    (out : Cursor × List Opcode × List Nat × (Nat × Nat × Nat)) : Prop :=
  ∃ Δ stk, out.2.1 = ops0 ++ Δ ∧ scanEnds ops0.length Δ [base] = some stk ∧
    (out.1.offset < out.1.length → stk = [])

theorem scanOk_skip_cons {ops : List Opcode} {op : Opcode}
    (hskip : op.scanClass = ScanClass.skip) {p0 : Nat}
    {out : Cursor × List Opcode × List Nat × (Nat × Nat × Nat)}
    (h : scanOk (ops ++ [op]) p0 out) : scanOk ops p0 out := by
  obtain ⟨Δr, stkR, hout, hscan, hcond⟩ := h
  refine ⟨op :: Δr, stkR, by simpa using hout, ?_, hcond⟩
  rw [scanEnds_cons_some Δr (scanStep_skip hskip ops.length [p0])]
  rw [show (ops ++ [op]).length = ops.length + 1 from by simp] at hscan
  exact hscan

/-- Composing a backfilled `Block`/`Loop`/`If` head with its body slice when
the loop goes on (the body's recursion closed all its constructs). -/
theorem scanOk_block_cont {ops : List Opcode} {hd2 : Opcode} {Δi : List Opcode} {p0 : Nat}
    {out : Cursor × List Opcode × List Nat × (Nat × Nat × Nat)}
    (hpush : hd2.scanClass = ScanClass.push)
    (hscanI : scanEnds (ops.length + 1) Δi [ops.length + 1] = some [])
    (hrest : scanOk (ops ++ hd2 :: Δi) p0 out) : scanOk ops p0 out := by
  obtain ⟨Δr, stkR, hout, hscan, hcond⟩ := hrest
  refine ⟨hd2 :: (Δi ++ Δr), stkR, by simpa using hout, ?_, hcond⟩
  have hstep : scanStep ops.length hd2 [p0] = some ([ops.length + 1] ++ [p0]) := by
    unfold scanStep; rw [hpush]; rfl
  rw [scanEnds_cons_some (Δi ++ Δr) hstep, scanEnds_append,
    scanEnds_frame [p0] hscanI]
  show scanEnds (ops.length + 1 + Δi.length) Δr ([] ++ [p0]) = some stkR
  rw [show (ops ++ hd2 :: Δi).length = ops.length + 1 + Δi.length from by simp; omega] at hscan
  rw [List.nil_append]
  exact hscan

/-- Composing a backfilled head with its body slice when the loop stops
right afterwards because the input is exhausted. -/
theorem scanOk_block_stop {ops : List Opcode} {hd2 : Opcode} {Δi : List Opcode}
    {stkI : List Nat} {p0 : Nat} {st3 : Cursor} {bl : List Nat} {q : Nat × Nat × Nat}
    (hpush : hd2.scanClass = ScanClass.push)
    (hscanI : scanEnds (ops.length + 1) Δi [ops.length + 1] = some stkI)
    (hnoff : ¬ st3.offset < st3.length) :
    scanOk ops p0 (st3, ops ++ hd2 :: Δi, bl, q) := by
  refine ⟨hd2 :: Δi, stkI ++ [p0], rfl, ?_, fun h => absurd h hnoff⟩
  have hstep : scanStep ops.length hd2 [p0] = some ([ops.length + 1] ++ [p0]) := by
    unfold scanStep; rw [hpush]; rfl
  rw [scanEnds_cons_some Δi hstep]
  exact scanEnds_frame [p0] hscanI

set_option maxHeartbeats 1600000 in
/-- The scan invariant of `parse_code`: a successful call only appends to the
instruction array, and the appended slice satisfies the `End`-matching scan
discipline (`scanEnds`). -/
theorem parseGo_scan : ∀ (fuel : Nat) (req : PReq)
    (out : Cursor × List Opcode × List Nat × (Nat × Nat × Nat)),
    parseGo fuel req = .ok out →
    match req with
    | .code _ ops _ => scanOk ops ops.length out
    | .iter _ ops _ p0 _ => scanOk ops p0 out := by
  intro fuel
  induction fuel with
  | zero => intro req out h; simp [parseGo] at h
  | succ fuel ih =>
    intro req out hok
    cases req with
    | code st ops blocks =>
      rw [parseGo] at hok
      exact ih _ _ hok
    | iter st ops blocks p0 p1 =>
      rw [parseGo] at hok
      split at hok
      case isTrue hoff =>
        split at hok
        · cases hok
        · rename_i code st1 hrb
          have hc256 : code < 256 := Cursor.read_byte_lt hrb
          split at hok
          -- 0x02 Block
          · split at hok
            · cases hok
            · rename_i bt st2 hbt
              split at hok
              · cases hok
              · rename_i st3 ops2 blocks2 pos2 hin
                obtain ⟨Δi, stkI, hops2, hscanI, hcondI⟩ := ih _ _ hin
                rw [show (ops ++ [Opcode.Block (BlockType.from_u32 bt) ⟨0,0,0⟩]).length
                  = ops.length + 1 from by simp] at hscanI
                have hops2' : ops2 = ops ++ Opcode.Block (BlockType.from_u32 bt) ⟨0,0,0⟩ :: Δi := by
                  simpa using hops2
                have hset : ops2.set ops.length
                    (Opcode.Block (BlockType.from_u32 bt) ⟨ops.length + 1, ops2.length - 1, ops2.length - 1⟩)
                    = ops ++ Opcode.Block (BlockType.from_u32 bt) ⟨ops.length + 1, ops2.length - 1, ops2.length - 1⟩ :: Δi := by
                  rw [hops2']
                  exact set_append_cons ops _ Δi _
                rw [hset] at hok
                by_cases hlt : st3.offset < st3.length
                · exact scanOk_block_cont (scanClass_Block _ _) (hcondI hlt ▸ hscanI) (ih _ _ hok)
                · cases fuel with
                  | zero => simp [parseGo] at hok
                  | succ g =>
                    rw [parseGo, if_neg hlt] at hok
                    split at hok
                    · cases hok
                    · cases hok
                      exact scanOk_block_stop (scanClass_Block _ _) hscanI hlt
          -- 0x03 Loop
          · split at hok
            · cases hok
            · rename_i bt st2 hbt
              split at hok
              · cases hok
              · rename_i st3 ops2 blocks2 pos2 hin
                obtain ⟨Δi, stkI, hops2, hscanI, hcondI⟩ := ih _ _ hin
                rw [show (ops ++ [Opcode.Loop (BlockType.from_u32 bt) ⟨0,0,0⟩]).length
                  = ops.length + 1 from by simp] at hscanI
                have hops2' : ops2 = ops ++ Opcode.Loop (BlockType.from_u32 bt) ⟨0,0,0⟩ :: Δi := by
                  simpa using hops2
                have hset : ops2.set ops.length
                    (Opcode.Loop (BlockType.from_u32 bt) ⟨ops.length + 1, ops2.length - 1, ops2.length - 1⟩)
                    = ops ++ Opcode.Loop (BlockType.from_u32 bt) ⟨ops.length + 1, ops2.length - 1, ops2.length - 1⟩ :: Δi := by
                  rw [hops2']
                  exact set_append_cons ops _ Δi _
                rw [hset] at hok
                by_cases hlt : st3.offset < st3.length
                · exact scanOk_block_cont (scanClass_Loop _ _) (hcondI hlt ▸ hscanI) (ih _ _ hok)
                · cases fuel with
                  | zero => simp [parseGo] at hok
                  | succ g =>
                    rw [parseGo, if_neg hlt] at hok
                    split at hok
                    · cases hok
                    · cases hok
                      exact scanOk_block_stop (scanClass_Loop _ _) hscanI hlt
          -- 0x04 If
          · split at hok
            · cases hok
            · rename_i bt st2 hbt
              split at hok
              · cases hok
              · rename_i st3 ops2 blocks2 pos2 hin
                obtain ⟨Δi, stkI, hops2, hscanI, hcondI⟩ := ih _ _ hin
                rw [show (ops ++ [Opcode.If (BlockType.from_u32 bt) ⟨ops.length,0,0⟩]).length
                  = ops.length + 1 from by simp] at hscanI
                have hops2' : ops2 = ops ++ Opcode.If (BlockType.from_u32 bt) ⟨ops.length,0,0⟩ :: Δi := by
                  simpa using hops2
                have hset : ops2.set ops.length
                    (Opcode.If (BlockType.from_u32 bt) ⟨ops.length + 1, pos2.2.1, ops2.length - 1⟩)
                    = ops ++ Opcode.If (BlockType.from_u32 bt) ⟨ops.length + 1, pos2.2.1, ops2.length - 1⟩ :: Δi := by
                  rw [hops2']
                  exact set_append_cons ops _ Δi _
                rw [hset] at hok
                by_cases hlt : st3.offset < st3.length
                · exact scanOk_block_cont (scanClass_If _ _) (hcondI hlt ▸ hscanI) (ih _ _ hok)
                · cases fuel with
                  | zero => simp [parseGo] at hok
                  | succ g =>
                    rw [parseGo, if_neg hlt] at hok
                    split at hok
                    · cases hok
                    · cases hok
                      exact scanOk_block_stop (scanClass_If _ _) hscanI hlt
          -- 0x05 Else
          · split at hok
            · cases hok
            · rename_i btgt hlast
              split at hok
              · cases hok
              · rename_i st2 ops2 blocks2 pos2 hin
                obtain ⟨Δe, stkE, hops2, hscanE, hcondE⟩ := ih _ _ hin
                rw [show (ops ++ [Opcode.Br 0 btgt, Opcode.Else ⟨0,0,0⟩]).length
                  = ops.length + 2 from by simp] at hscanE
                have hops2' : ops2 = (ops ++ [Opcode.Br 0 btgt])
                    ++ Opcode.Else ⟨0,0,0⟩ :: Δe := by
                  simpa using hops2
                have hset : ops2.set (ops.length + 1)
                    (Opcode.Else ⟨ops.length + 2, ops2.length - 1, ops2.length - 1⟩)
                    = ops ++ Opcode.Br 0 btgt ::
                        Opcode.Else ⟨ops.length + 2, ops2.length - 1, ops2.length - 1⟩ :: Δe := by
                  rw [hops2']
                  rw [show ops.length + 1 = (ops ++ [Opcode.Br 0 btgt]).length from by simp]
                  rw [set_append_cons (ops ++ [Opcode.Br 0 btgt]) _ Δe _]
                  simp
                cases hok
                rw [hset]
                refine ⟨Opcode.Br 0 btgt ::
                    Opcode.Else ⟨ops.length + 2, ops2.length - 1, ops2.length - 1⟩ :: Δe,
                  stkE, rfl, ?_, hcondE⟩
                rw [scanEnds_cons_some _ (scanStep_skip (scanClass_Br 0 btgt) ops.length [p0])]
                rw [scanEnds_cons_some Δe (show scanStep (ops.length + 1)
                  (Opcode.Else ⟨ops.length + 2, ops2.length - 1, ops2.length - 1⟩) [p0]
                  = some [ops.length + 2] from rfl)]
                exact hscanE
          -- 0x0b End
          · cases hok
            refine ⟨[Opcode.End p0], [], rfl, ?_, fun _ => rfl⟩
            rw [scanEnds_cons_some [] (show scanStep ops.length (Opcode.End p0) [p0] = some []
              from by
                unfold scanStep
                rw [show (Opcode.End p0).scanClass = ScanClass.endMark p0 from rfl]
                simp)]
            rfl
          -- fallback: parse_op
          · split at hok
            · cases hok
            · rename_i op st2 hpo
              exact scanOk_skip_cons (parse_op_scanClass _ hc256 _ _ _ _ hpo) (ih _ _ hok)
      case isFalse hoff =>
        split at hok
        · cases hok
        · cases hok
          exact ⟨[], [p0], by simp, rfl, fun h => absurd h hoff⟩

/-- Claim C4 (counterexample): decoding the function body
`block(0x02) blocktype(0x40) nop(0x01) end(0x0b) end(0x0b)` from a fresh
array puts the only `Block` at pc 0, and its matching `End` at pc 2 carries
payload 1 — the pc of the first instruction of the block's body — not 0, the
pc of the matching `Block` instruction itself.  (The body-level `End` at
pc 3 carries the body's entry pc 0.) -/
theorem c4_end_payload_counterexample :
    parse_code 10 ⟨[0x02, 0x40, 0x01, 0x0b, 0x0b], 0, 5⟩ [] []
      = .ok (⟨[0x02, 0x40, 0x01, 0x0b, 0x0b], 5, 5⟩,
          [Opcode.Block BlockType.NOP ⟨1, 2, 2⟩, Opcode.Nop, Opcode.End 1, Opcode.End 0],
          [], (0, 3, 3)) ∧
    (1 : Nat) ≠ 0 :=
  ⟨rfl, by decide⟩

/-- Claim C4 (amended): after decoding, every `End` instruction in the flat
instruction array carries as its payload the pc of the first instruction of
the body of its matching construct — one past the matching `Block`/`Loop`/
`If` head (re-marked to one past the `Else` when an else-arm intervenes),
and the entry pc of the enclosing `parse_code` call for a body-level `End` —
not the pc of the matching head instruction itself.  Formally: the slice
appended by any successful `parse_code` call passes the `scanEnds` matching
scan, whose stack holds exactly those body-start pcs. -/
theorem c4_amended (fuel : Nat) (st : Cursor) (ops : List Opcode) (blocks : List Nat)
    (out : Cursor × List Opcode × List Nat × (Nat × Nat × Nat))
    (h : parse_code fuel st ops blocks = .ok out) :
    ∃ Δ stk, out.2.1 = ops ++ Δ ∧ scanEnds ops.length Δ [ops.length] = some stk := by
  obtain ⟨Δ, stk, h1, h2, _⟩ := parseGo_scan fuel (.code st ops blocks) out h
  exact ⟨Δ, stk, h1, h2⟩

/-- Claim C4 (witness for the amended theorem), at the counterexample's
decoded module. -/
theorem c4_amended_witness :
    ∃ Δ stk,
      ([Opcode.Block BlockType.NOP ⟨1, 2, 2⟩, Opcode.Nop, Opcode.End 1, Opcode.End 0]
          : List Opcode)
        = [] ++ Δ ∧ scanEnds 0 Δ [0] = some stk := by
  have h := c4_amended 10 ⟨[0x02, 0x40, 0x01, 0x0b, 0x0b], 0, 5⟩ [] []
    (⟨[0x02, 0x40, 0x01, 0x0b, 0x0b], 5, 5⟩,
      [Opcode.Block BlockType.NOP ⟨1, 2, 2⟩, Opcode.Nop, Opcode.End 1, Opcode.End 0],
      [], (0, 3, 3)) rfl
  simpa using h

/-! ## Interpreter data model (`crates/decode/src/runtime/decoder.rs` and the
section data types it reads).  The decode-time bookkeeping fields of the Rust
`WasmModule` (`raw`, `offset`, `length`, `magic_number`, `version`) and the
section fields other than the type entries and the start section are never
read by the execution functions embedded below and are omitted. -/

/-- `decoder.rs::WasmValue`.  `f32`/`f64` payloads are IEEE-754 bit patterns
(see the module docstring); the integer payloads are the mathematical values
of the respective Rust integers. -/
inductive WasmValue
  | NOP
  | I32 (v : Int)
  | U32 (v : Nat)
  | I64 (v : Int)
  | U64 (v : Nat)
  | F32 (bits : Nat)
  | F64 (bits : Nat)
  | V128 (v : Int)
  deriving DecidableEq, Repr

/-- `decoder.rs::Global`. -/
inductive Global
  | Const (v : WasmValue)
  | Var (v : WasmValue)
  deriving DecidableEq, Repr

/-- `export.rs::ExportKind` (the source spells the last variant `GLobal`). -/
inductive ExportKind
  | Func (idx : Nat)
  | Table (idx : Nat)
  | Memory (idx : Nat)
  | GLobal (idx : Nat)
  deriving DecidableEq, Repr

/-- `types.rs::FunctionType`. -/
structure FunctionType where
  raw : List Nat
  param_count : Nat
  result_count : Nat
  params : List ValueType
  results : List ValueType
  deriving Repr

/-- `code.rs::FuncBody`. -/
structure FuncBody where
  size : Nat
  local_count : Nat
  locales : List (Nat × ValueType)
  code : Nat × Nat × Nat
  offset : Nat
  deriving Repr

/-- `start.rs::StartSection` (the raw-image fields omitted). -/
structure StartSection where
  offset : Nat
  byte_count : Nat
  start_func : Nat
  has_start : Bool
  deriving DecidableEq, Repr

/-- The fields of `section::Section` that the interpreter reads: the type
section's entries (`section.types.entries`) and the start section. -/
structure Section where
  types : List FunctionType
  start : StartSection
  deriving Repr

/-- `decoder.rs::FuncKind`.  A host import's function pointer is represented
by an index into the ambient `HostEnv` (functions cannot be stored inside
the module structure they act on). -/
inductive FuncKind
  | Import (ty : Nat) (fid : Nat)
  | Local (ty : Nat) (body : FuncBody)
  deriving Repr

/-- `decoder.rs::WasmModule`: the execution state. -/
structure WasmModule where
  pc : Nat
  sp : Nat
  fp : Nat
  csp : Nat
  stack : List WasmValue
  table : List (List Nat)
  mem : List (List Nat)
  global : List Global
  exports : List (String × ExportKind)
  func : List FuncKind
  ops : List Opcode
  -- the source field is `section`, a Lean keyword
  sect : Section
  deriving Repr

/-- The host-callback environment: `fn(&mut WasmModule, &Vec<WasmValue>) ->
Vec<WasmValue>`, indexed by the id stored in `FuncKind.Import`. -/
def HostEnv : Type :=
  Nat → WasmModule → List WasmValue → (WasmModule × List WasmValue)

/-! ### Machine integer views -/

/-- The 32-bit pattern of an `i32` value. -/
def bits32 (a : Int) : Nat := (a % (2 ^ 32 : Int)).toNat

/-- The 64-bit pattern of an `i64` value. -/
def bits64 (a : Int) : Nat := (a % (2 ^ 64 : Int)).toNat

/-- The 128-bit pattern of an `i128` value. -/
def bits128 (a : Int) : Nat := (a % (2 ^ 128 : Int)).toNat

/-- Debug-build checked `i32` result. -/
def i32chk (v : Int) : Except RErr Int :=
  if -(2 ^ 31) ≤ v ∧ v < 2 ^ 31 then .ok v else .error .panicArith

def u32chk (v : Nat) : Except RErr Nat :=
  if v < 2 ^ 32 then .ok v else .error .panicArith

def i64chk (v : Int) : Except RErr Int :=
  if -(2 ^ 63) ≤ v ∧ v < 2 ^ 63 then .ok v else .error .panicArith

def u64chk (v : Nat) : Except RErr Nat :=
  if v < 2 ^ 64 then .ok v else .error .panicArith

def i128chk (v : Int) : Except RErr Int :=
  if -(2 ^ 127) ≤ v ∧ v < 2 ^ 127 then .ok v else .error .panicArith

/-- Checked `u32` addition (debug build), for effective addresses. -/
def u32add (a b : Nat) : Except RErr Nat :=
  if a + b < 2 ^ 32 then .ok (a + b) else .error .panicArith

/-! ### `WasmValue` operator impls (`impl Add/Sub/Mul/Div/BitAnd/BitOr/
BitXor/Shl/PartialEq/PartialOrd for WasmValue`) -/

/-- `impl Add for WasmValue`. -/
def wasmAdd : WasmValue → WasmValue → Except RErr WasmValue
  | .I32 a, .I32 b => (i32chk (a + b)).map .I32
  | .U32 a, .U32 b => (u32chk (a + b)).map .U32
  | .I64 a, .I64 b => (i64chk (a + b)).map .I64
  | .U64 a, .U64 b => (u64chk (a + b)).map .U64
  | .F32 _, .F32 _ => .error .floatUnmodeled
  | .F64 _, .F64 _ => .error .floatUnmodeled
  | .V128 a, .V128 b => (i128chk (a + b)).map .V128
  | _, _ => .error .panicTodo

/-- `impl Sub for WasmValue`. -/
def wasmSub : WasmValue → WasmValue → Except RErr WasmValue
  | .I32 a, .I32 b => (i32chk (a - b)).map .I32
  | .U32 a, .U32 b => if b ≤ a then .ok (.U32 (a - b)) else .error .panicArith
  | .I64 a, .I64 b => (i64chk (a - b)).map .I64
  | .U64 a, .U64 b => if b ≤ a then .ok (.U64 (a - b)) else .error .panicArith
  | .F32 _, .F32 _ => .error .floatUnmodeled
  | .F64 _, .F64 _ => .error .floatUnmodeled
  | .V128 a, .V128 b => (i128chk (a - b)).map .V128
  | _, _ => .error .panicTodo

/-- `impl Mul for WasmValue`. -/
def wasmMul : WasmValue → WasmValue → Except RErr WasmValue
  | .I32 a, .I32 b => (i32chk (a * b)).map .I32
  | .U32 a, .U32 b => (u32chk (a * b)).map .U32
  | .I64 a, .I64 b => (i64chk (a * b)).map .I64
  | .U64 a, .U64 b => (u64chk (a * b)).map .U64
  | .F32 _, .F32 _ => .error .floatUnmodeled
  | .F64 _, .F64 _ => .error .floatUnmodeled
  | .V128 a, .V128 b => (i128chk (a * b)).map .V128
  | _, _ => .error .panicTodo

/-- `impl Div for WasmValue` (Rust integer division truncates toward zero
and panics on a zero divisor or on `MIN / -1`). -/
def wasmDiv : WasmValue → WasmValue → Except RErr WasmValue
  | .I32 a, .I32 b =>
    if b = 0 then .error .panicArith
    else if a = -(2 ^ 31) ∧ b = -1 then .error .panicArith
    else .ok (.I32 (Int.tdiv a b))
  | .U32 a, .U32 b => if b = 0 then .error .panicArith else .ok (.U32 (a / b))
  | .I64 a, .I64 b =>
    if b = 0 then .error .panicArith
    else if a = -(2 ^ 63) ∧ b = -1 then .error .panicArith
    else .ok (.I64 (Int.tdiv a b))
  | .U64 a, .U64 b => if b = 0 then .error .panicArith else .ok (.U64 (a / b))
  | .F32 _, .F32 _ => .error .floatUnmodeled
  | .F64 _, .F64 _ => .error .floatUnmodeled
  | .V128 a, .V128 b =>
    if b = 0 then .error .panicArith
    else if a = -(2 ^ 127) ∧ b = -1 then .error .panicArith
    else .ok (.V128 (Int.tdiv a b))
  | _, _ => .error .panicTodo

/-- `impl BitAnd for WasmValue`. -/
def wasmAnd : WasmValue → WasmValue → Except RErr WasmValue
  | .I32 a, .I32 b => .ok (.I32 (sig32 (bits32 a &&& bits32 b)))
  | .U32 a, .U32 b => .ok (.U32 (a &&& b))
  | .I64 a, .I64 b => .ok (.I64 (sig64 (bits64 a &&& bits64 b)))
  | .U64 a, .U64 b => .ok (.U64 (a &&& b))
  | _, _ => .error .panicTodo

/-- `impl BitOr for WasmValue`. -/
def wasmOr : WasmValue → WasmValue → Except RErr WasmValue
  | .I32 a, .I32 b => .ok (.I32 (sig32 (bits32 a ||| bits32 b)))
  | .U32 a, .U32 b => .ok (.U32 (a ||| b))
  | .I64 a, .I64 b => .ok (.I64 (sig64 (bits64 a ||| bits64 b)))
  | .U64 a, .U64 b => .ok (.U64 (a ||| b))
  | _, _ => .error .panicTodo

/-- `impl BitXor for WasmValue`. -/
def wasmXor : WasmValue → WasmValue → Except RErr WasmValue
  | .I32 a, .I32 b => .ok (.I32 (sig32 (bits32 a ^^^ bits32 b)))
  | .U32 a, .U32 b => .ok (.U32 (a ^^^ b))
  | .I64 a, .I64 b => .ok (.I64 (sig64 (bits64 a ^^^ bits64 b)))
  | .U64 a, .U64 b => .ok (.U64 (a ^^^ b))
  | _, _ => .error .panicTodo

/-- `impl Shl for WasmValue` (only the `(I32, I32)` pair is implemented; the
shift amount is checked in a debug build, the shifted value keeps its low
32 bits). -/
def wasmShl : WasmValue → WasmValue → Except RErr WasmValue
  | .I32 a, .I32 b =>
    if 0 ≤ b ∧ b < 32 then .ok (.I32 (sig32 ((bits32 a <<< b.toNat) % (2 ^ 32))))
    else .error .panicArith
  | _, _ => .error .panicTodo

/-- `impl PartialEq for WasmValue` (derived): same-variant payload equality,
`false` across variants. -/
def wasmEq : WasmValue → WasmValue → Except RErr Bool
  | .NOP, .NOP => .ok true
  | .I32 a, .I32 b => .ok (decide (a = b))
  | .U32 a, .U32 b => .ok (decide (a = b))
  | .I64 a, .I64 b => .ok (decide (a = b))
  | .U64 a, .U64 b => .ok (decide (a = b))
  | .F32 _, .F32 _ => .error .floatUnmodeled
  | .F64 _, .F64 _ => .error .floatUnmodeled
  | .V128 a, .V128 b => .ok (decide (a = b))
  | _, _ => .ok false

/-- `impl PartialOrd for WasmValue::partial_cmp`: same-variant comparison,
`todo!()` (a panic) on `(NOP, NOP)` and on mismatched variants. -/
def wasmPartialCmp : WasmValue → WasmValue → Except RErr (Option Ordering)
  | .NOP, .NOP => .error .panicTodo
  | .I32 a, .I32 b => .ok (some (if a = b then .eq else if a > b then .gt else .lt))
  | .U32 a, .U32 b => .ok (some (if a = b then .eq else if a > b then .gt else .lt))
  | .I64 a, .I64 b => .ok (some (if a = b then .eq else if a > b then .gt else .lt))
  | .U64 a, .U64 b => .ok (some (if a = b then .eq else if a > b then .gt else .lt))
  | .F32 _, .F32 _ => .error .floatUnmodeled
  | .F64 _, .F64 _ => .error .floatUnmodeled
  | .V128 a, .V128 b => .ok (some (if a = b then .eq else if a > b then .gt else .lt))
  | _, _ => .error .panicTodo

/-- `PartialOrd::lt`: `matches!(partial_cmp, Some(Less))`. -/
def wasmLt (a b : WasmValue) : Except RErr Bool :=
  (wasmPartialCmp a b).map fun o =>
    match o with
    | some Ordering.lt => true
    | _ => false

/-- `PartialOrd::le`. -/
def wasmLe (a b : WasmValue) : Except RErr Bool :=
  (wasmPartialCmp a b).map fun o =>
    match o with
    | some Ordering.lt => true
    | some Ordering.eq => true
    | _ => false

/-- `PartialOrd::gt`. -/
def wasmGt (a b : WasmValue) : Except RErr Bool :=
  (wasmPartialCmp a b).map fun o =>
    match o with
    | some Ordering.gt => true
    | _ => false

/-- `PartialOrd::ge`. -/
def wasmGe (a b : WasmValue) : Except RErr Bool :=
  (wasmPartialCmp a b).map fun o =>
    match o with
    | some Ordering.gt => true
    | some Ordering.eq => true
    | _ => false

/-! ### Stack and memory helpers.  Rust `Vec` indexing panics out of bounds;
`self.sp -= k` is a checked `usize` subtraction in a debug build. -/

/-- `self.stack[i]` (read). -/
def getStack (m : WasmModule) (i : Nat) : Except RErr WasmValue :=
  match m.stack[i]? with
  | some v => .ok v
  | none => .error .panicIndex

/-- `self.stack[i] = v`. -/
def setStack (m : WasmModule) (i : Nat) (v : WasmValue) : Except RErr WasmModule :=
  if i < m.stack.length then .ok { m with stack := m.stack.set i v }
  else .error .panicIndex

/-- `decoder.rs::jump`: redirect `pc` by the kind of the opcode at `offset`. -/
def jump (m : WasmModule) (offset : Nat) : Except RErr WasmModule :=
  match m.ops[offset]? with
  | none => .error .panicIndex
  | some op =>
    match op with
    | .Block _ l => .ok { m with pc := l.s2 }
    | .If _ l => .ok { m with pc := l.s2 }
    | .Else l => .ok { m with pc := l.s2 }
    | .Loop _ l => .ok { m with pc := l.s0 }
    | _ => .ok m

/-- The little-endian bytes of `n` over `k` positions
(`to_le_bytes` on the corresponding bit pattern). -/
def natLeBytes (n : Nat) : Nat → List Nat
  | 0 => []
  | k + 1 => n % 256 :: natLeBytes (n / 256) k

/-- `WasmValue::to_le_bytes` as used by `mem_write` (`NOP` is `todo!()`). -/
def wasmLeBytes : WasmValue → Except RErr (List Nat)
  | .NOP => .error .panicTodo
  | .I32 v => .ok (natLeBytes (bits32 v) 4)
  | .U32 v => .ok (natLeBytes v 4)
  | .I64 v => .ok (natLeBytes (bits64 v) 8)
  | .U64 v => .ok (natLeBytes v 8)
  | .F32 b => .ok (natLeBytes b 4)
  | .F64 b => .ok (natLeBytes b 8)
  | .V128 v => .ok (natLeBytes (bits128 v) 16)

/-- The write loop of `decoder.rs::mem_write`:
`self.mem[0][offset + index] = item` for each byte, in order. -/
def writeBytes (row : List Nat) (offset : Nat) : List Nat → Except RErr (List Nat)
  | [] => .ok row
  | b :: rest =>
    if offset < row.length then writeBytes (row.set offset b) (offset + 1) rest
    else .error .panicIndex

/-- `decoder.rs::mem_write`. -/
def mem_write (m : WasmModule) (offset : Nat) (value : WasmValue) : Except RErr WasmModule :=
  match wasmLeBytes value with
  | .error e => .error e
  | .ok bytes =>
    match m.mem[0]? with
    | none => .error .panicIndex
    | some row =>
      match writeBytes row offset bytes with
      | .error e => .error e
      | .ok row2 => .ok { m with mem := m.mem.set 0 row2 }

/-- Read `k` consecutive bytes of `row` from `offset`
(a Rust slice `row[offset..offset + k]`, which panics out of bounds). -/
def readBytes (row : List Nat) (offset : Nat) : Nat → Except RErr (List Nat)
  | 0 => .ok []
  | k + 1 =>
    match row[offset]? with
    | none => .error .panicIndex
    | some b => (readBytes row (offset + 1) k).map fun r => b :: r

/-- `decoder.rs::mem_read`: read a value of the template's width from
linear memory 0 at `offset` (little endian). -/
def mem_read (m : WasmModule) (offset : Nat) (value : WasmValue) : Except RErr WasmValue :=
  match m.mem[0]? with
  | none => .error .panicIndex
  | some row =>
    match value with
    | .NOP => .ok .NOP
    | .I32 _ => (readBytes row offset 4).map fun bs => .I32 (sig32 (leNat bs))
    | .U32 _ => (readBytes row offset 4).map fun bs => .U32 (leNat bs)
    | .I64 _ => (readBytes row offset 8).map fun bs => .I64 (sig64 (leNat bs))
    | .U64 _ => (readBytes row offset 8).map fun bs => .U64 (leNat bs)
    | .F32 _ => (readBytes row offset 4).map fun bs => .F32 (leNat bs)
    | .F64 _ => (readBytes row offset 8).map fun bs => .F64 (leNat bs)
    | .V128 _ => (readBytes row offset 16).map fun bs => .V128 (sig128 (leNat bs))

/-- The zero value a declared local of a given type is initialised to in
`call` (`ExternRef`/`FuncRef` locals hit a `todo!()` arm). -/
def zeroOf : ValueType → Except RErr WasmValue
  | .ExternRef => .error .panicTodo
  | .FuncRef => .error .panicTodo
  | .I32 => .ok (.I32 0)
  | .I64 => .ok (.I64 0)
  | .F32 => .ok (.F32 0)
  | .F64 => .ok (.F64 0)
  | .V128 => .ok (.V128 0)

/-- One `(count, type)` group of the locals-initialisation loop of `call`:
`count` times `self.sp += 1; self.stack[self.sp] = zero`. -/
def pushLocalGroup (m : WasmModule) (v : WasmValue) : Nat → Except RErr WasmModule
  | 0 => .ok m
  | k + 1 =>
    match setStack { m with sp := m.sp + 1 } (m.sp + 1) v with
    | .error e => .error e
    | .ok m2 => pushLocalGroup m2 v k

/-- The locals-initialisation loop of `call` over `body.locales`. -/
def pushLocals (m : WasmModule) : List (Nat × ValueType) → Except RErr WasmModule
  | [] => .ok m
  | (count, ty) :: rest =>
    match zeroOf ty with
    | .error e => .error e
    | .ok v =>
      match pushLocalGroup m v count with
      | .error e => .error e
      | .ok m2 => pushLocals m2 rest

/-- The stack resize in `call`: `if self.stack.len() < self.sp + 512
{ self.stack.resize(self.sp + 512, WasmValue::NOP) }`. -/
def stackGrow (m : WasmModule) (newLen : Nat) : WasmModule :=
  if m.stack.length < newLen then
    { m with stack := m.stack ++ List.replicate (newLen - m.stack.length) .NOP }
  else m

/-- The parameter-collection loop of `call` for an imported function:
`params.push(self.stack[self.fp + i])` for `i in 0..param_count`. -/
def collectParams (stack : List WasmValue) : Nat → Nat → Except RErr (List WasmValue)
  | _, 0 => .ok []
  | i, k + 1 =>
    match stack[i]? with
    | none => .error .panicIndex
    | some v => (collectParams stack (i + 1) k).map fun r => v :: r

/-- The result-collection loop of `call`: starting at `rsp` (the callee's
final `sp`), `res.push(self.stack[rsp]); rsp -= 1;` per result — the
decrement is checked and runs on the last iteration too. -/
def collectRes (stack : List WasmValue) : Nat → Nat → Except RErr (List WasmValue)
  | _, 0 => .ok []
  | rsp, k + 1 =>
    match stack[rsp]? with
    | none => .error .panicIndex
    | some v =>
      if rsp = 0 then .error .panicArith
      else (collectRes stack (rsp - 1) k).map fun r => v :: r

/-- The result-push loop of the `Call`/`CallIndirect` arms of `run`:
`for v in res { self.sp += 1; self.stack[self.sp] = v }`. -/
def pushRes (m : WasmModule) : List WasmValue → Except RErr WasmModule
  | [] => .ok m
  | v :: rest =>
    match setStack { m with sp := m.sp + 1 } (m.sp + 1) v with
    | .error e => .error e
    | .ok m2 => pushRes m2 rest

/-- The outcome of one opcode in `run`: fall through (`self.pc += 1`),
jump (`continue`), or return from the current frame. -/
inductive StepOut
  | next (m : WasmModule)
  | jmp (m : WasmModule)
  | ret (m : WasmModule)
  deriving Repr

/-- The shape every comparison arm of `run` shares:
`v1 = stack[sp - 1]; v2 = stack[sp]; sp -= 1; stack[sp] = if cmp(v1, v2)
{ I32(1) } else { I32(0) }`. -/
def cmpStep (m : WasmModule) (cmp : WasmValue → WasmValue → Except RErr Bool) :
    Except RErr StepOut :=
  match checkedSub m.sp 1 with
  | .error e => .error e
  | .ok i1 =>
    match getStack m i1 with
    | .error e => .error e
    | .ok v1 =>
      match getStack m m.sp with
      | .error e => .error e
      | .ok v2 =>
        let m := { m with sp := i1 }
        match cmp v1 v2 with
        | .error e => .error e
        | .ok b =>
          (setStack m m.sp (.I32 (if b then 1 else 0))).map .next

/-- The shape every binary arithmetic arm of `run` shares:
`v1 = stack[sp - 1]; v2 = stack[sp]; sp -= 1; stack[sp] = f(v1, v2)`. -/
def binStep (m : WasmModule) (f : WasmValue → WasmValue → Except RErr WasmValue) :
    Except RErr StepOut :=
  match checkedSub m.sp 1 with
  | .error e => .error e
  | .ok i1 =>
    match getStack m i1 with
    | .error e => .error e
    | .ok v1 =>
      match getStack m m.sp with
      | .error e => .error e
      | .ok v2 =>
        let m := { m with sp := i1 }
        match f v1 v2 with
        | .error e => .error e
        | .ok r =>
          (setStack m m.sp r).map .next

/-! ### Shared shapes of the memory-access arms of `run` -/

/-- The shared body of the `I32Load`/`I64Load`/`F32Load`/`F64Load` arms:
`stack[sp] = mem_read(imm + addr, template)` where `imm + addr` is a
checked `u32` addition and a non-`I32`/`U32` address is `todo!()`. -/
def loadStep (m : WasmModule) (imm : Nat) (template : WasmValue) : Except RErr StepOut :=
  match getStack m m.sp with
  | .error e => .error e
  | .ok addr =>
    match addr with
    | .I32 v =>
      match u32add imm (bits32 v) with
      | .error e => .error e
      | .ok ea =>
        match mem_read m ea template with
        | .error e => .error e
        | .ok r => (setStack m m.sp r).map .next
    | .U32 v =>
      match u32add imm v with
      | .error e => .error e
      | .ok ea =>
        match mem_read m ea template with
        | .error e => .error e
        | .ok r => (setStack m m.sp r).map .next
    | _ => .error .panicTodo

/-- The shared body of the `I32Store`/`I64Store` arms: pop value then
address (`sp -= 2` is checked), `mem_write(imm + addr, value)`; a
non-`I32`/`U32` address is `todo!()`. -/
def storeStep (m : WasmModule) (imm : Nat) : Except RErr StepOut :=
  match getStack m m.sp with
  | .error e => .error e
  | .ok value =>
    match checkedSub m.sp 1 with
    | .error e => .error e
    | .ok i1 =>
      match getStack m i1 with
      | .error e => .error e
      | .ok addr =>
        match checkedSub m.sp 2 with
        | .error e => .error e
        | .ok i2 =>
          match addr with
          | .I32 v =>
            match u32add imm (bits32 v) with
            | .error e => .error e
            | .ok ea => (mem_write { m with sp := i2 } ea value).map .next
          | .U32 v =>
            match u32add imm v with
            | .error e => .error e
            | .ok ea => (mem_write { m with sp := i2 } ea value).map .next
          | _ => .error .panicTodo

/-- The byte fetch and sign-extension of the `I32Load8s` arm; the source's
`!((!(byte & 0x7f)) as i32)` equals `byte - 256` for a byte with the high
bit set. -/
def load8sStep (m : WasmModule) (ea : Nat) : Except RErr StepOut :=
  match m.mem[0]? with
  | none => .error .panicIndex
  | some row =>
    match row[ea]? with
    | none => .error .panicIndex
    | some byte =>
      let r : WasmValue :=
        if 0 < byte &&& 0x80 then .I32 (((byte &&& 0x7f : Nat) : Int) - 256)
        else .I32 (Int.ofNat byte)
      (setStack m m.sp r).map .next

/-- The byte fetch of the `I32Load8u` arm. -/
def load8uStep (m : WasmModule) (ea : Nat) : Except RErr StepOut :=
  match m.mem[0]? with
  | none => .error .panicIndex
  | some row =>
    match row[ea]? with
    | none => .error .panicIndex
    | some byte => (setStack m m.sp (.I32 (Int.ofNat byte))).map .next

/-- The four-byte fetch of the `I64Load32s` arm: the slice end
`4 + imm + addr` is itself a checked `u32` addition, the slice panics out
of bounds, and the fetched `i32` is sign-extended into the `I64`. -/
def load32sStep (m : WasmModule) (ea : Nat) : Except RErr StepOut :=
  match u32add 4 ea with
  | .error e => .error e
  | .ok _ =>
    match m.mem[0]? with
    | none => .error .panicIndex
    | some row =>
      match readBytes row ea 4 with
      | .error e => .error e
      | .ok bs => (setStack m m.sp (.I64 (sig32 (leNat bs)))).map .next

/-- The single-byte write of the `I32Store8` arm:
`mem[0][ea] = val.to_le_bytes()[0]`. -/
def store8Step (m : WasmModule) (ea : Nat) (val : Int) : Except RErr StepOut :=
  match m.mem[0]? with
  | none => .error .panicIndex
  | some row =>
    if ea < row.length then
      .ok (.next { m with mem := m.mem.set 0 (row.set ea (bits32 val % 256)) })
    else .error .panicIndex

/-- The address resolution shared by the `I32Load8s`/`I32Load8u`/
`I64Load32s` arms: `(imm + addr as u32) as usize` for an `I32` or `U32`
address, `todo!()` otherwise. -/
def byteAddr (imm : Nat) : WasmValue → Except RErr Nat
  | .I32 v => u32add imm (bits32 v)
  | .U32 v => u32add imm v
  | _ => .error .panicTodo

/-! ### One step of `run` -/

/-- One iteration of the `loop` in `decoder.rs::run`, minus the final
`self.pc += 1`: the big `match op`.  `offset` is `run`'s argument (read by
the `End` arm), `callf` performs `self.call(idx)` (tied to the fuelled
interpreter below).  `.next` falls through to `self.pc += 1`, `.jmp` is
`continue`, `.ret` is `return`/`break`.  Every arm that is `todo!()` in the
source is the final catch-all here; the implemented arms are spelled out. -/
def exec1F (callf : WasmModule → Nat → Except RErr (List WasmValue × WasmModule))
    (offset : Nat) (m : WasmModule) : Opcode → Except RErr StepOut
  | .Unreachable => .error .panicUnreachable
  | .Nop => .ok (.next m)
  | .Block _ _ => .ok (.next m)
  | .Loop _ _ => .ok (.next m)
  | .If _ ifcode =>
    match getStack m m.sp with
    | .error e => .error e
    | .ok result =>
      match checkedSub m.sp 1 with
      | .error e => .error e
      | .ok sp2 =>
        match result with
        | .I32 v =>
          if v > 0 then .ok (.jmp { m with sp := sp2, pc := ifcode.s0 })
          else .ok (.jmp { m with sp := sp2, pc := ifcode.s1 })
        | _ => .ok (.next { m with sp := sp2 })
  | .Else _ => .ok (.next m)
  | .End e => if e = offset then .ok (.ret m) else .ok (.next m)
  | .Br _ e => (jump m e).map .jmp
  | .BrIf _ e =>
    match getStack m m.sp with
    | .error e2 => .error e2
    | .ok result =>
      match checkedSub m.sp 1 with
      | .error e2 => .error e2
      | .ok sp2 =>
        match result with
        | .I32 v =>
          if v > 0 then (jump { m with sp := sp2 } e).map .jmp
          else .ok (.next { m with sp := sp2 })
        | _ => .ok (.next { m with sp := sp2 })
  | .BrTable count entries dft =>
    match getStack m m.sp with
    | .error e => .error e
    | .ok tar =>
      match checkedSub m.sp 1 with
      | .error e => .error e
      | .ok sp2 =>
        match tar with
        | .I32 v =>
          -- `(v as usize) < *count`: a negative target wraps and takes the default
          if 0 ≤ v ∧ v.toNat < count then
            match entries[v.toNat]? with
            | none => .error .panicIndex
            | some did => (jump { m with sp := sp2 } did.2).map .jmp
          else (jump { m with sp := sp2 } dft.2).map .jmp
        | _ => .ok (.next { m with sp := sp2 })
  | .Return => .ok (.ret m)
  | .Call idx =>
    match callf m idx with
    | .error e => .error e
    | .ok (res, m2) => (pushRes m2 res).map .next
  | .CallIndirect _ tableidx =>
    match getStack m m.sp with
    | .error e => .error e
    | .ok idx =>
      match checkedSub m.sp 1 with
      | .error e => .error e
      | .ok sp2 =>
        match idx with
        | .I32 i =>
          match m.table[tableidx]? with
          | none => .error .panicIndex
          | some row =>
            -- `idx as usize`: a negative index wraps and the Vec index panics
            if i < 0 then .error .panicIndex
            else
              match row[i.toNat]? with
              | none => .error .panicIndex
              | some fidx =>
                match callf { m with sp := sp2 } fidx with
                | .error e => .error e
                | .ok (res, m2) => (pushRes m2 res).map .next
        | _ => .ok (.next { m with sp := sp2 })
  | .Drop =>
    match checkedSub m.sp 1 with
    | .error e => .error e
    | .ok sp2 => .ok (.next { m with sp := sp2 })
  | .Select =>
    match getStack m m.sp with
    | .error e => .error e
    | .ok con =>
      match checkedSub m.sp 1 with
      | .error e => .error e
      | .ok i1 =>
        match getStack m i1 with
        | .error e => .error e
        | .ok mid =>
          match checkedSub m.sp 2 with
          | .error e => .error e
          | .ok i2 =>
            match getStack m i2 with
            | .error e => .error e
            | .ok bot =>
              match wasmGt con (.I32 0) with
              | .error e => .error e
              | .ok g =>
                if g then (setStack { m with sp := i2 } i2 bot).map .next
                else (setStack { m with sp := i2 } i2 mid).map .next
  | .LocalGet idx =>
    match getStack m (m.fp + idx) with
    | .error e => .error e
    | .ok v => (setStack { m with sp := m.sp + 1 } (m.sp + 1) v).map .next
  | .LocalSet idx =>
    match getStack m m.sp with
    | .error e => .error e
    | .ok v =>
      match setStack m (m.fp + idx) v with
      | .error e => .error e
      | .ok m2 =>
        match checkedSub m2.sp 1 with
        | .error e => .error e
        | .ok sp2 => .ok (.next { m2 with sp := sp2 })
  | .LocalTee idx =>
    match getStack m m.sp with
    | .error e => .error e
    | .ok v => (setStack m (m.fp + idx) v).map .next
  | .GlobalGet i =>
    match m.global[i]? with
    | none => .error .panicIndex
    | some g =>
      match g with
      | .Const v => (setStack { m with sp := m.sp + 1 } (m.sp + 1) v).map .next
      | .Var v => (setStack { m with sp := m.sp + 1 } (m.sp + 1) v).map .next
  | .GlobalSet i =>
    match getStack m m.sp with
    | .error e => .error e
    | .ok v =>
      match checkedSub m.sp 1 with
      | .error e => .error e
      | .ok sp2 =>
        if i < m.global.length then
          .ok (.next { m with sp := sp2, global := m.global.set i (.Var v) })
        else .error .panicIndex
  | .I32Load _ imm => loadStep m imm (.I32 0)
  | .I64Load _ imm => loadStep m imm (.I64 0)
  | .F32Load _ imm => loadStep m imm (.F32 0)
  | .F64Load _ imm => loadStep m imm (.F64 0)
  | .I32Load8s _ imm =>
    match getStack m m.sp with
    | .error e => .error e
    | .ok addr =>
      match byteAddr imm addr with
      | .error e => .error e
      | .ok ea => load8sStep m ea
  | .I32Load8u _ imm =>
    match getStack m m.sp with
    | .error e => .error e
    | .ok addr =>
      match byteAddr imm addr with
      | .error e => .error e
      | .ok ea => load8uStep m ea
  | .I64Load32s _ imm =>
    match getStack m m.sp with
    | .error e => .error e
    | .ok addr =>
      match byteAddr imm addr with
      | .error e => .error e
      | .ok ea => load32sStep m ea
  | .I32Store _ imm => storeStep m imm
  | .I64Store _ imm => storeStep m imm
  | .I32Store8 _ imm =>
    match getStack m m.sp with
    | .error e => .error e
    | .ok value =>
      match checkedSub m.sp 1 with
      | .error e => .error e
      | .ok i1 =>
        match getStack m i1 with
        | .error e => .error e
        | .ok addr =>
          match checkedSub m.sp 2 with
          | .error e => .error e
          | .ok i2 =>
            match addr, value with
            | .U32 a, .I32 val =>
              -- the source adds `addr as u32 + offset` in this order
              match u32add a imm with
              | .error e => .error e
              | .ok ea => store8Step { m with sp := i2 } ea val
            | .I32 a, .I32 val =>
              match u32add (bits32 a) imm with
              | .error e => .error e
              | .ok ea => store8Step { m with sp := i2 } ea val
            | _, _ => .ok (.next { m with sp := i2 })
  | .I32Const v => (setStack { m with sp := m.sp + 1 } (m.sp + 1) (.I32 v)).map .next
  | .I64Const v => (setStack { m with sp := m.sp + 1 } (m.sp + 1) (.I64 v)).map .next
  | .F32Const b => (setStack { m with sp := m.sp + 1 } (m.sp + 1) (.F32 b)).map .next
  | .F64Const b => (setStack { m with sp := m.sp + 1 } (m.sp + 1) (.F64 b)).map .next
  | .I32Eqz | .I64Eqz =>
    match getStack m m.sp with
    | .error e => .error e
    | .ok val =>
      match val with
      | .I32 v => (setStack m m.sp (.I32 (if v = 0 then 1 else 0))).map .next
      | .I64 v => (setStack m m.sp (.I32 (if v = 0 then 1 else 0))).map .next
      | _ => .ok (.next m)
  | .I32Eq | .I64Eq | .F32Eq | .F64Eq => cmpStep m wasmEq
  | .I32Ne | .I64Ne | .F32Ne | .F64Ne =>
    cmpStep m fun a b => (wasmEq a b).map fun r => !r
  | .I32Lts | .I64Lts => cmpStep m wasmLt
  | .I32Ltu | .I64Ltu => cmpStep m wasmLt
  | .I32Gts | .I64Gts => cmpStep m wasmGt
  | .I32Gtu | .I64Gtu => cmpStep m wasmGt
  | .I32Les | .I64Les => cmpStep m wasmLe
  | .I32Leu | .I64Leu => cmpStep m wasmLe
  | .I32Ges | .I64Ges => cmpStep m wasmGe
  | .I32Geu | .I64Geu => cmpStep m wasmGe
  | .F32Lt | .F64Lt => cmpStep m wasmLt
  | .F32Gt | .F64Gt => cmpStep m wasmGt
  | .F32Le | .F64Le => cmpStep m wasmLe
  | .F32Ge | .F64Ge => cmpStep m wasmGe
  | .I32Add | .I64Add | .F32Add | .F64Add => binStep m wasmAdd
  | .I32Sub | .I64Sub | .F32Sub | .F64Sub => binStep m wasmSub
  | .I32Mul | .I64Mul | .F32Mul | .F64Mul => binStep m wasmMul
  | .I32DivS | .I64DivS | .F32Div | .F64Div => binStep m wasmDiv
  | .I32DivU | .I64DivU => binStep m wasmDiv
  | .I32And => binStep m wasmAnd
  | .I32Or => binStep m wasmOr
  | .I32Xor => binStep m wasmXor
  | .I32Shl =>
    match checkedSub m.sp 1 with
    | .error e => .error e
    | .ok i1 =>
      match getStack m i1 with
      | .error e => .error e
      | .ok val =>
        match getStack m m.sp with
        | .error e => .error e
        | .ok shift =>
          match wasmShl val shift with
          | .error e => .error e
          | .ok r =>
            match setStack m i1 r with
            | .error e => .error e
            | .ok m2 => .ok (.next { m2 with sp := i1 })
  | .I32WrapI64 =>
    match getStack m m.sp with
    | .error e => .error e
    | .ok val =>
      match val with
      | .I64 v => (setStack m m.sp (.I32 (sig32 (bits64 v % 2 ^ 32)))).map .next
      | _ => .ok (.next m)
  | .I64ExtendsI32u =>
    match getStack m m.sp with
    | .error e => .error e
    | .ok val =>
      match val with
      -- `val as i64`: the bug under claim C6 — the signed value is kept
      | .I32 v => (setStack m m.sp (.I64 v)).map .next
      | _ => .ok (.next m)
  | _ => .error .panicTodo

/-! ### The fuelled interpreter: `run` and `call` are mutually recursive in
the source; here both are arms of one fuel-indexed dispatcher. -/

/-- A pending request: `run(offset)` (which sets `pc` and enters the loop),
one more loop pass at the current `pc`, or `call(idx)`. -/
inductive IReq
  | runq (m : WasmModule) (offset : Nat)
  | loopq (m : WasmModule) (offset : Nat)
  | callq (m : WasmModule) (idx : Nat)

/-- `decoder.rs::run`/`call` with a fuel bound.  `.runq`/`.loopq` return
`[]` with the final module (`run` returns `()`); `.callq` returns the
callee's results as in the source. -/
def interp (env : HostEnv) : Nat → IReq → Except RErr (List WasmValue × WasmModule)
  | 0, _ => .error .outOfFuel
  | fuel + 1, .runq m offset => interp env fuel (.loopq { m with pc := offset } offset)
  | fuel + 1, .loopq m offset =>
    match m.ops[m.pc]? with
    | none => .error .panicIndex
    | some op =>
      match exec1F (fun m2 i => interp env fuel (.callq m2 i)) offset m op with
      | .error e => .error e
      | .ok (.next m2) => interp env fuel (.loopq { m2 with pc := m2.pc + 1 } offset)
      | .ok (.jmp m2) => interp env fuel (.loopq m2 offset)
      | .ok (.ret m2) => .ok ([], m2)
  | fuel + 1, .callq m idx =>
    match m.func[idx]? with
    | none => .error .panicIndex
    | some f =>
      match f with
      | .Import ty fid =>
        match m.sect.types[ty]? with
        | none => .error .panicIndex
        | some fty =>
          -- `self.fp = self.sp - param_count + 1`: the subtraction is checked first
          match checkedSub m.sp fty.param_count with
          | .error e => .error e
          | .ok d =>
            match collectParams m.stack (d + 1) fty.param_count with
            | .error e => .error e
            | .ok params =>
              match env fid { m with fp := d + 1 } params with
              | (m2, res) =>
                -- restore saved pc/fp; `self.sp = sp - param_count` (checked)
                match checkedSub m.sp fty.param_count with
                | .error e => .error e
                | .ok sp2 => .ok (res, { m2 with pc := m.pc, fp := m.fp, sp := sp2 })
      | .Local ty body =>
        match m.sect.types[ty]? with
        | none => .error .panicIndex
        | some fty =>
          match checkedSub m.sp fty.param_count with
          | .error e => .error e
          | .ok d =>
            match pushLocals (stackGrow { m with fp := d + 1 } (m.sp + 512)) body.locales with
            | .error e => .error e
            | .ok m2 =>
              match interp env fuel (.runq m2 body.code.1) with
              | .error e => .error e
              | .ok (_, m3) =>
                -- restore saved pc/fp; `self.sp = sp - param_count` (checked);
                -- `rsp` for result collection starts at the callee's final `sp`
                if fty.result_count = 0 then
                  match checkedSub m.sp fty.param_count with
                  | .error e => .error e
                  | .ok sp2 => .ok ([], { m3 with pc := m.pc, fp := m.fp, sp := sp2 })
                else
                  match collectRes m3.stack m3.sp fty.result_count with
                  | .error e => .error e
                  | .ok res =>
                    match checkedSub m.sp fty.param_count with
                    | .error e => .error e
                    | .ok sp2 => .ok (res, { m3 with pc := m.pc, fp := m.fp, sp := sp2 })

/-- `decoder.rs::run` under a fuel bound. -/
def runW (env : HostEnv) (fuel : Nat) (m : WasmModule) (offset : Nat) :
    Except RErr WasmModule :=
  (interp env fuel (.runq m offset)).map Prod.snd

/-- `decoder.rs::call` under a fuel bound. -/
def call (env : HostEnv) (fuel : Nat) (m : WasmModule) (idx : Nat) :
    Except RErr (List WasmValue × WasmModule) :=
  interp env fuel (.callq m idx)

/-- One arm of `run`'s match, with nested calls delegated to the fuelled
interpreter. -/
def exec1 (env : HostEnv) (fuel : Nat) (offset : Nat) (m : WasmModule) (op : Opcode) :
    Except RErr StepOut :=
  exec1F (fun m2 i => interp env fuel (.callq m2 i)) offset m op

/-- The export name `start` looks up. -/
def startName : String := "_start"

/-- `decoder.rs::start`: require a `"_start"` export of `Func` kind, reset
`sp`/`fp`/`pc`/`csp`, and call it.  The two `ensure!` failures are anyhow
errors. -/
def start (env : HostEnv) (fuel : Nat) (m : WasmModule) : Except RErr WasmModule :=
  match List.lookup startName m.exports with
  | none => .error .anyhowErr
  | some k =>
    match k with
    | .Func idx =>
      let m1 := { m with sp := 0, fp := 0, pc := 0, csp := 0 }
      (call env fuel m1 idx).map Prod.snd
    | _ => .error .anyhowErr

/-! ## Concrete execution fixtures and support lemmas for the interpreter
claims -/

/-- A host environment with no observable imports (no fixture calls an
imported function). -/
def hostEnv0 : HostEnv := fun _ m _ => (m, [])

/-- An empty start section. -/
def startSec0 : StartSection := ⟨0, 0, 0, false⟩

theorem checkedSub_ok {a b c : Nat} (h : checkedSub a b = .ok c) : c + b = a := by
  unfold checkedSub at h
  split at h
  · cases h
    omega
  · exact Except.noConfusion h

theorem setStack_ok {m : WasmModule} {i : Nat} {v : WasmValue} {m2 : WasmModule}
    (h : setStack m i v = .ok m2) : m2 = { m with stack := m.stack.set i v } := by
  unfold setStack at h
  split at h
  · injection h with h2
    exact h2.symm
  · exact Except.noConfusion h

theorem collectRes_length (stack : List WasmValue) :
    ∀ (k rsp : Nat) (res : List WasmValue), collectRes stack rsp k = .ok res →
      res.length = k := by
  intro k
  induction k with
  | zero =>
    intro rsp res h
    unfold collectRes at h
    injection h with h2
    rw [← h2]
    rfl
  | succ n ih =>
    intro rsp res h
    unfold collectRes at h
    split at h
    · exact Except.noConfusion h
    · split at h
      · exact Except.noConfusion h
      · rename_i v hv hrsp
        cases hrec : collectRes stack (rsp - 1) n with
        | error e => rw [hrec] at h; exact Except.noConfusion h
        | ok r =>
          rw [hrec] at h
          injection h with h2
          rw [← h2]
          simp [ih (rsp - 1) r hrec]

theorem pushRes_spec : ∀ (l : List WasmValue) (m m2 : WasmModule),
    pushRes m l = .ok m2 → m2.sp = m.sp + l.length ∧ m2.fp = m.fp ∧ m2.pc = m.pc := by
  intro l
  induction l with
  | nil =>
    intro m m2 h
    unfold pushRes at h
    injection h with h2
    rw [← h2]
    exact ⟨rfl, rfl, rfl⟩
  | cons v rest ih =>
    intro m m2 h
    unfold pushRes at h
    split at h
    · exact Except.noConfusion h
    · rename_i mm hset
      have hm := setStack_ok hset
      have := ih mm m2 h
      rw [hm] at this
      obtain ⟨h1, h2, h3⟩ := this
      refine ⟨?_, h2, h3⟩
      rw [h1]
      simp
      omega

/-- The frame effect of `call` on a local function: the saved `pc` and `fp`
are restored, the final `sp` is the saved `sp` minus the parameter count,
and the returned result list has exactly `result_count` elements. -/
theorem interp_callq_local (env : HostEnv) (fuel : Nat) (m : WasmModule)
    (idx ty : Nat) (body : FuncBody) (fty : FunctionType)
    (res : List WasmValue) (m2 : WasmModule)
    (hf : m.func[idx]? = some (.Local ty body))
    (hty : m.sect.types[ty]? = some fty)
    (hok : interp env (fuel + 1) (.callq m idx) = .ok (res, m2)) :
    m2.pc = m.pc ∧ m2.fp = m.fp ∧ m2.sp + fty.param_count = m.sp ∧
      res.length = fty.result_count := by
  unfold interp at hok
  split at hok
  · exact Except.noConfusion hok
  · rename_i f hf2
    rw [hf] at hf2
    injection hf2 with hf3
    cases hf3.symm
    split at hok
    · rename_i a b himp
      exact FuncKind.noConfusion himp
    · rename_i ty2 body2 hlocal
      injection hlocal with hty2 hbody2
      cases hty2
      cases hbody2
      split at hok
      · rename_i hnone
        rw [hty] at hnone
        exact Option.noConfusion hnone
      · rename_i fty2 hsome
        rw [hty] at hsome
        injection hsome with hty3
        cases hty3.symm
        split at hok
        · exact Except.noConfusion hok
        · rename_i d hd
          split at hok
          · exact Except.noConfusion hok
          · rename_i mloc hloc
            split at hok
            · exact Except.noConfusion hok
            · rename_i pr hrun
              split at hok
              · rename_i hzero
                split at hok
                · exact Except.noConfusion hok
                · rename_i sp2 hsp2
                  injection hsp2 with hsp3
                  cases hsp3
                  injection hok with hok2
                  injection hok2 with hres hm2
                  rw [← hm2, ← hres]
                  refine ⟨rfl, rfl, ?_, by simpa using hzero.symm⟩
                  simpa using checkedSub_ok hd
              · rename_i hnz
                split at hok
                · exact Except.noConfusion hok
                · rename_i res2 hres2
                  split at hok
                  · exact Except.noConfusion hok
                  · rename_i sp2 hsp2
                    injection hsp2 with hsp3
                    cases hsp3
                    injection hok with hok2
                    injection hok2 with hres hm2
                    rw [← hm2, ← hres]
                    refine ⟨rfl, rfl, ?_, ?_⟩
                    · simpa using checkedSub_ok hd
                    · exact collectRes_length _ _ _ _ hres2


/-! ## Fixtures: small concrete modules -/

/-- A one-parameter one-result function type `(i32) -> i32`. -/
def c1ty : FunctionType := ⟨[], 1, 1, [.I32], [.I32]⟩

/-- A local body with no declared locals whose code starts at op 0. -/
def c1body : FuncBody := ⟨0, 0, [], (0, 0, 0), 0⟩

/-- A module about to execute `Call 0` with one `i32` argument on the
stack: function 0 is local with body `[LocalGet 0, End 0]`. -/
def c1mod : WasmModule :=
  { pc := 5, sp := 1, fp := 0, csp := 0,
    stack := [.NOP, .I32 7], table := [], mem := [], global := [],
    exports := [], func := [.Local 0 c1body],
    ops := [.LocalGet 0, .End 0],
    sect := ⟨[c1ty], startSec0⟩ }

/-- A module with one `Const` global and an `i32` on top of the stack. -/
def c2mod : WasmModule :=
  { pc := 5, sp := 1, fp := 0, csp := 0,
    stack := [.NOP, .I32 9], table := [], mem := [],
    global := [.Const (.I32 5)],
    exports := [], func := [], ops := [],
    sect := ⟨[], startSec0⟩ }

/-- A module with the negative `i32` condition `-5` on top of the stack
and a `Block` at op 0 as the branch target. -/
def c3mod : WasmModule :=
  { pc := 5, sp := 1, fp := 0, csp := 0,
    stack := [.NOP, .I32 (-5)], table := [], mem := [], global := [],
    exports := [], func := [], ops := [.Block .NOP ⟨1, 2, 2⟩],
    sect := ⟨[], startSec0⟩ }

/-- `c3mod` with the condition `1` instead of `-5`. -/
def c3mod2 : WasmModule :=
  { pc := 5, sp := 1, fp := 0, csp := 0,
    stack := [.NOP, .I32 1], table := [], mem := [], global := [],
    exports := [], func := [], ops := [.Block .NOP ⟨1, 2, 2⟩],
    sect := ⟨[], startSec0⟩ }

/-- A module with one empty table and the table index `0` (out of range
for it) on top of the stack. -/
def c5mod : WasmModule :=
  { pc := 5, sp := 1, fp := 0, csp := 0,
    stack := [.NOP, .I32 0], table := [[]], mem := [], global := [],
    exports := [], func := [], ops := [],
    sect := ⟨[], startSec0⟩ }

/-- A module with the `i32` value `-1` on top of the stack. -/
def c6mod : WasmModule :=
  { pc := 5, sp := 1, fp := 0, csp := 0,
    stack := [.NOP, .I32 (-1)], table := [], mem := [], global := [],
    exports := [], func := [], ops := [],
    sect := ⟨[], startSec0⟩ }

/-- A zero-parameter two-result function type `() -> (i32, i32)`. -/
def c7ty : FunctionType := ⟨[], 0, 2, [], [.I32, .I32]⟩

/-- A module about to call function 0, a local function that pushes
`i32 1` then `i32 2` and returns both. -/
def c7mod : WasmModule :=
  { pc := 5, sp := 0, fp := 0, csp := 0,
    stack := [.NOP], table := [], mem := [], global := [],
    exports := [], func := [.Local 0 c1body],
    ops := [.I32Const 1, .I32Const 2, .End 0],
    sect := ⟨[c7ty], startSec0⟩ }

/-- A module exporting function 0 under the name `"_start"`, whose binary
Start section names a different function (1) and is flagged present. -/
def c10mod : WasmModule :=
  { pc := 5, sp := 3, fp := 2, csp := 1,
    stack := [.NOP], table := [], mem := [], global := [],
    exports := [("_start", .Func 0)], func := [.Local 0 c1body],
    ops := [.End 0],
    sect := ⟨[c1ty], ⟨0, 0, 1, true⟩⟩ }

/-! ### Arm-level unfolding equations (definitional) -/

theorem exec1_call (env : HostEnv) (fuel offset : Nat) (m : WasmModule) (idx : Nat) :
    exec1 env fuel offset m (.Call idx)
      = match interp env fuel (.callq m idx) with
        | .error e => .error e
        | .ok (res, m2) => (pushRes m2 res).map .next := rfl

theorem exec1F_globalSet (callf : WasmModule → Nat → Except RErr (List WasmValue × WasmModule))
    (offset : Nat) (m : WasmModule) (i : Nat) :
    exec1F callf offset m (.GlobalSet i)
      = match getStack m m.sp with
        | .error e => .error e
        | .ok v =>
          match checkedSub m.sp 1 with
          | .error e => .error e
          | .ok sp2 =>
            if i < m.global.length then
              .ok (.next { m with sp := sp2, global := m.global.set i (.Var v) })
            else .error .panicIndex := rfl

theorem exec1F_brIf (callf : WasmModule → Nat → Except RErr (List WasmValue × WasmModule))
    (offset : Nat) (m : WasmModule) (l e : Nat) :
    exec1F callf offset m (.BrIf l e)
      = match getStack m m.sp with
        | .error e2 => .error e2
        | .ok result =>
          match checkedSub m.sp 1 with
          | .error e2 => .error e2
          | .ok sp2 =>
            match result with
            | .I32 v =>
              if v > 0 then (jump { m with sp := sp2 } e).map .jmp
              else .ok (.next { m with sp := sp2 })
            | _ => .ok (.next { m with sp := sp2 }) := rfl

theorem exec1F_callIndirect
    (callf : WasmModule → Nat → Except RErr (List WasmValue × WasmModule))
    (offset : Nat) (m : WasmModule) (tyi ti : Nat) :
    exec1F callf offset m (.CallIndirect tyi ti)
      = match getStack m m.sp with
        | .error e => .error e
        | .ok idx =>
          match checkedSub m.sp 1 with
          | .error e => .error e
          | .ok sp2 =>
            match idx with
            | .I32 i =>
              match m.table[ti]? with
              | none => .error .panicIndex
              | some row =>
                if i < 0 then .error .panicIndex
                else
                  match row[i.toNat]? with
                  | none => .error .panicIndex
                  | some fidx =>
                    match callf { m with sp := sp2 } fidx with
                    | .error e => .error e
                    | .ok (res, m2) => (pushRes m2 res).map .next
            | _ => .ok (.next { m with sp := sp2 }) := rfl

/-! ## Claims C1–C3, C5–C7, C10 -/

/-- C1: executing `Call idx` on a local function restores `pc` and `fp`
and leaves `sp_after + param_count = sp_before + result_count`. -/
theorem c1_call_frame_effect (env : HostEnv) (fuel offset : Nat) (m : WasmModule)
    (idx ty : Nat) (body : FuncBody) (fty : FunctionType) (m' : WasmModule)
    (hf : m.func[idx]? = some (.Local ty body))
    (hty : m.sect.types[ty]? = some fty)
    (hok : exec1 env fuel offset m (.Call idx) = .ok (.next m')) :
    m'.sp + fty.param_count = m.sp + fty.result_count ∧ m'.fp = m.fp ∧ m'.pc = m.pc := by
  rw [exec1_call] at hok
  split at hok
  · exact Except.noConfusion hok
  · rename_i res m2 heq
    cases fuel with
    | zero =>
      rw [show interp env 0 (IReq.callq m idx) = Except.error RErr.outOfFuel from rfl]
        at heq
      exact Except.noConfusion heq
    | succ n =>
      obtain ⟨hpc, hfp, hsp, hlen⟩ :=
        interp_callq_local env n m idx ty body fty res m2 hf hty heq
      cases hpush : pushRes m2 res with
      | error e =>
        rw [hpush] at hok
        exact Except.noConfusion hok
      | ok m3 =>
        rw [hpush] at hok
        simp [Except.map] at hok
        obtain ⟨h1, h2, h3⟩ := pushRes_spec res m2 m3 hpush
        rw [← hok]
        refine ⟨?_, by rw [h2, hfp], by rw [h3, hpc]⟩
        omega

set_option maxHeartbeats 3200000 in
set_option maxRecDepth 10000 in
/-- C1 witness: the frame effect at a concrete one-argument call. -/
theorem c1_call_frame_effect_witness :
    ∃ m', exec1 hostEnv0 5 0 c1mod (.Call 0) = .ok (.next m') ∧
      (m'.sp + c1ty.param_count = c1mod.sp + c1ty.result_count ∧
        m'.fp = c1mod.fp ∧ m'.pc = c1mod.pc) := by
  have h : ∃ m', exec1 hostEnv0 5 0 c1mod (.Call 0) = .ok (.next m') := ⟨_, rfl⟩
  obtain ⟨m', hm⟩ := h
  exact ⟨m', hm, c1_call_frame_effect hostEnv0 5 0 c1mod 0 0 c1body c1ty m' rfl rfl hm⟩

/-- C2 counterexample: `global.set` on a `Const` global succeeds (no trap)
and silently replaces the global with a `Var` holding the new value. -/
theorem c2_globalset_counterexample :
    exec1 hostEnv0 0 0 c2mod (.GlobalSet 0)
      = .ok (.next { c2mod with sp := 0, global := [.Var (.I32 9)] }) ∧
    Global.Const (.I32 5) ≠ Global.Var (.I32 9) :=
  ⟨rfl, by decide⟩

/-- C2 amended: `global.set` pops the top of the stack and overwrites the
indexed global with a `Var` of that value unconditionally — the declared
mutability is neither checked nor preserved. -/
theorem c2_globalset_amended (env : HostEnv) (fuel offset : Nat) (m : WasmModule)
    (i : Nat) (v : WasmValue)
    (hv : m.stack[m.sp]? = some v) (hsp : 1 ≤ m.sp) (hi : i < m.global.length) :
    exec1 env fuel offset m (.GlobalSet i)
      = .ok (.next { m with sp := m.sp - 1, global := m.global.set i (.Var v) }) := by
  unfold exec1
  rw [exec1F_globalSet]
  unfold getStack checkedSub
  rw [hv, if_pos hsp]
  simp [hi]

/-- C2 amended, witness at the concrete `Const` global. -/
theorem c2_globalset_amended_witness :
    exec1 hostEnv0 0 0 c2mod (.GlobalSet 0)
      = .ok (.next
          { c2mod with sp := c2mod.sp - 1, global := c2mod.global.set 0 (.Var (.I32 9)) }) :=
  c2_globalset_amended hostEnv0 0 0 c2mod 0 (.I32 9) rfl (by decide) (by decide)

/-- C3 counterexample: `br_if` with the non-zero (negative) condition `-5`
does not branch — it falls through to the next instruction. -/
theorem c3_brif_counterexample :
    exec1 hostEnv0 0 0 c3mod (.BrIf 0 0) = .ok (.next { c3mod with sp := 0 }) ∧
    (-5 : Int) ≠ 0 :=
  ⟨rfl, by decide⟩

/-- C3 amended: `br_if` branches iff the popped `i32` condition is
strictly positive (`v > 0` as a signed comparison), not iff it is
non-zero. -/
theorem c3_brif_amended (env : HostEnv) (fuel offset : Nat) (m : WasmModule)
    (l e : Nat) (v : Int)
    (hv : m.stack[m.sp]? = some (.I32 v)) (hsp : 1 ≤ m.sp) :
    exec1 env fuel offset m (.BrIf l e)
      = if 0 < v then (jump { m with sp := m.sp - 1 } e).map StepOut.jmp
        else .ok (.next { m with sp := m.sp - 1 }) := by
  unfold exec1
  rw [exec1F_brIf]
  unfold getStack checkedSub
  rw [hv, if_pos hsp]

/-- C3 amended, witness at the concrete condition `1`. -/
theorem c3_brif_amended_witness :
    exec1 hostEnv0 0 0 c3mod2 (.BrIf 0 0)
      = if (0 : Int) < 1 then
          (jump { c3mod2 with sp := c3mod2.sp - 1 } 0).map StepOut.jmp
        else .ok (.next { c3mod2 with sp := c3mod2.sp - 1 }) :=
  c3_brif_amended hostEnv0 0 0 c3mod2 0 0 1 rfl (by decide)

/-- C5 counterexample: `call_indirect` with an in-range-typed but
out-of-range index into an empty table panics with an untyped index error
(a Rust `Vec` index panic), not a typed trap value surfaced to the
caller. -/
theorem c5_callindirect_counterexample :
    exec1 hostEnv0 0 0 c5mod (.CallIndirect 0 0) = .error .panicIndex ∧
    RErr.panicIndex ≠ RErr.anyhowErr :=
  ⟨rfl, by decide⟩

/-- C5 amended: a non-negative `i32` table index at or past the selected
table's element count makes `call_indirect` panic with an index error. -/
theorem c5_callindirect_amended (env : HostEnv) (fuel offset : Nat) (m : WasmModule)
    (tyi ti : Nat) (i : Int) (row : List Nat)
    (hv : m.stack[m.sp]? = some (.I32 i)) (hsp : 1 ≤ m.sp)
    (ht : m.table[ti]? = some row) (hnn : 0 ≤ i) (hoob : row.length ≤ i.toNat) :
    exec1 env fuel offset m (.CallIndirect tyi ti) = .error .panicIndex := by
  unfold exec1
  rw [exec1F_callIndirect]
  unfold getStack checkedSub
  rw [hv, if_pos hsp, ht]
  simp [show ¬ i < 0 from by omega, List.getElem?_eq_none hoob]

/-- C5 amended, witness at the concrete empty table. -/
theorem c5_callindirect_amended_witness :
    exec1 hostEnv0 0 0 c5mod (.CallIndirect 0 0) = .error .panicIndex :=
  c5_callindirect_amended hostEnv0 0 0 c5mod 0 0 0 [] rfl (by decide) rfl
    (by decide) (by decide)

/-- C6: `i64.extend_i32_u` on the `i32` value `-1` produces the `i64`
value `-1` (`val as i64` sign-extends), not the zero-extension
`4294967295`. -/
theorem c6_extend_i32_u_bug :
    exec1 hostEnv0 0 0 c6mod .I64ExtendsI32u
      = .ok (.next { c6mod with stack := [.NOP, .I64 (-1)] }) ∧
    (-1 : Int) ≠ 4294967295 :=
  ⟨rfl, by decide⟩

set_option maxHeartbeats 3200000 in
set_option maxRecDepth 10000 in
/-- C7: a local function that pushes `i32 1` then `i32 2` (so its final
top-two stack slots are `[1, 2]` bottom-to-top) returns the result list
`[2, 1]`: the results are handed to the caller in reversed order. -/
theorem c7_result_order_bug :
    (call hostEnv0 10 c7mod 0).map Prod.fst = .ok [WasmValue.I32 2, WasmValue.I32 1] ∧
    [WasmValue.I32 2, WasmValue.I32 1] ≠ [WasmValue.I32 1, WasmValue.I32 2] :=
  ⟨rfl, by decide⟩

/-- C10: `start` is determined by the `"_start"` entry of the export map
alone — a missing entry or a non-`Func` entry is an error before any
function runs, and a `Func idx` entry makes `start` exactly a `call` of
`idx` on the pointer-reset module.  The quantification over `m` covers
every binary Start section content. -/
theorem c10_start_export_only (env : HostEnv) (fuel : Nat) (m : WasmModule) :
    (List.lookup startName m.exports = none → start env fuel m = .error .anyhowErr) ∧
    (∀ i, List.lookup startName m.exports = some (.Table i) →
      start env fuel m = .error .anyhowErr) ∧
    (∀ i, List.lookup startName m.exports = some (.Memory i) →
      start env fuel m = .error .anyhowErr) ∧
    (∀ i, List.lookup startName m.exports = some (.GLobal i) →
      start env fuel m = .error .anyhowErr) ∧
    (∀ idx, List.lookup startName m.exports = some (.Func idx) →
      start env fuel m =
        (call env fuel { m with sp := 0, fp := 0, pc := 0, csp := 0 } idx).map
          Prod.snd) := by
  unfold start
  refine ⟨fun h => by rw [h], fun i h => by rw [h], fun i h => by rw [h],
    fun i h => by rw [h], fun idx h => by rw [h]⟩

/-- C10 witness: on a module exporting `"_start"` as function 0 while its
binary Start section names function 1, `start` is the call of function
0. -/
theorem c10_start_export_only_witness :
    start hostEnv0 3 c10mod =
      (call hostEnv0 3 { c10mod with sp := 0, fp := 0, pc := 0, csp := 0 } 0).map
        Prod.snd :=
  (c10_start_export_only hostEnv0 3 c10mod).2.2.2.2 0 rfl
end Oxygen
